import Mathlib

/-!
# USB class driver (`usb_host_lib/main/class_driver.c`): enumeration sequencer

Shallow embedding of `class_driver.c`.

* The driver object `class_driver_t` is a record; pointers are natural numbers with
  `NULL = 0`; `actions` is the `uint32_t` bit mask of pending `action_t` flags.
* The USB Host Library is outside the repository.  What it returns is an input of the
  model (`usb_host`): one field per call the source makes.
* Every call into the library, every `printf` / `ESP_LOGI`, and every branch taken by the
  dispatcher in `class_driver_task` is appended to a log (`world.out`), so that the order
  of calls can be stated.  The `branch` entries are ghost markers, everything else is a
  call the C code performs.
* `assert`, `ESP_ERROR_CHECK` and `abort()` end the program: functions return
  `Except halt _`, the `halt` carries the log up to that point.  Assertions are enabled.
-/

namespace ClassDriver

/-! ## Types of the USB Host Library used by the source -/

/-- The `esp_err_t` status code. -/
abbrev esp_err_t := Int

/-- The success status `ESP_OK`. -/
def ESP_OK : esp_err_t := 0

/-- The null pointer. -/
def NULL : Nat := 0

/-- The fields of `usb_device_desc_t` read by the source; `addr` is the pointer value. -/
structure usb_device_desc_t where
  addr : Nat
  bDeviceClass : Nat
  bDeviceSubClass : Nat
  bDeviceProtocol : Nat
deriving DecidableEq, Repr

/-- The fields of `usb_config_desc_t` read by the source; `addr` is the pointer value. -/
structure usb_config_desc_t where
  addr : Nat
  wTotalLength : Nat
deriving DecidableEq, Repr

/-- The fields of `usb_iad_desc_t` read by the source; `addr` is the pointer value. -/
structure usb_iad_desc_t where
  addr : Nat
  bFirstInterface : Nat
  bInterfaceCount : Nat
  bFunctionClass : Nat
  bFunctionSubClass : Nat
deriving DecidableEq, Repr

/-- The fields of `usb_intf_desc_t`; `addr` is the pointer value. -/
structure usb_intf_desc_t where
  addr : Nat
  bLength : Nat
  bDescriptorType : Nat
  bInterfaceNumber : Nat
  bAlternateSetting : Nat
  bNumEndpoints : Nat
  bInterfaceClass : Nat
  bInterfaceSubClass : Nat
  bInterfaceProtocol : Nat
  iInterface : Nat
deriving DecidableEq, Repr

/-- The fields of `usb_ep_desc_t`; `addr` is the pointer value. -/
structure usb_ep_desc_t where
  addr : Nat
  bLength : Nat
  bDescriptorType : Nat
  bEndpointAddress : Nat
  bmAttributes : Nat
  wMaxPacketSize : Nat
  bInterval : Nat
deriving DecidableEq, Repr

/-- The fields of `usb_device_info_t` read by the source.  `speed_low` is
`dev_info.speed == USB_SPEED_LOW`; the three string descriptors are pointers. -/
structure usb_device_info_t where
  speed_low : Bool
  bConfigurationValue : Nat
  str_desc_manufacturer : Nat
  str_desc_product : Nat
  str_desc_serial_num : Nat
deriving DecidableEq, Repr

/-- The event message `usb_host_client_event_msg_t` passed to the client callback.
`other` stands for any `event` value outside the two the library defines. -/
inductive usb_host_client_event_msg_t where
  | USB_HOST_CLIENT_EVENT_NEW_DEV (address : Nat)
  | USB_HOST_CLIENT_EVENT_DEV_GONE (dev_hdl : Nat)
  | other (event : Nat)
deriving DecidableEq, Repr

/-! ## Constants -/

/-- Modelled from the spec: the class code `USB_CLASS_PER_INTERFACE` of the library
headers (the null class code, 0x00). -/
def USB_CLASS_PER_INTERFACE : Nat := 0x00
/-- Modelled from the spec: the class code `USB_CLASS_COMM` of the library headers
(communications class, 0x02). -/
def USB_CLASS_COMM : Nat := 0x02
/-- Modelled from the spec: the class code `USB_CLASS_MISC` of the library headers
(miscellaneous class, 0xEF, first member of the IAD marker triple). -/
def USB_CLASS_MISC : Nat := 0xEF
/-- Modelled from the spec: the descriptor type tag of an interface association
descriptor, `USB_B_DESCRIPTOR_TYPE_INTERFACE_ASSOCIATION` of the library headers. -/
def USB_B_DESCRIPTOR_TYPE_INTERFACE_ASSOCIATION : Nat := 0x0B

def USB_SUBCLASS_NULL : Nat := 0x00
def USB_SUBCLASS_COMMON : Nat := 0x02
def USB_PROTOCOL_NULL : Nat := 0x00
def USB_DEVICE_PROTOCOL_IAD : Nat := 0x01

/-- Modelled from the spec: `USB_BM_ATTRIBUTES_XFERTYPE_MASK` of the library headers, the
low 2 bits of the attribute byte. -/
def USB_BM_ATTRIBUTES_XFERTYPE_MASK : Nat := 0x03
/-- Modelled from the spec: transfer type code for control endpoints. -/
def USB_BM_ATTRIBUTES_XFER_CONTROL : Nat := 0
/-- Modelled from the spec: transfer type code for isochronous endpoints. -/
def USB_BM_ATTRIBUTES_XFER_ISOC : Nat := 1
/-- Modelled from the spec: transfer type code for bulk endpoints (the bulk code). -/
def USB_BM_ATTRIBUTES_XFER_BULK : Nat := 2
/-- Modelled from the spec: transfer type code for interrupt endpoints (the interrupt
code). -/
def USB_BM_ATTRIBUTES_XFER_INT : Nat := 3
/-- Modelled from the spec: `usb_transfer_type_t` value for bulk. -/
def USB_TRANSFER_TYPE_BULK : Nat := 2
/-- Modelled from the spec: `usb_transfer_type_t` value for interrupt. -/
def USB_TRANSFER_TYPE_INTR : Nat := 3
/-- Modelled from the spec: the direction bit of the endpoint address byte (its high
bit). -/
def USB_B_ENDPOINT_ADDRESS_EP_DIR_MASK : Nat := 0x80
/-- Modelled from the spec: the endpoint number bits of the endpoint address byte. -/
def USB_B_ENDPOINT_ADDRESS_EP_NUM_MASK : Nat := 0x0F

/-- Modelled from the spec: the library macro `USB_EP_DESC_GET_XFERTYPE`, the low 2 bits
of `bmAttributes`. -/
def USB_EP_DESC_GET_XFERTYPE (ep_desc : usb_ep_desc_t) : Nat :=
  ep_desc.bmAttributes &&& USB_BM_ATTRIBUTES_XFERTYPE_MASK

/-- Modelled from the spec: the library macro `USB_EP_DESC_GET_EP_DIR`, 1 when the high
bit of `bEndpointAddress` is set and 0 otherwise. -/
def USB_EP_DESC_GET_EP_DIR (ep_desc : usb_ep_desc_t) : Nat :=
  if ep_desc.bEndpointAddress &&& USB_B_ENDPOINT_ADDRESS_EP_DIR_MASK ≠ 0 then 1 else 0

/-- Modelled from the spec: the library macro `USB_EP_DESC_GET_EP_NUM`. -/
def USB_EP_DESC_GET_EP_NUM (ep_desc : usb_ep_desc_t) : Nat :=
  ep_desc.bEndpointAddress &&& USB_B_ENDPOINT_ADDRESS_EP_NUM_MASK

/-! ## `action_t` and `class_driver_t` -/

/-- The enumeration `action_t`. -/
inductive action_t where
  | ACTION_OPEN_DEV
  | ACTION_GET_DEV_INFO
  | ACTION_GET_DEV_DESC
  | ACTION_GET_CONFIG_DESC
  | ACTION_GET_STR_DESC
  | ACTION_CLOSE_DEV
  | ACTION_EXIT
  | ACTION_RECONNECT
deriving DecidableEq, Repr

open action_t

/-- The numeric value of each `action_t` enumerator. -/
def action_t.val : action_t → Nat
  | ACTION_OPEN_DEV => 0x01
  | ACTION_GET_DEV_INFO => 0x02
  | ACTION_GET_DEV_DESC => 0x04
  | ACTION_GET_CONFIG_DESC => 0x08
  | ACTION_GET_STR_DESC => 0x10
  | ACTION_CLOSE_DEV => 0x20
  | ACTION_EXIT => 0x40
  | ACTION_RECONNECT => 0x80

/-- The C expression `~flag` converted to `uint32_t`, as in `actions &= ~flag`. -/
def bnot32 (flag : Nat) : Nat := 0xFFFFFFFF ^^^ flag

/-- The struct `class_driver_t`. -/
structure class_driver_t where
  client_hdl : Nat
  dev_addr : Nat
  dev_hdl : Nat
  actions : Nat
deriving DecidableEq, Repr

/-- The C test `actions & flag`: the flag is pending. -/
def pending (actions : Nat) (flag : action_t) : Prop := actions &&& flag.val ≠ 0

instance (actions : Nat) (flag : action_t) : Decidable (pending actions flag) :=
  inferInstanceAs (Decidable (actions &&& flag.val ≠ 0))

/-! ## The log and abnormal termination -/

/-- An argument of `printf` / `ESP_LOGI`: an integer, or a `char *` (`none` is `NULL`). -/
inductive printf_arg where
  | int (n : Int)
  | str (s : Option String)
deriving DecidableEq, Repr

/-- One entry of the log: a call performed by the C code, with its arguments, or the
ghost marker `branch flag` written when the dispatcher takes the branch of `flag`. -/
inductive event where
  | branch (flag : action_t)
  | ESP_LOGI (tag : String) (fmt : String) (args : List printf_arg)
  | printf (fmt : String) (args : List printf_arg)
  | usb_host_client_register
  | usb_host_client_handle_events (client_hdl : Nat)
  | usb_host_client_deregister (client_hdl : Nat)
  | usb_host_client_unblock (client_hdl : Nat)
  | usb_host_device_open (client_hdl : Nat) (dev_addr : Nat)
  | usb_host_device_info (dev_hdl : Nat)
  | usb_host_get_device_descriptor (dev_hdl : Nat)
  | usb_host_get_active_config_descriptor (dev_hdl : Nat)
  | usb_host_device_close (client_hdl : Nat) (dev_hdl : Nat)
  | usb_print_device_descriptor (dev_desc : Nat)
  | usb_print_config_descriptor (config_desc : Nat)
  | usb_print_string_descriptor (str_desc : Nat)
  | usb_parse_next_descriptor_of_type (desc : Nat) (wTotalLength : Nat)
      (bDescriptorType : Nat) (offset : Int)
  | usb_parse_interface_descriptor (config_desc : Nat) (bInterfaceNumber : Nat)
      (bAlternateSetting : Nat) (offset : Int)
  | usb_parse_endpoint_descriptor_by_index (intf_desc : Nat) (index : Nat)
      (wTotalLength : Nat) (offset : Int)
  | vTaskSuspend
deriving DecidableEq, Repr

/-- The program state: the driver object and the log of what has been done so far. -/
structure world where
  driver_obj : class_driver_t
  out : List event
deriving DecidableEq, Repr

/-- Why the program stopped.  A failed `assert` records the text of the asserted
expression, which its failure message prints, and the driver object as it is at that
point.  A failed `ESP_ERROR_CHECK` records the status and the driver object as it is at
that point (an output parameter of the failed call counts as not written). -/
inductive cause where
  | assert_failed (expr : String) (driver_obj : class_driver_t)
  | esp_error_check (rc : esp_err_t) (driver_obj : class_driver_t)
  | abort
  | out_of_fuel
deriving DecidableEq, Repr

/-- Abnormal end of the program, with the log up to that point.  `out_of_fuel` is not a
behaviour of the C code: it says that the descriptor search of `action_get_dev_desc` was
still running when the step bound of the model was reached. -/
structure halt where
  why : cause
  out : List event
deriving DecidableEq, Repr

/-- Append one entry to the log. -/
def world.emit (w : world) (e : event) : world := { w with out := w.out ++ [e] }

/-- The macro `assert(c)`; `expr` is the text of the expression `c` in the source. -/
def assert (expr : String) (c : Bool) (w : world) : Except halt world :=
  if c then .ok w else .error ⟨.assert_failed expr w.driver_obj, w.out⟩

/-- The macro `ESP_ERROR_CHECK(rc)`: aborts unless `rc == ESP_OK`. -/
def ESP_ERROR_CHECK (rc : esp_err_t) (w : world) : Except halt world :=
  if rc = ESP_OK then .ok w else .error ⟨.esp_error_check rc w.driver_obj, w.out⟩

/-! ## The USB Host Library as an input -/

/-- What the USB Host Library returns to the calls of the source during one dispatcher
pass.  For a library function with an output parameter the pair is (status, output).
The three parsing helpers are functions of their arguments; they return `none` for
`NULL`, and otherwise the descriptor found and the new value of `*offset`. -/
structure usb_host where
  /-- Result of `usb_host_client_register` in `class_driver_task`: status and client
  handle. -/
  client_register : esp_err_t × Nat
  /-- Status of `usb_host_client_deregister` in `class_driver_task`. -/
  client_deregister : esp_err_t
  /-- Status of `usb_host_client_unblock` in `class_driver_client_deregister`. -/
  client_unblock : esp_err_t
  /-- Result of `usb_host_device_open` in `action_open_dev`: status and device handle. -/
  device_open : esp_err_t × Nat
  /-- Result of `usb_host_device_info` in `action_get_info`. -/
  device_info : esp_err_t × usb_device_info_t
  /-- Result of `usb_host_get_device_descriptor` in `action_get_dev_desc`. -/
  get_device_descriptor : esp_err_t × usb_device_desc_t
  /-- Result of `usb_host_get_active_config_descriptor` in `action_get_dev_desc`. -/
  get_active_config_descriptor_dev : esp_err_t × usb_config_desc_t
  /-- Result of `usb_host_get_active_config_descriptor` in `action_get_config_desc`. -/
  get_active_config_descriptor : esp_err_t × usb_config_desc_t
  /-- Result of `usb_host_device_info` in `action_get_str_desc`. -/
  device_info_str : esp_err_t × usb_device_info_t
  /-- Status of `usb_host_device_close` in `action_close_dev`. -/
  device_close : esp_err_t
  /-- The helper `usb_parse_next_descriptor_of_type(desc, wTotalLength, bDescriptorType,
  &offset)`. -/
  usb_parse_next_descriptor_of_type : Nat → Nat → Nat → Int → Option (usb_iad_desc_t × Int)
  /-- The helper `usb_parse_interface_descriptor(config_desc, bInterfaceNumber,
  bAlternateSetting, &offset)`. -/
  usb_parse_interface_descriptor :
    usb_config_desc_t → Nat → Nat → Int → Option (usb_intf_desc_t × Int)
  /-- The helper `usb_parse_endpoint_descriptor_by_index(intf_desc, index, wTotalLength,
  &offset)`. -/
  usb_parse_endpoint_descriptor_by_index :
    usb_intf_desc_t → Nat → Nat → Int → Option (usb_ep_desc_t × Int)

/-! ## `client_event_cb` -/

/-- The callback `client_event_cb(event_msg, arg)`, `arg` being the driver object. -/
def client_event_cb (event_msg : usb_host_client_event_msg_t) (w : world) :
    Except halt world :=
  match event_msg with
  | .USB_HOST_CLIENT_EVENT_NEW_DEV address =>
    if w.driver_obj.dev_addr = 0 then
      let d := { w.driver_obj with dev_addr := address }
      -- Open the device next
      let d := { d with actions := d.actions ||| ACTION_OPEN_DEV.val }
      .ok { w with driver_obj := d }
    else
      .ok w
  | .USB_HOST_CLIENT_EVENT_DEV_GONE _ =>
    if w.driver_obj.dev_hdl ≠ NULL then
      -- Cancel any other actions and close the device next
      .ok { w with driver_obj := { w.driver_obj with actions := ACTION_CLOSE_DEV.val } }
    else
      .ok w
  | .other _ =>
    -- Should never occur
    .error ⟨.abort, w.out⟩

/-- The log tag `TAG`. -/
def TAG : String := "CLASS"

/-- The call `printf(fmt, args...)`. -/
def world.printf (w : world) (fmt : String) (args : List printf_arg) : world :=
  w.emit (.printf fmt args)

/-- The call `ESP_LOGI(TAG, fmt, args...)`. -/
def world.ESP_LOGI (w : world) (fmt : String) (args : List printf_arg) : world :=
  w.emit (.ESP_LOGI TAG fmt args)

/-- The assignment `driver_obj->actions = v`. -/
def world.set_actions (w : world) (v : Nat) : world :=
  { w with driver_obj := { w.driver_obj with actions := v } }

/-! ## The actions -/

/-- The function `action_open_dev`. -/
def action_open_dev (h : usb_host) (w : world) : Except halt world := do
  let w ← assert "driver_obj->dev_addr != 0" (w.driver_obj.dev_addr != 0) w
  let w := w.ESP_LOGI "Opening device at address %d" [.int w.driver_obj.dev_addr]
  let w := w.emit (.usb_host_device_open w.driver_obj.client_hdl w.driver_obj.dev_addr)
  let w ← ESP_ERROR_CHECK h.device_open.1 w
  let w := { w with driver_obj := { w.driver_obj with dev_hdl := h.device_open.2 } }
  -- Get the device's information next
  let w := w.set_actions (w.driver_obj.actions &&& bnot32 ACTION_OPEN_DEV.val)
  let w := w.set_actions (w.driver_obj.actions ||| ACTION_GET_DEV_INFO.val)
  return w

/-- The function `action_get_info`. -/
def action_get_info (h : usb_host) (w : world) : Except halt world := do
  let w ← assert "driver_obj->dev_hdl != NULL" (w.driver_obj.dev_hdl != NULL) w
  let w := w.ESP_LOGI "Getting device information" []
  let w := w.emit (.usb_host_device_info w.driver_obj.dev_hdl)
  let w ← ESP_ERROR_CHECK h.device_info.1 w
  let dev_info := h.device_info.2
  let w := w.ESP_LOGI "\t%s speed" [.str (some (if dev_info.speed_low then "Low" else "Full"))]
  let w := w.ESP_LOGI "\tbConfigurationValue %d" [.int dev_info.bConfigurationValue]
  -- Get the device descriptor next
  let w := w.set_actions (w.driver_obj.actions &&& bnot32 ACTION_GET_DEV_INFO.val)
  let w := w.set_actions (w.driver_obj.actions ||| ACTION_GET_DEV_DESC.val)
  return w

/-- The `do { ... } while (1)` loop of `action_get_dev_desc`: search the next interface
association descriptor from `this_desc` until the search returns `NULL`.  `fuel` bounds
the number of searches of the model; the C loop has no bound. -/
def iad_loop (h : usb_host) (wTotalLength : Nat) :
    Nat → Nat → Int → world → Except halt world
  | 0, _, _, w => .error ⟨.out_of_fuel, w.out⟩
  | fuel + 1, this_desc, desc_offset, w =>
    let w := w.emit (.usb_parse_next_descriptor_of_type this_desc wTotalLength
      USB_B_DESCRIPTOR_TYPE_INTERFACE_ASSOCIATION desc_offset)
    match h.usb_parse_next_descriptor_of_type this_desc wTotalLength
        USB_B_DESCRIPTOR_TYPE_INTERFACE_ASSOCIATION desc_offset with
    | none => .ok w  -- Reached end of configuration descriptor
    | some (iad_desc, desc_offset) =>
      let w := w.printf "iad_desc->bFirstInterface   %i \n" [.int iad_desc.bFirstInterface]
      let w := w.printf "iad_desc->bInterfaceCount   %i \n" [.int iad_desc.bInterfaceCount]
      let w := w.printf "iad_desc->bFunctionClass    %i \n" [.int iad_desc.bFunctionClass]
      let w := w.printf "iad_desc->bFunctionSubClass %i \n" [.int iad_desc.bFunctionSubClass]
      iad_loop h wTotalLength fuel iad_desc.addr desc_offset w

/-- The first condition of `action_get_dev_desc`: the class / subclass / protocol triple
of the device descriptor is the IAD triple or the null triple. -/
def is_composite_iad (dev_desc : usb_device_desc_t) : Bool :=
  ((dev_desc.bDeviceClass == USB_CLASS_MISC) && (dev_desc.bDeviceSubClass == USB_SUBCLASS_COMMON) &&
      (dev_desc.bDeviceProtocol == USB_DEVICE_PROTOCOL_IAD)) ||
    ((dev_desc.bDeviceClass == USB_CLASS_PER_INTERFACE) &&
      (dev_desc.bDeviceSubClass == USB_SUBCLASS_NULL) &&
      (dev_desc.bDeviceProtocol == USB_PROTOCOL_NULL))

/-- The function `action_get_dev_desc`. -/
def action_get_dev_desc (fuel : Nat) (h : usb_host) (w : world) : Except halt world := do
  let w ← assert "driver_obj->dev_hdl != NULL" (w.driver_obj.dev_hdl != NULL) w
  let w := w.ESP_LOGI "Getting device descriptor" []
  let desc_offset : Int := 0
  let w := w.emit (.usb_host_get_device_descriptor w.driver_obj.dev_hdl)
  let w ← ESP_ERROR_CHECK h.get_device_descriptor.1 w
  let dev_desc := h.get_device_descriptor.2
  let w := w.emit (.usb_host_get_active_config_descriptor w.driver_obj.dev_hdl)
  let w ← ESP_ERROR_CHECK h.get_active_config_descriptor_dev.1 w
  let config_desc := h.get_active_config_descriptor_dev.2
  let w := w.emit (.usb_print_device_descriptor dev_desc.addr)
  let w ←
    if is_composite_iad dev_desc then
      -- This is a composite device, that uses Interface Association Descriptor
      let w := w.printf "This is a composite device, that uses Interface Association Descriptor \n" []
      iad_loop h config_desc.wTotalLength fuel config_desc.addr desc_offset w
    else if dev_desc.bDeviceClass == USB_CLASS_COMM then
      -- This is a Communication Device Class
      pure (w.printf "This is a Communication Device Class \n" [])
    else
      pure w
  -- Get the device's config descriptor next
  let w := w.set_actions (w.driver_obj.actions &&& bnot32 ACTION_GET_DEV_DESC.val)
  let w := w.set_actions (w.driver_obj.actions ||| ACTION_GET_CONFIG_DESC.val)
  return w

/-- The `switch (type)` of `print_ep_desc`: the type string, `none` for `NULL`. -/
def ep_type_str (ep_desc : usb_ep_desc_t) : Option String :=
  let type := ep_desc.bmAttributes &&& USB_BM_ATTRIBUTES_XFERTYPE_MASK
  if type = USB_BM_ATTRIBUTES_XFER_CONTROL then some "CTRL"
  else if type = USB_BM_ATTRIBUTES_XFER_ISOC then some "ISOC"
  else if type = USB_BM_ATTRIBUTES_XFER_BULK then some "BULK"
  else if type = USB_BM_ATTRIBUTES_XFER_INT then some "INT"
  else none

/-- The function `print_ep_desc`. -/
def print_ep_desc (ep_desc : usb_ep_desc_t) (w : world) : world :=
  let ep_type_str := ep_type_str ep_desc
  let w := w.printf "\t\t*** Endpoint descriptor ***\n" []
  let w := w.printf "\t\tbLength %d\n" [.int ep_desc.bLength]
  let w := w.printf "\t\tbDescriptorType %d\n" [.int ep_desc.bDescriptorType]
  let w := w.printf "\t\tbEndpointAddress 0x%x\tEP %d %s\n"
    [.int ep_desc.bEndpointAddress, .int (USB_EP_DESC_GET_EP_NUM ep_desc),
     .str (some (if USB_EP_DESC_GET_EP_DIR ep_desc ≠ 0 then "IN" else "OUT"))]
  let w :=
    if USB_EP_DESC_GET_XFERTYPE ep_desc = USB_TRANSFER_TYPE_INTR then
      -- Notification channel does not have its dedicated interface
      w.printf "\t\t NOTIF \n" []
    else if USB_EP_DESC_GET_XFERTYPE ep_desc = USB_TRANSFER_TYPE_BULK then
      if USB_EP_DESC_GET_EP_DIR ep_desc ≠ 0 then
        w.printf "\t\t IN \n" []
      else
        w.printf "\t\t OUT \n" []
    else w
  let w := w.printf "\t\tbmAttributes 0x%x\t%s\n" [.int ep_desc.bmAttributes, .str ep_type_str]
  let w := w.printf "\t\twMaxPacketSize %d\n" [.int ep_desc.wMaxPacketSize]
  let w := w.printf "\t\tbInterval %d\n" [.int ep_desc.bInterval]
  w

/-- The function `usbh_print_intf_desc`. -/
def usbh_print_intf_desc (intf_desc : usb_intf_desc_t) (w : world) : world :=
  let w := w.printf "\t*** Interface descriptor ***\n" []
  let w := w.printf "\tbLength %d\n" [.int intf_desc.bLength]
  let w := w.printf "\tbDescriptorType %d\n" [.int intf_desc.bDescriptorType]
  let w := w.printf "\tbInterfaceNumber %d\n" [.int intf_desc.bInterfaceNumber]
  let w := w.printf "\tbAlternateSetting %d\n" [.int intf_desc.bAlternateSetting]
  let w := w.printf "\tbNumEndpoints %d\n" [.int intf_desc.bNumEndpoints]
  let w := w.printf "\tbInterfaceClass 0x%x\n" [.int intf_desc.bInterfaceClass]
  let w := w.printf "\tbInterfaceSubClass 0x%x\n" [.int intf_desc.bInterfaceSubClass]
  let w := w.printf "\tbInterfaceProtocol 0x%x\n" [.int intf_desc.bInterfaceProtocol]
  let w := w.printf "\tiInterface %d\n" [.int intf_desc.iInterface]
  w

/-- The inner loop of `action_get_config_desc`,
`for (int i = 0; i < intf_desc->bNumEndpoints; i++)`, for the interface with index `j`.
The first counter is the number of iterations left, `bNumEndpoints - i`; the result
carries the value of `desc_offset` after the loop. -/
def ep_loop (h : usb_host) (intf_desc : usb_intf_desc_t) (j : Nat) (wTotalLength : Nat)
    (temp_offset : Int) : Nat → Nat → Int → world → Except halt (world × Int)
  | 0, _, desc_offset, w => .ok (w, desc_offset)
  | n + 1, i, desc_offset, w =>
    let w := w.emit (.usb_parse_endpoint_descriptor_by_index intf_desc.addr i wTotalLength
      desc_offset)
    match h.usb_parse_endpoint_descriptor_by_index intf_desc i wTotalLength desc_offset with
    | none => .error ⟨.assert_failed "this_ep" w.driver_obj, w.out⟩  -- assert(this_ep)
    | some (this_ep, _) =>
      let w := w.printf "found Endpoint: %i on Interface %i " [.int i, .int j]
      let w :=
        if USB_EP_DESC_GET_XFERTYPE this_ep = USB_TRANSFER_TYPE_INTR then
          -- Notification channel does not have its dedicated interface
          w.printf "this is a NOTIF/DATA EP \n" []
        else if USB_EP_DESC_GET_XFERTYPE this_ep = USB_TRANSFER_TYPE_BULK then
          if USB_EP_DESC_GET_EP_DIR this_ep ≠ 0 then
            w.printf "this is a IN EP \n" []
          else
            w.printf "this is a OUT EP \n" []
        else w
      let w := w.printf "\t*** ******************** Endpoint descriptor  begin ******************* ***\n" []
      let w := print_ep_desc this_ep w
      let w := w.printf "\t*** ******************** Endpoint descriptor  end ******************* ***\n" []
      -- desc_offset = temp_offset
      ep_loop h intf_desc j wTotalLength temp_offset n (i + 1) temp_offset w

/-- The outer loop of `action_get_config_desc`, `for (j = 0; j <= 50; ++j)`.  The first
counter is the number of iterations left, `51 - j`. -/
def intf_loop (h : usb_host) (config_desc : usb_config_desc_t) :
    Nat → Nat → Int → world → Except halt world
  | 0, _, _, w => .ok w
  | n + 1, j, desc_offset, w =>
    let w := w.emit (.usb_parse_interface_descriptor config_desc.addr j 0 desc_offset)
    match h.usb_parse_interface_descriptor config_desc j 0 desc_offset with
    | none => .ok w  -- if(intf_desc == NULL) break;
    | some (intf_desc, desc_offset) =>
      let temp_offset := desc_offset  -- Save this offset for later
      let w := w.printf "\t*** ******************** Interface descriptor begin ******************* ***\n" []
      let w := usbh_print_intf_desc intf_desc w
      let w := w.printf "\t*** ******************** Interface descriptor end ******************* ***\n" []
      -- Go through all interface's endpoints and parse Interrupt and Bulk endpoints
      match ep_loop h intf_desc j config_desc.wTotalLength temp_offset
          intf_desc.bNumEndpoints 0 desc_offset w with
      | .error e => .error e
      | .ok (w, desc_offset) => intf_loop h config_desc n (j + 1) desc_offset w

/-- The function `action_get_config_desc`. -/
def action_get_config_desc (h : usb_host) (w : world) : Except halt world := do
  let w ← assert "driver_obj->dev_hdl != NULL" (w.driver_obj.dev_hdl != NULL) w
  let w := w.ESP_LOGI "Getting config descriptor" []
  let w := w.emit (.usb_host_get_active_config_descriptor w.driver_obj.dev_hdl)
  let w ← ESP_ERROR_CHECK h.get_active_config_descriptor.1 w
  let config_desc := h.get_active_config_descriptor.2
  let w := w.printf "\t*** ******************** config descriptor begin ******************* ***\n" []
  let w := w.emit (.usb_print_config_descriptor config_desc.addr)
  let w := w.printf "\t*** ******************** config descriptor end ******************* ***\n" []
  let w ← intf_loop h config_desc 51 0 0 w
  -- Get the device's string descriptors next
  let w := w.set_actions (w.driver_obj.actions &&& bnot32 ACTION_GET_CONFIG_DESC.val)
  let w := w.set_actions (w.driver_obj.actions ||| ACTION_GET_STR_DESC.val)
  return w

/-- The function `action_get_str_desc`. -/
def action_get_str_desc (h : usb_host) (w : world) : Except halt world := do
  let w ← assert "driver_obj->dev_hdl != NULL" (w.driver_obj.dev_hdl != NULL) w
  let w := w.emit (.usb_host_device_info w.driver_obj.dev_hdl)
  let w ← ESP_ERROR_CHECK h.device_info_str.1 w
  let dev_info := h.device_info_str.2
  let w :=
    if dev_info.str_desc_manufacturer ≠ NULL then
      (w.ESP_LOGI "Getting Manufacturer string descriptor" []).emit
        (.usb_print_string_descriptor dev_info.str_desc_manufacturer)
    else w
  let w :=
    if dev_info.str_desc_product ≠ NULL then
      (w.ESP_LOGI "Getting Product string descriptor" []).emit
        (.usb_print_string_descriptor dev_info.str_desc_product)
    else w
  let w :=
    if dev_info.str_desc_serial_num ≠ NULL then
      (w.ESP_LOGI "Getting Serial Number string descriptor" []).emit
        (.usb_print_string_descriptor dev_info.str_desc_serial_num)
    else w
  -- Nothing to do until the device disconnects
  let w := w.set_actions (w.driver_obj.actions &&& bnot32 ACTION_GET_STR_DESC.val)
  return w

/-- The function `action_close_dev`. -/
def action_close_dev (h : usb_host) (w : world) : Except halt world := do
  let w := w.emit (.usb_host_device_close w.driver_obj.client_hdl w.driver_obj.dev_hdl)
  let w ← ESP_ERROR_CHECK h.device_close w
  let w := { w with driver_obj := { w.driver_obj with dev_hdl := NULL } }
  let w := { w with driver_obj := { w.driver_obj with dev_addr := 0 } }
  -- We need to connect a new device
  let w := w.set_actions (w.driver_obj.actions &&& bnot32 ACTION_CLOSE_DEV.val)
  let w := w.set_actions (w.driver_obj.actions ||| ACTION_RECONNECT.val)
  return w

/-! ## `class_driver_task` and `class_driver_client_deregister` -/

/-- One statement `if (driver_obj.actions & FLAG) { action(&driver_obj); }` of the
dispatcher; the branch taken is marked in the log. -/
def run_if_pending (flag : action_t) (action : world → Except halt world) (w : world) :
    Except halt world :=
  if pending w.driver_obj.actions flag then action (w.emit (.branch flag)) else .ok w

/-- The `else` branch of the loop body of `class_driver_task` (one dispatcher pass).
The Boolean of the result says whether the loop was left by `break`. -/
def class_driver_task_pass (fuel : Nat) (h : usb_host) (w : world) :
    Except halt (world × Bool) := do
  let w ← run_if_pending ACTION_OPEN_DEV (action_open_dev h) w
  let w ← run_if_pending ACTION_GET_DEV_INFO (action_get_info h) w
  let w ← run_if_pending ACTION_GET_DEV_DESC (action_get_dev_desc fuel h) w
  let w ← run_if_pending ACTION_GET_CONFIG_DESC (action_get_config_desc h) w
  let w ← run_if_pending ACTION_GET_STR_DESC (action_get_str_desc h) w
  let w ← run_if_pending ACTION_CLOSE_DEV (action_close_dev h) w
  if pending w.driver_obj.actions ACTION_EXIT then
    return (w.emit (.branch ACTION_EXIT), true)  -- break
  else if pending w.driver_obj.actions ACTION_RECONNECT then
    return ((w.emit (.branch ACTION_RECONNECT)).set_actions 0, false)
  else
    return (w, false)

/-- The callbacks run by one call of `usb_host_client_handle_events`: `client_event_cb`
for each delivered message, in order. -/
def deliver : List usb_host_client_event_msg_t → world → Except halt world
  | [], w => .ok w
  | event_msg :: rest, w =>
    match client_event_cb event_msg w with
    | .error e => .error e
    | .ok w => deliver rest w

/-- The inputs of one iteration of the `while (1)` loop of `class_driver_task`: what the
library returns during a dispatcher pass, and the messages that
`usb_host_client_handle_events` delivers if the iteration calls it. -/
structure loop_input where
  host : usb_host
  msgs : List usb_host_client_event_msg_t

/-- The `while (1)` loop of `class_driver_task`, one `loop_input` per iteration.  The
Boolean of the result is `true` when the loop was left by `break`, and `false` when the
inputs are used up and the loop is still running. -/
def class_driver_task_loop (fuel : Nat) : List loop_input → world → Except halt (world × Bool)
  | [], w => .ok (w, false)
  | i :: rest, w =>
    if w.driver_obj.actions = 0 then
      match deliver i.msgs (w.emit (.usb_host_client_handle_events w.driver_obj.client_hdl)) with
      | .error e => .error e
      | .ok w => class_driver_task_loop fuel rest w
    else
      match class_driver_task_pass fuel i.host w with
      | .error e => .error e
      | .ok (w, true) => .ok (w, true)
      | .ok (w, false) => class_driver_task_loop fuel rest w

/-- The end of `class_driver_task`, after the loop. -/
def class_driver_task_exit (h : usb_host) (w : world) : Except halt world := do
  let w := w.ESP_LOGI "Deregistering Client" []
  let w := w.emit (.usb_host_client_deregister w.driver_obj.client_hdl)
  let w ← ESP_ERROR_CHECK h.client_deregister w
  return w.emit .vTaskSuspend

/-- The loop of `class_driver_task` followed, when the loop is left, by the end of the
task.  The Boolean says whether the task reached its end. -/
def class_driver_task_run (fuel : Nat) (h : usb_host) (inputs : List loop_input) (w : world) :
    Except halt (world × Bool) :=
  match class_driver_task_loop fuel inputs w with
  | .error e => .error e
  | .ok (w, false) => .ok (w, false)
  | .ok (w, true) =>
    match class_driver_task_exit h w with
    | .error e => .error e
    | .ok w => .ok (w, true)

/-- The driver object at the start of `class_driver_task`: `class_driver_t driver_obj = {0}`. -/
def driver_obj_init : class_driver_t := ⟨0, 0, NULL, 0⟩

/-- The function `class_driver_task`; `h` gives the results of registering and
deregistering the client. -/
def class_driver_task (fuel : Nat) (h : usb_host) (inputs : List loop_input) :
    Except halt (world × Bool) := do
  let w : world := ⟨driver_obj_init, []⟩
  let w := w.ESP_LOGI "Registering Client" []
  let w := w.emit .usb_host_client_register
  let w ← ESP_ERROR_CHECK h.client_register.1 w
  let w := { w with driver_obj := { w.driver_obj with client_hdl := h.client_register.2 } }
  class_driver_task_run fuel h inputs w

/-- The function `class_driver_client_deregister`, on the driver object `s_driver_obj`
points to. -/
def class_driver_client_deregister (h : usb_host) (w : world) : Except halt world := do
  let w :=
    if w.driver_obj.dev_hdl ≠ NULL then w.set_actions ACTION_CLOSE_DEV.val else w
  let w := w.set_actions (w.driver_obj.actions ||| ACTION_EXIT.val)
  -- Unblock, exit the loop and proceed to deregister client
  let w := w.emit (.usb_host_client_unblock w.driver_obj.client_hdl)
  ESP_ERROR_CHECK h.client_unblock w

/-! ## Definitions used in the statements and proofs -/

/-- The flag of a `branch` marker, `none` for every other log entry. -/
def event.flag? : event → Option action_t
  | .branch flag => some flag
  | _ => none

/-- The flags whose dispatcher branch was taken, in the order of the log. -/
def executed (out : List event) : List action_t := out.filterMap event.flag?

/-- The log at the end of a computation, whether it returned or halted. -/
def log_of {α : Type} (out : α → List event) : Except halt α → List event
  | .ok a => out a
  | .error e => e.out

/-- No dispatcher branch is recorded by `action`, whether it returns or halts. -/
def quiet (action : world → Except halt world) : Prop :=
  ∀ w, executed (log_of world.out (action w)) = executed w.out

/-- The fixed order in which the dispatcher checks the flags. -/
def priority_order : List action_t :=
  [ACTION_OPEN_DEV, ACTION_GET_DEV_INFO, ACTION_GET_DEV_DESC, ACTION_GET_CONFIG_DESC,
   ACTION_GET_STR_DESC, ACTION_CLOSE_DEV, ACTION_EXIT, ACTION_RECONNECT]

/-- The first flag of `priority_order` that is pending, if any. -/
def highest_pending (actions : Nat) : Option action_t :=
  priority_order.find? (fun flag => decide (pending actions flag))

/-- The branches taken by one dispatcher pass started in `w`, in order. -/
def pass_trace (fuel : Nat) (h : usb_host) (w : world) : List action_t :=
  (executed (log_of (fun r : world × Bool => r.1.out) (class_driver_task_pass fuel h w))).drop
    (executed w.out).length

/-- The part of a dispatcher pass `g` that checks the flags `S` in order: the branches it
takes are new log entries, in the order of `S`, the first one being the first pending
flag of `S`. -/
def ordered_dispatch (S : List action_t) (g : world → Except halt (world × Bool)) : Prop :=
  ∀ w, ∃ t, executed (log_of (fun r : world × Bool => r.1.out) (g w)) = executed w.out ++ t ∧
    t.Sublist S ∧ t.head? = S.find? (fun flag => decide (pending w.driver_obj.actions flag))

/-- The descriptor search of `action_get_dev_desc`, started at `this_desc` with
`desc_offset`, returns `NULL` within `fuel` searches. -/
def iad_search_ends (h : usb_host) (wTotalLength : Nat) : Nat → Nat → Int → Bool
  | 0, _, _ => false
  | fuel + 1, this_desc, desc_offset =>
    match h.usb_parse_next_descriptor_of_type this_desc wTotalLength
        USB_B_DESCRIPTOR_TYPE_INTERFACE_ASSOCIATION desc_offset with
    | none => true
    | some (iad_desc, desc_offset) => iad_search_ends h wTotalLength fuel iad_desc.addr desc_offset

/-- Every lookup of the inner loop of `action_get_config_desc` for the interface
`intf_desc`, from index `i` on, finds an endpoint record.  The counter is the number of
iterations left; every lookup starts from `temp_offset`. -/
def ep_lookups_found (h : usb_host) (intf_desc : usb_intf_desc_t) (wTotalLength : Nat)
    (temp_offset : Int) : Nat → Nat → Bool
  | 0, _ => true
  | n + 1, i =>
    (h.usb_parse_endpoint_descriptor_by_index intf_desc i wTotalLength temp_offset).isSome &&
      ep_lookups_found h intf_desc wTotalLength temp_offset n (i + 1)

/-- Every endpoint lookup made by the interface walk of `action_get_config_desc`, from
interface index `j` on, finds a record.  The counter is the number of iterations left. -/
def intf_lookups_found (h : usb_host) (config_desc : usb_config_desc_t) : Nat → Nat → Int → Bool
  | 0, _, _ => true
  | n + 1, j, desc_offset =>
    match h.usb_parse_interface_descriptor config_desc j 0 desc_offset with
    | none => true
    | some (intf_desc, temp_offset) =>
      ep_lookups_found h intf_desc config_desc.wTotalLength temp_offset
          intf_desc.bNumEndpoints 0 &&
        intf_lookups_found h config_desc n (j + 1) temp_offset

/-- Every call into the USB Host Library made by the actions of one dispatcher pass
succeeds: the status is `ESP_OK`, the opened device handle is not `NULL`, the search for
interface association descriptors ends within `fuel` searches when the device descriptor
asks for it, and every endpoint lookup of `action_get_config_desc` finds a record. -/
structure usb_host.succeeds (h : usb_host) (fuel : Nat) : Prop where
  device_open : h.device_open.1 = ESP_OK
  device_open_hdl : h.device_open.2 ≠ NULL
  device_info : h.device_info.1 = ESP_OK
  get_device_descriptor : h.get_device_descriptor.1 = ESP_OK
  get_active_config_descriptor_dev : h.get_active_config_descriptor_dev.1 = ESP_OK
  iad_search : is_composite_iad h.get_device_descriptor.2 = true →
    iad_search_ends h h.get_active_config_descriptor_dev.2.wTotalLength fuel
      h.get_active_config_descriptor_dev.2.addr 0 = true
  get_active_config_descriptor : h.get_active_config_descriptor.1 = ESP_OK
  endpoints : intf_lookups_found h h.get_active_config_descriptor.2 51 0 0 = true
  device_info_str : h.device_info_str.1 = ESP_OK
  device_close : h.device_close = ESP_OK

/-- The assertions of the actions hold throughout a dispatcher pass started with the
driver object `d` (given that a device that gets opened has a handle other than `NULL`):
`dev_addr != 0` if `ACTION_OPEN_DEV` is pending, and otherwise `dev_hdl != NULL` if one of
the four query actions is pending. -/
def assertions_hold (d : class_driver_t) : Prop :=
  (pending d.actions ACTION_OPEN_DEV → d.dev_addr ≠ 0) ∧
  (¬ pending d.actions ACTION_OPEN_DEV →
    (pending d.actions ACTION_GET_DEV_INFO ∨ pending d.actions ACTION_GET_DEV_DESC ∨
      pending d.actions ACTION_GET_CONFIG_DESC ∨ pending d.actions ACTION_GET_STR_DESC) →
    d.dev_hdl ≠ NULL)

/-- The driver object after a successful action that clears `own` and sets `next`. -/
def chain_effect (own next : action_t) (d : class_driver_t) : class_driver_t :=
  ⟨d.client_hdl, d.dev_addr, d.dev_hdl, (d.actions &&& bnot32 own.val) ||| next.val⟩

/-- The driver object after a successful `action_open_dev`. -/
def open_effect (h : usb_host) (d : class_driver_t) : class_driver_t :=
  ⟨d.client_hdl, d.dev_addr, h.device_open.2,
    (d.actions &&& bnot32 ACTION_OPEN_DEV.val) ||| ACTION_GET_DEV_INFO.val⟩

/-- The driver object after a successful `action_get_str_desc`. -/
def str_effect (d : class_driver_t) : class_driver_t :=
  ⟨d.client_hdl, d.dev_addr, d.dev_hdl, d.actions &&& bnot32 ACTION_GET_STR_DESC.val⟩

/-- The driver object after a successful `action_close_dev`. -/
def close_effect (d : class_driver_t) : class_driver_t :=
  ⟨d.client_hdl, 0, NULL, (d.actions &&& bnot32 ACTION_CLOSE_DEV.val) ||| ACTION_RECONNECT.val⟩

/-- One dispatcher statement on the pair (driver object, branches taken so far), for an
action that succeeds with effect `f`. -/
def when_pending (flag : action_t) (f : class_driver_t → class_driver_t)
    (s : class_driver_t × List action_t) : class_driver_t × List action_t :=
  if pending s.1.actions flag then (f s.1, s.2 ++ [flag]) else s

/-- The first five action statements of a dispatcher pass in which every action succeeds,
on the pair (driver object, branches taken so far). -/
def queries_effect (h : usb_host) (d : class_driver_t) : class_driver_t × List action_t :=
  when_pending ACTION_GET_STR_DESC str_effect
    (when_pending ACTION_GET_CONFIG_DESC (chain_effect ACTION_GET_CONFIG_DESC ACTION_GET_STR_DESC)
      (when_pending ACTION_GET_DEV_DESC (chain_effect ACTION_GET_DEV_DESC ACTION_GET_CONFIG_DESC)
        (when_pending ACTION_GET_DEV_INFO (chain_effect ACTION_GET_DEV_INFO ACTION_GET_DEV_DESC)
          (when_pending ACTION_OPEN_DEV (open_effect h) (d, [])))))

/-- The six action statements of a dispatcher pass in which every action succeeds, on the
pair (driver object, branches taken so far). -/
def actions_effect (h : usb_host) (d : class_driver_t) : class_driver_t × List action_t :=
  when_pending ACTION_CLOSE_DEV close_effect (queries_effect h d)

/-- The effect of a dispatcher pass in which every action succeeds: the driver object at
the end, the branches taken, and whether the loop is left. -/
def pass_effect (h : usb_host) (d : class_driver_t) : class_driver_t × List action_t × Bool :=
  let s := actions_effect h d
  if pending s.1.actions ACTION_EXIT then (s.1, s.2 ++ [ACTION_EXIT], true)
  else if pending s.1.actions ACTION_RECONNECT then
    (⟨s.1.client_hdl, s.1.dev_addr, s.1.dev_hdl, 0⟩, s.2 ++ [ACTION_RECONNECT], false)
  else (s.1, s.2, false)

/-- The handle is not `NULL` whenever one of the four query actions is pending. -/
def hdl_ok (d : class_driver_t) : Prop :=
  (pending d.actions ACTION_GET_DEV_INFO ∨ pending d.actions ACTION_GET_DEV_DESC ∨
    pending d.actions ACTION_GET_CONFIG_DESC ∨ pending d.actions ACTION_GET_STR_DESC) →
  d.dev_hdl ≠ NULL

/-- One input of a session: an event message handled by `client_event_cb`, or one action
executed with the library results `h`. -/
inductive session_input where
  | event (event_msg : usb_host_client_event_msg_t)
  | open_dev (h : usb_host)
  | get_info (h : usb_host)
  | get_dev_desc (fuel : Nat) (h : usb_host)
  | get_config_desc (h : usb_host)
  | get_str_desc (h : usb_host)
  | close_dev (h : usb_host)

/-- Handle one input of a session. -/
def session_input.apply : session_input → world → Except halt world
  | .event event_msg, w => client_event_cb event_msg w
  | .open_dev h, w => action_open_dev h w
  | .get_info h, w => action_get_info h w
  | .get_dev_desc fuel h, w => action_get_dev_desc fuel h w
  | .get_config_desc h, w => action_get_config_desc h w
  | .get_str_desc h, w => action_get_str_desc h w
  | .close_dev h, w => action_close_dev h w

/-- Handle the inputs of a session in order; the run ends with the first input on which
the program halts. -/
def session_run : List session_input → world → Except halt world
  | [], w => .ok w
  | i :: rest, w =>
    match i.apply w with
    | .error e => .error e
    | .ok w => session_run rest w

/-- The session of a driver object that has just been set up: no device address, no
device handle, nothing pending. -/
def initial_session (client_hdl : Nat) (out : List event) : world :=
  ⟨⟨client_hdl, 0, NULL, 0⟩, out⟩

/-- A library in which every call succeeds, for a communications-class device with one
interface that has one bulk IN endpoint. -/
def demo_host : usb_host where
  client_register := (ESP_OK, 1)
  client_deregister := ESP_OK
  client_unblock := ESP_OK
  device_open := (ESP_OK, 7)
  device_info := (ESP_OK, ⟨false, 1, 0, 0, 0⟩)
  get_device_descriptor := (ESP_OK, ⟨100, 0x02, 0, 0⟩)
  get_active_config_descriptor_dev := (ESP_OK, ⟨200, 25⟩)
  get_active_config_descriptor := (ESP_OK, ⟨200, 25⟩)
  device_info_str := (ESP_OK, ⟨false, 1, 0, 0, 0⟩)
  device_close := ESP_OK
  usb_parse_next_descriptor_of_type := fun _ _ _ _ => none
  usb_parse_interface_descriptor := fun config_desc j _ _ =>
    if j = 0 then some (⟨config_desc.addr + 9, 9, 4, 0, 0, 1, 0x0A, 0, 0, 0⟩, 9) else none
  usb_parse_endpoint_descriptor_by_index := fun intf_desc i _ offset =>
    if i < intf_desc.bNumEndpoints then
      some (⟨intf_desc.addr + 9 + 7 * i, 7, 5, 0x81, 0x02, 64, 0⟩, offset + 9 + 7 * i)
    else none

/-- A library whose configuration descriptor is malformed: its only interface declares
two endpoints, the buffer holds one. -/
def short_host : usb_host :=
  { demo_host with
    usb_parse_interface_descriptor := fun config_desc j _ _ =>
      if j = 0 then some (⟨config_desc.addr + 9, 9, 4, 0, 0, 2, 0x0A, 0, 0, 0⟩, 9) else none
    usb_parse_endpoint_descriptor_by_index := fun intf_desc i _ offset =>
      if i = 0 then some (⟨intf_desc.addr + 9, 7, 5, 0x81, 0x02, 64, 0⟩, offset + 9)
      else none }

/-- The classes of endpoints told apart when an endpoint is reported. -/
inductive ep_class_t where
  | notif
  | bulk_in
  | bulk_out
  | other
deriving DecidableEq, Repr

/-- The endpoint classification in the words of the specification: the low 2 bits of
the attribute byte equal to the interrupt code (3) give the notification endpoint
whatever the direction; equal to the bulk code (2) they give bulk IN when the high bit
(0x80) of the address byte is set and bulk OUT when it is clear. -/
def classify_endpoint (ep_desc : usb_ep_desc_t) : ep_class_t :=
  if ep_desc.bmAttributes &&& 0x03 = 3 then .notif
  else if ep_desc.bmAttributes &&& 0x03 = 2 then
    if ep_desc.bEndpointAddress &&& 0x80 ≠ 0 then .bulk_in else .bulk_out
  else .other

/-- The direction name of an endpoint: `IN` when the high bit of the address byte is
set. -/
def ep_dir_str (ep_desc : usb_ep_desc_t) : String :=
  if ep_desc.bEndpointAddress &&& 0x80 ≠ 0 then "IN" else "OUT"

/-- What `action_get_config_desc` prints for an endpoint of each class. -/
def config_desc_note : ep_class_t → List event
  | .notif => [.printf "this is a NOTIF/DATA EP \n" []]
  | .bulk_in => [.printf "this is a IN EP \n" []]
  | .bulk_out => [.printf "this is a OUT EP \n" []]
  | .other => []

/-- What `print_ep_desc` prints for an endpoint of each class, between the address line
and the attribute line. -/
def print_ep_note : ep_class_t → List event
  | .notif => [.printf "\t\t NOTIF \n" []]
  | .bulk_in => [.printf "\t\t IN \n" []]
  | .bulk_out => [.printf "\t\t OUT \n" []]
  | .other => []

/-- The report of `print_ep_desc` for an endpoint, given its class. -/
def ep_report (ep_desc : usb_ep_desc_t) : List event :=
  [.printf "\t\t*** Endpoint descriptor ***\n" [],
   .printf "\t\tbLength %d\n" [.int ep_desc.bLength],
   .printf "\t\tbDescriptorType %d\n" [.int ep_desc.bDescriptorType],
   .printf "\t\tbEndpointAddress 0x%x\tEP %d %s\n"
     [.int ep_desc.bEndpointAddress, .int (USB_EP_DESC_GET_EP_NUM ep_desc),
      .str (some (ep_dir_str ep_desc))]] ++
  print_ep_note (classify_endpoint ep_desc) ++
  [.printf "\t\tbmAttributes 0x%x\t%s\n" [.int ep_desc.bmAttributes, .str (ep_type_str ep_desc)],
   .printf "\t\twMaxPacketSize %d\n" [.int ep_desc.wMaxPacketSize],
   .printf "\t\tbInterval %d\n" [.int ep_desc.bInterval]]

/-- A library in which `usb_host_device_info` of `action_get_info` fails with status -1
(`ESP_FAIL`), everything else being as in `demo_host`. -/
def failing_info_host : usb_host :=
  { demo_host with device_info := (-1, ⟨false, 1, 0, 0, 0⟩) }

/-- A library like `demo_host` for a composite device: the device descriptor carries the
null class / subclass / protocol triple. -/
def composite_host : usb_host :=
  { demo_host with get_device_descriptor := (ESP_OK, ⟨100, 0x00, 0x00, 0x00⟩) }

/-- The log entry is a lookup of the interface walk: a call of
`usb_parse_interface_descriptor` or of `usb_parse_endpoint_descriptor_by_index`. -/
def event.is_lookup : event → Bool
  | .usb_parse_interface_descriptor _ _ _ _ => true
  | .usb_parse_endpoint_descriptor_by_index _ _ _ _ => true
  | _ => false

/-- The lookups of a log, in order. -/
def lookups (out : List event) : List event := out.filter event.is_lookup

/-- The interface indexes of the interface lookups of a log, in order. -/
def intf_indexes (out : List event) : List Nat :=
  out.filterMap (fun e =>
    match e with
    | .usb_parse_interface_descriptor _ bInterfaceNumber _ _ => some bInterfaceNumber
    | _ => none)

/-- The endpoint indexes of the endpoint lookups of a log, in order. -/
def ep_indexes (out : List event) : List Nat :=
  out.filterMap (fun e =>
    match e with
    | .usb_parse_endpoint_descriptor_by_index _ index _ _ => some index
    | _ => none)

/-- The endpoint lookups the specification states for one processed interface: exactly
`bNumEndpoints` lookups, with the indexes `0 .. bNumEndpoints - 1`, each starting from the
saved offset of the interface. -/
def expected_ep_lookups (intf_desc : usb_intf_desc_t) (wTotalLength : Nat)
    (temp_offset : Int) : List event :=
  (List.range intf_desc.bNumEndpoints).map (fun i =>
    event.usb_parse_endpoint_descriptor_by_index intf_desc.addr i wTotalLength temp_offset)

/-- The lookups the specification states for the interface walk, from interface index
`j` on with `n` indexes left: the interfaces are looked up by increasing index, the walk
stops at the first index without an interface record, and each interface found is
followed by its endpoint lookups. -/
def expected_walk (h : usb_host) (config_desc : usb_config_desc_t) : Nat → Nat → Int → List event
  | 0, _, _ => []
  | n + 1, j, desc_offset =>
    event.usb_parse_interface_descriptor config_desc.addr j 0 desc_offset ::
      match h.usb_parse_interface_descriptor config_desc j 0 desc_offset with
      | none => []
      | some (intf_desc, temp_offset) =>
        expected_ep_lookups intf_desc config_desc.wTotalLength temp_offset ++
          expected_walk h config_desc n (j + 1) temp_offset

/-- A library whose configuration descriptor is malformed: its only interface declares
two endpoints, the buffer holds none. -/
def no_ep_host : usb_host :=
  { demo_host with
    usb_parse_interface_descriptor := fun config_desc j _ _ =>
      if j = 0 then some (⟨config_desc.addr + 9, 9, 4, 0, 0, 2, 0x0A, 0, 0, 0⟩, 9) else none
    usb_parse_endpoint_descriptor_by_index := fun _ _ _ _ => none }

/-- One step in the life of the task: an event message handled by `client_event_cb`, an
external stop request (`class_driver_client_deregister`), or one dispatcher pass. -/
inductive task_input where
  | new_dev (address : Nat)
  | dev_gone (dev_hdl : Nat)
  | stop (h : usb_host)
  | pass (fuel : Nat) (h : usb_host)

/-- The steps of a run in which nothing goes wrong: a new device carries an address
other than 0, the library call of a stop request succeeds, and a pass has a library that
`succeeds`: its transport calls succeed, the descriptor search ends and every endpoint
lookup finds a record. -/
def task_input.admissible : task_input → Prop
  | .new_dev address => address ≠ 0
  | .dev_gone _ => True
  | .stop h => h.client_unblock = ESP_OK
  | .pass fuel h => h.succeeds fuel

/-- Take one step.  The Boolean of a dispatcher pass (loop left) is dropped. -/
def task_input.apply : task_input → world → Except halt world
  | .new_dev address, w => client_event_cb (.USB_HOST_CLIENT_EVENT_NEW_DEV address) w
  | .dev_gone dev_hdl, w => client_event_cb (.USB_HOST_CLIENT_EVENT_DEV_GONE dev_hdl) w
  | .stop h, w => class_driver_client_deregister h w
  | .pass fuel h, w =>
    match class_driver_task_pass fuel h w with
    | .error e => .error e
    | .ok (w, _) => .ok w

/-- Take the steps in order; the run ends with the first step on which the program
halts. -/
def task_run : List task_input → world → Except halt world
  | [], w => .ok w
  | i :: rest, w =>
    match i.apply w with
    | .error e => .error e
    | .ok w => task_run rest w

/-- The condition kept by every step of the task: a device address is recorded whenever
`ACTION_OPEN_DEV` is pending, and a device handle is open whenever one of the four query
actions is pending. -/
def session_ok (d : class_driver_t) : Prop :=
  (pending d.actions ACTION_OPEN_DEV → d.dev_addr ≠ 0) ∧ hdl_ok d

/-- The position of a flag in the fixed order of the dispatcher. -/
def action_t.idx : action_t → Nat
  | ACTION_OPEN_DEV => 0
  | ACTION_GET_DEV_INFO => 1
  | ACTION_GET_DEV_DESC => 2
  | ACTION_GET_CONFIG_DESC => 3
  | ACTION_GET_STR_DESC => 4
  | ACTION_CLOSE_DEV => 5
  | ACTION_EXIT => 6
  | ACTION_RECONNECT => 7

/-- No flag in a position before `k` is pending. -/
def drained_below (k : Nat) (actions : Nat) : Prop :=
  ∀ flag : action_t, flag.idx < k → ¬ pending actions flag

/-- The unit of work of one flag, as the dispatcher branch of that flag does it.  The
Boolean says whether the loop is left. -/
def execute_flag (fuel : Nat) (h : usb_host) : action_t → world → Except halt (world × Bool)
  | ACTION_OPEN_DEV, w =>
    match action_open_dev h (w.emit (.branch ACTION_OPEN_DEV)) with
    | .error e => .error e
    | .ok w => .ok (w, false)
  | ACTION_GET_DEV_INFO, w =>
    match action_get_info h (w.emit (.branch ACTION_GET_DEV_INFO)) with
    | .error e => .error e
    | .ok w => .ok (w, false)
  | ACTION_GET_DEV_DESC, w =>
    match action_get_dev_desc fuel h (w.emit (.branch ACTION_GET_DEV_DESC)) with
    | .error e => .error e
    | .ok w => .ok (w, false)
  | ACTION_GET_CONFIG_DESC, w =>
    match action_get_config_desc h (w.emit (.branch ACTION_GET_CONFIG_DESC)) with
    | .error e => .error e
    | .ok w => .ok (w, false)
  | ACTION_GET_STR_DESC, w =>
    match action_get_str_desc h (w.emit (.branch ACTION_GET_STR_DESC)) with
    | .error e => .error e
    | .ok w => .ok (w, false)
  | ACTION_CLOSE_DEV, w =>
    match action_close_dev h (w.emit (.branch ACTION_CLOSE_DEV)) with
    | .error e => .error e
    | .ok w => .ok (w, false)
  | ACTION_EXIT, w => .ok (w.emit (.branch ACTION_EXIT), true)
  | ACTION_RECONNECT, w => .ok ((w.emit (.branch ACTION_RECONNECT)).set_actions 0, false)

/-- The operation `run_pending_actions` in the words of the specification: while a flag
is pending, execute the first pending flag of the fixed priority order; `ACTION_EXIT`
ends the loop.  `steps` bounds the number of flags executed. -/
def run_pending_actions (fuel : Nat) (h : usb_host) : Nat → world → Except halt (world × Bool)
  | 0, w => .ok (w, false)
  | steps + 1, w =>
    match highest_pending w.driver_obj.actions with
    | none => .ok (w, false)
    | some flag =>
      match execute_flag fuel h flag w with
      | .error e => .error e
      | .ok (w, true) => .ok (w, true)
      | .ok (w, false) => run_pending_actions fuel h steps w

/-- The six action statements of the dispatcher pass of `class_driver_task`, in the order
of the source: the flag tested and the action called when the flag is pending. -/
def action_statements (fuel : Nat) (h : usb_host) :
    List (action_t × (world → Except halt world)) :=
  [(ACTION_OPEN_DEV, action_open_dev h),
   (ACTION_GET_DEV_INFO, action_get_info h),
   (ACTION_GET_DEV_DESC, action_get_dev_desc fuel h),
   (ACTION_GET_CONFIG_DESC, action_get_config_desc h),
   (ACTION_GET_STR_DESC, action_get_str_desc h),
   (ACTION_CLOSE_DEV, action_close_dev h)]

/-- Run statements `if (driver_obj.actions & FLAG) { action(&driver_obj); }` one after the
other; a halt ends the run. -/
def run_statements :
    List (action_t × (world → Except halt world)) → world → Except halt world
  | [], w => .ok w
  | (flag, action) :: rest, w =>
    match run_if_pending flag action w with
    | .error e => .error e
    | .ok w => run_statements rest w

/-- The endpoint lookups of the inner loop of `action_get_config_desc` for one interface,
as a list: lookups with the indexes `i`, `i + 1`, ... in increasing order, each starting
from the saved offset `temp_offset` of the interface, at most `n` of them, the first
lookup that finds no record being the last one (`assert(this_ep)`).  The Boolean says
that every lookup found a record. -/
def ep_lookups_made (h : usb_host) (intf_desc : usb_intf_desc_t) (wTotalLength : Nat)
    (temp_offset : Int) : Nat → Nat → List event × Bool
  | 0, _ => ([], true)
  | n + 1, i =>
    match h.usb_parse_endpoint_descriptor_by_index intf_desc i wTotalLength temp_offset with
    | none =>
      ([.usb_parse_endpoint_descriptor_by_index intf_desc.addr i wTotalLength temp_offset],
        false)
    | some _ =>
      (.usb_parse_endpoint_descriptor_by_index intf_desc.addr i wTotalLength temp_offset ::
          (ep_lookups_made h intf_desc wTotalLength temp_offset n (i + 1)).1,
        (ep_lookups_made h intf_desc wTotalLength temp_offset n (i + 1)).2)

/-- The lookups of the interface walk of `action_get_config_desc`, as a list, from
interface index `j` on with `n` indexes left: the interfaces are looked up by increasing
index, the walk stops at the first index without an interface record, each interface
found is followed by its endpoint lookups, and an endpoint lookup that finds no record
ends the walk (`assert(this_ep)`).  The Boolean says that every endpoint lookup found a
record. -/
def walk_made (h : usb_host) (config_desc : usb_config_desc_t) :
    Nat → Nat → Int → List event × Bool
  | 0, _, _ => ([], true)
  | n + 1, j, desc_offset =>
    match h.usb_parse_interface_descriptor config_desc j 0 desc_offset with
    | none => ([.usb_parse_interface_descriptor config_desc.addr j 0 desc_offset], true)
    | some (intf_desc, temp_offset) =>
      if (ep_lookups_made h intf_desc config_desc.wTotalLength temp_offset
          intf_desc.bNumEndpoints 0).2 then
        (.usb_parse_interface_descriptor config_desc.addr j 0 desc_offset ::
            ((ep_lookups_made h intf_desc config_desc.wTotalLength temp_offset
              intf_desc.bNumEndpoints 0).1 ++
              (walk_made h config_desc n (j + 1) temp_offset).1),
          (walk_made h config_desc n (j + 1) temp_offset).2)
      else
        (.usb_parse_interface_descriptor config_desc.addr j 0 desc_offset ::
            (ep_lookups_made h intf_desc config_desc.wTotalLength temp_offset
              intf_desc.bNumEndpoints 0).1,
          false)

/-- Every transport call of a dispatcher pass succeeds: each status is `ESP_OK` and the
device handle given by `usb_host_device_open` is not `NULL`.  Nothing is said about what
the parsing helpers find in the descriptors. -/
structure usb_host.calls_succeed (h : usb_host) : Prop where
  device_open : h.device_open.1 = ESP_OK
  device_open_hdl : h.device_open.2 ≠ NULL
  device_info : h.device_info.1 = ESP_OK
  get_device_descriptor : h.get_device_descriptor.1 = ESP_OK
  get_active_config_descriptor_dev : h.get_active_config_descriptor_dev.1 = ESP_OK
  get_active_config_descriptor : h.get_active_config_descriptor.1 = ESP_OK
  device_info_str : h.device_info_str.1 = ESP_OK
  device_close : h.device_close = ESP_OK

/-- The steps by which sessions are reached: a new device carries an address other than
0, and the transport calls of a stop request and of a dispatcher pass succeed. -/
def task_input.transport_ok : task_input → Prop
  | .new_dev address => address ≠ 0
  | .dev_gone _ => True
  | .stop h => h.client_unblock = ESP_OK
  | .pass _ h => h.calls_succeed

/-! ## Lemmas -/

theorem executed_emit (w : world) (e : event) :
    executed (w.emit e).out = executed w.out ++ (e.flag?).toList := by
  cases h : e.flag? <;> simp [executed, world.emit, List.filterMap_append, h]

theorem executed_printf (w : world) (f : String) (a : List printf_arg) :
    executed (w.printf f a).out = executed w.out := by
  simp [world.printf, executed_emit, event.flag?]

theorem executed_ESP_LOGI (w : world) (f : String) (a : List printf_arg) :
    executed (w.ESP_LOGI f a).out = executed w.out := by
  simp [world.ESP_LOGI, executed_emit, event.flag?]

theorem world.emit_driver_obj (w : world) (e : event) : (w.emit e).driver_obj = w.driver_obj := rfl

theorem world.printf_driver_obj (w : world) (f : String) (a : List printf_arg) :
    (w.printf f a).driver_obj = w.driver_obj := rfl

theorem executed_set_actions (w : world) (v : Nat) :
    executed (w.set_actions v).out = executed w.out := rfl

theorem print_ep_desc_executed (ep : usb_ep_desc_t) (w : world) :
    executed (print_ep_desc ep w).out = executed w.out := by
  unfold print_ep_desc
  simp only []
  split <;> [skip; split <;> [split; skip]] <;> simp [executed_printf]

theorem usbh_print_intf_desc_executed (d : usb_intf_desc_t) (w : world) :
    executed (usbh_print_intf_desc d w).out = executed w.out := by
  simp [usbh_print_intf_desc, executed_printf]

theorem iad_loop_executed (h : usb_host) (wtl : Nat) (fuel : Nat) :
    ∀ (cur : Nat) (off : Int) (w : world),
      executed (log_of world.out (iad_loop h wtl fuel cur off w)) = executed w.out := by
  induction fuel with
  | zero => intro cur off w; simp [iad_loop, log_of]
  | succ n ih =>
    intro cur off w
    unfold iad_loop
    simp only []
    split
    · simp [log_of, executed_emit, event.flag?]
    · rw [ih]; simp [executed_printf, executed_emit, event.flag?]

theorem ep_loop_executed (h : usb_host) (intf : usb_intf_desc_t) (j wtl : Nat) (t : Int)
    (n : Nat) : ∀ (i : Nat) (off : Int) (w : world),
      executed (log_of (fun r : world × Int => r.1.out)
        (ep_loop h intf j wtl t n i off w)) = executed w.out := by
  induction n with
  | zero => intro i off w; simp [ep_loop, log_of]
  | succ n ih =>
    intro i off w
    unfold ep_loop
    simp only []
    split
    · simp [log_of, executed_emit, event.flag?]
    · rw [ih]
      simp only [executed_printf, print_ep_desc_executed]
      split <;> [skip; split <;> [split; skip]] <;>
        simp [executed_printf, executed_emit, event.flag?]

theorem intf_loop_executed (h : usb_host) (cfg : usb_config_desc_t) (n : Nat) :
    ∀ (j : Nat) (off : Int) (w : world),
      executed (log_of world.out (intf_loop h cfg n j off w)) = executed w.out := by
  induction n with
  | zero => intro j off w; simp [intf_loop, log_of]
  | succ n ih =>
    intro j off w
    unfold intf_loop
    simp only []
    split
    · simp [log_of, executed_emit, event.flag?]
    · rename_i intf off' _
      have hep := ep_loop_executed h intf j cfg.wTotalLength off' intf.bNumEndpoints 0 off'
        (((w.emit (.usb_parse_interface_descriptor cfg.addr j 0 off)).printf
          "\t*** ******************** Interface descriptor begin ******************* ***\n" []
          |> usbh_print_intf_desc intf).printf
          "\t*** ******************** Interface descriptor end ******************* ***\n" [])
      split
      · rename_i e he
        rw [he] at hep
        simpa [log_of, executed_printf, usbh_print_intf_desc_executed, executed_emit,
          event.flag?] using hep
      · rename_i w1 off1 he
        rw [he] at hep
        rw [ih]
        simpa [log_of, executed_printf, usbh_print_intf_desc_executed, executed_emit,
          event.flag?] using hep

theorem executed_of_eq {α : Type} {out : α → List event} {x y : Except halt α} (hr : x = y)
    (E : List action_t) (hx : executed (log_of out x) = E) : executed (log_of out y) = E :=
  hr ▸ hx

theorem action_open_dev_quiet (h : usb_host) : quiet (action_open_dev h) := by
  intro w
  unfold action_open_dev assert ESP_ERROR_CHECK
  by_cases h1 : w.driver_obj.dev_addr = 0 <;> by_cases h2 : h.device_open.1 = ESP_OK <;>
    simp [h1, h2, bind, Except.bind, pure, Except.pure, log_of, executed_emit,
      executed_ESP_LOGI, executed_set_actions, event.flag?, world.emit_driver_obj]

theorem action_get_info_quiet (h : usb_host) : quiet (action_get_info h) := by
  intro w
  unfold action_get_info assert ESP_ERROR_CHECK
  by_cases h1 : w.driver_obj.dev_hdl = NULL <;> by_cases h2 : h.device_info.1 = ESP_OK <;>
    simp [h1, h2, bind, Except.bind, pure, Except.pure, log_of, executed_emit,
      executed_ESP_LOGI, executed_set_actions, event.flag?]

theorem action_get_str_desc_quiet (h : usb_host) : quiet (action_get_str_desc h) := by
  intro w
  unfold action_get_str_desc assert ESP_ERROR_CHECK
  by_cases h1 : w.driver_obj.dev_hdl = NULL <;> by_cases h2 : h.device_info_str.1 = ESP_OK <;>
    simp [h1, h2, bind, Except.bind, pure, Except.pure, log_of, executed_emit,
      executed_ESP_LOGI, executed_set_actions, event.flag?]
  split <;> split <;> split <;>
    simp [executed_emit, executed_ESP_LOGI, event.flag?]

theorem action_close_dev_quiet (h : usb_host) : quiet (action_close_dev h) := by
  intro w
  unfold action_close_dev ESP_ERROR_CHECK
  by_cases h2 : h.device_close = ESP_OK <;>
    simp [h2, bind, Except.bind, pure, Except.pure, log_of, executed_emit,
      executed_set_actions, event.flag?]

theorem action_get_config_desc_quiet (h : usb_host) : quiet (action_get_config_desc h) := by
  intro w
  unfold action_get_config_desc assert ESP_ERROR_CHECK
  by_cases h1 : w.driver_obj.dev_hdl = NULL
  · simp [h1, bind, Except.bind, log_of]
  by_cases h2 : h.get_active_config_descriptor.1 = ESP_OK
  · simp only [h1, h2, bind, Except.bind, pure, Except.pure, bne_iff_ne, ne_eq,
      not_false_eq_true, decide_True, if_true]
    have hl := intf_loop_executed h h.get_active_config_descriptor.2 51 0 0
      ((((w.ESP_LOGI "Getting config descriptor" []).emit
        (.usb_host_get_active_config_descriptor
          (w.ESP_LOGI "Getting config descriptor" []).driver_obj.dev_hdl)).printf
        "\t*** ******************** config descriptor begin ******************* ***\n" []
        |>.emit (.usb_print_config_descriptor h.get_active_config_descriptor.2.addr)).printf
        "\t*** ******************** config descriptor end ******************* ***\n" [])
    revert hl
    cases intf_loop h h.get_active_config_descriptor.2 51 0 0 _ <;>
      simp [log_of, executed_emit, executed_ESP_LOGI, executed_printf, executed_set_actions,
        event.flag?]
  · simp [h1, h2, bind, Except.bind, pure, Except.pure, log_of, executed_emit,
      executed_ESP_LOGI, executed_set_actions, event.flag?]

theorem action_get_dev_desc_quiet (fuel : Nat) (h : usb_host) :
    quiet (action_get_dev_desc fuel h) := by
  intro w
  unfold action_get_dev_desc assert ESP_ERROR_CHECK
  by_cases h1 : w.driver_obj.dev_hdl = NULL
  · simp [h1, bind, Except.bind, log_of]
  by_cases h2 : h.get_device_descriptor.1 = ESP_OK
  · by_cases h3 : h.get_active_config_descriptor_dev.1 = ESP_OK
    · simp only [h1, h2, h3, bind, Except.bind, pure, Except.pure, bne_iff_ne, ne_eq,
        not_false_eq_true, decide_True, if_true]
      split
      · cases hr : iad_loop h _ fuel _ 0 _ <;>
          have hl := executed_of_eq hr _ (iad_loop_executed _ _ _ _ _ _) <;>
          simpa [log_of, executed_emit, executed_ESP_LOGI, executed_printf,
            executed_set_actions, event.flag?] using hl
      · split <;>
          simp [log_of, executed_emit, executed_ESP_LOGI, executed_printf,
            executed_set_actions, event.flag?]
    · simp [h1, h2, h3, bind, Except.bind, pure, Except.pure, log_of, executed_emit,
        executed_ESP_LOGI, executed_set_actions, event.flag?]
  · simp [h1, h2, bind, Except.bind, pure, Except.pure, log_of, executed_emit,
      executed_ESP_LOGI, executed_set_actions, event.flag?]

theorem ordered_dispatch_step (flag : action_t) (S : List action_t)
    (action : world → Except halt world) (g : world → Except halt (world × Bool))
    (ha : quiet action) (hg : ordered_dispatch S g) :
    ordered_dispatch (flag :: S) (fun w => run_if_pending flag action w >>= g) := by
  intro w
  by_cases hp : pending w.driver_obj.actions flag
  · have hq := ha (w.emit (.branch flag))
    simp only [executed_emit, event.flag?, Option.toList] at hq
    cases hr : action (w.emit (.branch flag)) with
    | error e =>
      refine ⟨[flag], ?_, ?_, ?_⟩
      · rw [hr] at hq
        simpa [run_if_pending, hp, hr, bind, Except.bind, log_of] using hq
      · simp
      · simp [hp]
    | ok w1 =>
      obtain ⟨t, ht1, ht2, _⟩ := hg w1
      rw [hr] at hq
      refine ⟨flag :: t, ?_, ?_, ?_⟩
      · simp only [log_of] at hq
        simp [run_if_pending, hp, hr, bind, Except.bind, ht1, hq]
      · exact ht2.cons₂ flag
      · simp [hp]
  · obtain ⟨t, ht1, ht2, ht3⟩ := hg w
    refine ⟨t, ?_, ?_, ?_⟩
    · simpa [run_if_pending, hp, bind, Except.bind] using ht1
    · exact ht2.cons flag
    · simp [hp, ht3]

theorem ordered_dispatch_exit :
    ordered_dispatch [ACTION_EXIT, ACTION_RECONNECT] (fun w =>
      if pending w.driver_obj.actions ACTION_EXIT then
        pure (w.emit (.branch ACTION_EXIT), true)
      else if pending w.driver_obj.actions ACTION_RECONNECT then
        pure ((w.emit (.branch ACTION_RECONNECT)).set_actions 0, false)
      else
        pure (w, false)) := by
  intro w
  by_cases h1 : pending w.driver_obj.actions ACTION_EXIT
  · exact ⟨[ACTION_EXIT], by simp [h1, pure, Except.pure, log_of, executed_emit, event.flag?],
      by simp, by simp [h1]⟩
  · by_cases h2 : pending w.driver_obj.actions ACTION_RECONNECT
    · exact ⟨[ACTION_RECONNECT],
        by simp [h1, h2, pure, Except.pure, log_of, executed_emit, event.flag?,
          executed_set_actions],
        by simp, by simp [h1, h2]⟩
    · exact ⟨[], by simp [h1, h2, pure, Except.pure, log_of], by simp, by simp [h1, h2]⟩

theorem class_driver_task_pass_ordered (fuel : Nat) (h : usb_host) :
    ordered_dispatch priority_order (class_driver_task_pass fuel h) := by
  unfold class_driver_task_pass priority_order
  refine ordered_dispatch_step _ _ _ _ (action_open_dev_quiet h) ?_
  refine ordered_dispatch_step _ _ _ _ (action_get_info_quiet h) ?_
  refine ordered_dispatch_step _ _ _ _ (action_get_dev_desc_quiet fuel h) ?_
  refine ordered_dispatch_step _ _ _ _ (action_get_config_desc_quiet h) ?_
  refine ordered_dispatch_step _ _ _ _ (action_get_str_desc_quiet h) ?_
  refine ordered_dispatch_step _ _ _ _ (action_close_dev_quiet h) ?_
  exact ordered_dispatch_exit

theorem nat_or_eq_zero {x y : Nat} : x ||| y = 0 ↔ x = 0 ∧ y = 0 := by
  constructor
  · intro h
    have hb : ∀ i, (x ||| y).testBit i = false := by intro i; simp [h]
    constructor <;> apply Nat.eq_of_testBit_eq <;> intro i <;> have := hb i <;>
      simp only [Nat.testBit_or, Bool.or_eq_false_iff] at this <;> simp [this]
  · rintro ⟨rfl, rfl⟩; simp

theorem pending_or (a b : Nat) (Z : action_t) :
    pending (a ||| b) Z ↔ pending a Z ∨ pending b Z := by
  unfold pending
  rw [Nat.and_distrib_right, Ne, nat_or_eq_zero]
  tauto

theorem pending_val (Y Z : action_t) : pending Y.val Z ↔ Z = Y := by
  cases Y <;> cases Z <;> decide

theorem bnot32_and_val (X Z : action_t) :
    bnot32 X.val &&& Z.val = if Z = X then 0 else Z.val := by
  cases X <;> cases Z <;> decide

theorem pending_clear (a : Nat) (X Z : action_t) :
    pending (a &&& bnot32 X.val) Z ↔ Z ≠ X ∧ pending a Z := by
  unfold pending
  rw [Nat.and_assoc, bnot32_and_val]
  by_cases h : Z = X <;> simp [h]

theorem pending_zero (Z : action_t) : ¬ pending 0 Z := by
  simp [pending]

theorem print_ep_desc_driver_obj (ep : usb_ep_desc_t) (w : world) :
    (print_ep_desc ep w).driver_obj = w.driver_obj := by
  unfold print_ep_desc
  simp only []
  split <;> [skip; split <;> [split; skip]] <;> rfl

theorem iad_loop_driver_obj (h : usb_host) (wtl : Nat) (fuel : Nat) :
    ∀ (cur : Nat) (off : Int) (w w' : world), iad_loop h wtl fuel cur off w = .ok w' →
      w'.driver_obj = w.driver_obj := by
  induction fuel with
  | zero => intro cur off w w' hw; simp [iad_loop] at hw
  | succ n ih =>
    intro cur off w w' hw
    unfold iad_loop at hw
    simp only [] at hw
    split at hw
    · cases hw; rfl
    · rw [ih _ _ _ _ hw]; rfl

theorem iad_loop_ok (h : usb_host) (wtl : Nat) (fuel : Nat) :
    ∀ (cur : Nat) (off : Int) (w : world), iad_search_ends h wtl fuel cur off = true →
      ∃ w', iad_loop h wtl fuel cur off w = .ok w' ∧ w'.driver_obj = w.driver_obj := by
  induction fuel with
  | zero => intro cur off w he; simp [iad_search_ends] at he
  | succ n ih =>
    intro cur off w he
    unfold iad_search_ends at he
    unfold iad_loop
    simp only []
    split
    · exact ⟨_, rfl, rfl⟩
    · rename_i iad off' heq
      rw [heq] at he
      obtain ⟨w', h1, h2⟩ := ih iad.addr off'
        ((((((w.emit (.usb_parse_next_descriptor_of_type cur wtl
          USB_B_DESCRIPTOR_TYPE_INTERFACE_ASSOCIATION off)).printf
          "iad_desc->bFirstInterface   %i \n" [.int iad.bFirstInterface]).printf
          "iad_desc->bInterfaceCount   %i \n" [.int iad.bInterfaceCount]).printf
          "iad_desc->bFunctionClass    %i \n" [.int iad.bFunctionClass]).printf
          "iad_desc->bFunctionSubClass %i \n" [.int iad.bFunctionSubClass])) he
      exact ⟨w', h1, h2⟩

theorem ep_loop_driver_obj (h : usb_host) (intf : usb_intf_desc_t) (j wtl : Nat) (t : Int)
    (n : Nat) : ∀ (i : Nat) (off : Int) (w w' : world) (off' : Int),
      ep_loop h intf j wtl t n i off w = .ok (w', off') → w'.driver_obj = w.driver_obj := by
  induction n with
  | zero => intro i off w w' off' hw; simp only [ep_loop, Except.ok.injEq, Prod.mk.injEq] at hw; rw [← hw.1]
  | succ n ih =>
    intro i off w w' off' hw
    unfold ep_loop at hw
    simp only [] at hw
    split at hw
    · cases hw
    · rw [ih _ _ _ _ _ hw]
      simp only [world.printf_driver_obj, print_ep_desc_driver_obj]
      split <;> [skip; split <;> [split; skip]] <;> rfl

theorem ep_loop_found (h : usb_host) (intf : usb_intf_desc_t) (j wtl : Nat) (t : Int)
    (n : Nat) : ∀ (i : Nat) (w : world), ep_lookups_found h intf wtl t n i = true →
      ∃ w', ep_loop h intf j wtl t n i t w = .ok (w', t) := by
  induction n with
  | zero => intro i w _; exact ⟨w, rfl⟩
  | succ n ih =>
    intro i w hf
    unfold ep_lookups_found at hf
    simp only [Bool.and_eq_true] at hf
    unfold ep_loop
    simp only []
    split
    · rename_i heq; rw [heq] at hf; simp at hf
    · exact ih (i + 1) _ hf.2

theorem ep_loop_halt (h : usb_host) (intf : usb_intf_desc_t) (j wtl : Nat) (t : Int)
    (n : Nat) : ∀ (i : Nat) (off : Int) (w : world) (e : halt),
      ep_loop h intf j wtl t n i off w = .error e →
      e.why = .assert_failed "this_ep" w.driver_obj ∧
        ∃ i1 off1, e.out.getLast? =
            some (.usb_parse_endpoint_descriptor_by_index intf.addr i1 wtl off1) ∧
          h.usb_parse_endpoint_descriptor_by_index intf i1 wtl off1 = none := by
  induction n with
  | zero => intro i off w e hr; simp [ep_loop] at hr
  | succ n ih =>
    intro i off w e hr
    unfold ep_loop at hr
    simp only [] at hr
    split at hr
    · rename_i heq
      cases hr
      exact ⟨rfl, i, off, by simp [world.emit], heq⟩
    · obtain ⟨h1, h2⟩ := ih _ _ _ _ hr
      refine ⟨?_, h2⟩
      rw [h1]
      simp only [world.printf_driver_obj, print_ep_desc_driver_obj]
      split <;> [skip; split <;> [split; skip]] <;> rfl

theorem ep_loop_missing (h : usb_host) (intf : usb_intf_desc_t) (j wtl : Nat) (t : Int)
    (n : Nat) : ∀ (i : Nat) (w : world), ep_lookups_found h intf wtl t n i = false →
      ∃ e, ep_loop h intf j wtl t n i t w = .error e := by
  induction n with
  | zero => intro i w hf; simp [ep_lookups_found] at hf
  | succ n ih =>
    intro i w hf
    unfold ep_lookups_found at hf
    unfold ep_loop
    simp only []
    split
    · exact ⟨_, rfl⟩
    · rename_i heq
      rw [heq] at hf
      simp only [Option.isSome_some, Bool.true_and] at hf
      exact ih (i + 1) _ hf

theorem usbh_print_intf_desc_driver_obj (d : usb_intf_desc_t) (w : world) :
    (usbh_print_intf_desc d w).driver_obj = w.driver_obj := rfl

theorem intf_loop_driver_obj (h : usb_host) (cfg : usb_config_desc_t) (n : Nat) :
    ∀ (j : Nat) (off : Int) (w w' : world), intf_loop h cfg n j off w = .ok w' →
      w'.driver_obj = w.driver_obj := by
  induction n with
  | zero => intro j off w w' hw; simp only [intf_loop, Except.ok.injEq] at hw; rw [← hw]
  | succ n ih =>
    intro j off w w' hw
    unfold intf_loop at hw
    simp only [] at hw
    split at hw
    · cases hw; rfl
    · split at hw
      · cases hw
      · rename_i he
        rw [ih _ _ _ _ hw, ep_loop_driver_obj _ _ _ _ _ _ _ _ _ _ _ he]
        rfl

theorem intf_loop_found (h : usb_host) (cfg : usb_config_desc_t) (n : Nat) :
    ∀ (j : Nat) (off : Int) (w : world), intf_lookups_found h cfg n j off = true →
      ∃ w', intf_loop h cfg n j off w = .ok w' := by
  induction n with
  | zero => intro j off w _; exact ⟨w, rfl⟩
  | succ n ih =>
    intro j off w hf
    unfold intf_lookups_found at hf
    unfold intf_loop
    simp only []
    split
    · exact ⟨_, rfl⟩
    · rename_i intf off' heq
      rw [heq] at hf
      simp only [Bool.and_eq_true] at hf
      obtain ⟨w1, h1⟩ := ep_loop_found h intf j cfg.wTotalLength off' intf.bNumEndpoints 0
        (((w.emit (.usb_parse_interface_descriptor cfg.addr j 0 off)).printf
          "\t*** ******************** Interface descriptor begin ******************* ***\n" []
          |> usbh_print_intf_desc intf).printf
          "\t*** ******************** Interface descriptor end ******************* ***\n" [])
        hf.1
      rw [h1]
      exact ih (j + 1) off' w1 hf.2

theorem intf_loop_halt (h : usb_host) (cfg : usb_config_desc_t) (n : Nat) :
    ∀ (j : Nat) (off : Int) (w : world) (e : halt), intf_loop h cfg n j off w = .error e →
      e.why = .assert_failed "this_ep" w.driver_obj ∧
        ∃ (intf : usb_intf_desc_t) (i1 : Nat) (off1 : Int), e.out.getLast? =
            some (.usb_parse_endpoint_descriptor_by_index intf.addr i1 cfg.wTotalLength off1) ∧
          h.usb_parse_endpoint_descriptor_by_index intf i1 cfg.wTotalLength off1 = none := by
  induction n with
  | zero => intro j off w e hr; simp [intf_loop] at hr
  | succ n ih =>
    intro j off w e hr
    unfold intf_loop at hr
    simp only [] at hr
    split at hr
    · cases hr
    · rename_i intf off1 heq
      split at hr
      · rename_i e1 he
        cases hr
        obtain ⟨h1, i1, o1, h2, h3⟩ := ep_loop_halt _ _ _ _ _ _ _ _ _ _ he
        exact ⟨h1, intf, i1, o1, h2, h3⟩
      · rename_i w1 o1 he
        obtain ⟨h1, h2⟩ := ih _ _ _ _ hr
        refine ⟨?_, h2⟩
        rw [h1, ep_loop_driver_obj _ _ _ _ _ _ _ _ _ _ _ he]
        simp only [world.printf_driver_obj, usbh_print_intf_desc_driver_obj,
          world.emit_driver_obj]

theorem intf_loop_missing (h : usb_host) (cfg : usb_config_desc_t) (n : Nat) :
    ∀ (j : Nat) (off : Int) (w : world), intf_lookups_found h cfg n j off = false →
      ∃ e, intf_loop h cfg n j off w = .error e := by
  induction n with
  | zero => intro j off w hf; simp [intf_lookups_found] at hf
  | succ n ih =>
    intro j off w hf
    unfold intf_lookups_found at hf
    unfold intf_loop
    simp only []
    split
    · rename_i heq; rw [heq] at hf; simp at hf
    · rename_i intf off' heq
      rw [heq] at hf
      simp only [] at hf
      cases hep : ep_lookups_found h intf cfg.wTotalLength off' intf.bNumEndpoints 0 with
      | false =>
        obtain ⟨out, h1⟩ := ep_loop_missing h intf j cfg.wTotalLength off' intf.bNumEndpoints 0
          (((w.emit (.usb_parse_interface_descriptor cfg.addr j 0 off)).printf
            "\t*** ******************** Interface descriptor begin ******************* ***\n" []
            |> usbh_print_intf_desc intf).printf
            "\t*** ******************** Interface descriptor end ******************* ***\n" [])
          hep
        rw [h1]
        exact ⟨out, rfl⟩
      | true =>
        rw [hep] at hf
        simp only [Bool.true_and] at hf
        obtain ⟨w1, h1⟩ := ep_loop_found h intf j cfg.wTotalLength off' intf.bNumEndpoints 0
          (((w.emit (.usb_parse_interface_descriptor cfg.addr j 0 off)).printf
            "\t*** ******************** Interface descriptor begin ******************* ***\n" []
            |> usbh_print_intf_desc intf).printf
            "\t*** ******************** Interface descriptor end ******************* ***\n" [])
          hep
        rw [h1]
        exact ih (j + 1) off' w1 hf

theorem action_open_dev_ok (h : usb_host) (w : world) (h1 : w.driver_obj.dev_addr ≠ 0)
    (h2 : h.device_open.1 = ESP_OK) :
    ∃ out', action_open_dev h w = .ok ⟨⟨w.driver_obj.client_hdl, w.driver_obj.dev_addr,
      h.device_open.2,
      (w.driver_obj.actions &&& bnot32 ACTION_OPEN_DEV.val) ||| ACTION_GET_DEV_INFO.val⟩,
      out'⟩ := by
  simp only [action_open_dev, assert, ESP_ERROR_CHECK, h1, h2, bind, Except.bind, pure,
    Except.pure, bne_iff_ne, ne_eq, not_false_eq_true, decide_True, if_true]
  exact ⟨_, rfl⟩

theorem action_get_info_ok (h : usb_host) (w : world) (h1 : w.driver_obj.dev_hdl ≠ NULL)
    (h2 : h.device_info.1 = ESP_OK) :
    ∃ out', action_get_info h w = .ok ⟨⟨w.driver_obj.client_hdl, w.driver_obj.dev_addr,
      w.driver_obj.dev_hdl,
      (w.driver_obj.actions &&& bnot32 ACTION_GET_DEV_INFO.val) ||| ACTION_GET_DEV_DESC.val⟩,
      out'⟩ := by
  simp only [action_get_info, assert, ESP_ERROR_CHECK, h1, h2, bind, Except.bind, pure,
    Except.pure, bne_iff_ne, ne_eq, not_false_eq_true, decide_True, if_true]
  exact ⟨_, rfl⟩

theorem action_get_dev_desc_ok (fuel : Nat) (h : usb_host) (w : world)
    (h1 : w.driver_obj.dev_hdl ≠ NULL) (h2 : h.get_device_descriptor.1 = ESP_OK)
    (h3 : h.get_active_config_descriptor_dev.1 = ESP_OK)
    (h4 : is_composite_iad h.get_device_descriptor.2 = true →
      iad_search_ends h h.get_active_config_descriptor_dev.2.wTotalLength fuel
        h.get_active_config_descriptor_dev.2.addr 0 = true) :
    ∃ out', action_get_dev_desc fuel h w = .ok ⟨⟨w.driver_obj.client_hdl,
      w.driver_obj.dev_addr, w.driver_obj.dev_hdl,
      (w.driver_obj.actions &&& bnot32 ACTION_GET_DEV_DESC.val) |||
        ACTION_GET_CONFIG_DESC.val⟩, out'⟩ := by
  unfold action_get_dev_desc assert ESP_ERROR_CHECK
  simp only [h1, h2, h3, bind, Except.bind, pure, Except.pure, bne_iff_ne, ne_eq,
    not_false_eq_true, decide_True, if_true]
  split
  · rename_i hc
    obtain ⟨w1, h5, h6⟩ := iad_loop_ok h _ fuel _ 0
      (((((w.ESP_LOGI "Getting device descriptor" []).emit
        (.usb_host_get_device_descriptor w.driver_obj.dev_hdl)).emit
        (.usb_host_get_active_config_descriptor w.driver_obj.dev_hdl)).emit
        (.usb_print_device_descriptor h.get_device_descriptor.2.addr)).printf
        "This is a composite device, that uses Interface Association Descriptor \n" [])
      (h4 hc)
    have h5' := h5
    simp only [world.ESP_LOGI, world.emit, world.printf] at h5' ⊢
    rw [h5']
    simp only [world.set_actions, h6, world.ESP_LOGI, world.emit, world.printf]
    exact ⟨_, rfl⟩
  · split <;> exact ⟨_, rfl⟩

theorem action_get_config_desc_ok (h : usb_host) (w : world)
    (h1 : w.driver_obj.dev_hdl ≠ NULL) (h2 : h.get_active_config_descriptor.1 = ESP_OK)
    (hep : intf_lookups_found h h.get_active_config_descriptor.2 51 0 0 = true) :
    ∃ out', action_get_config_desc h w = .ok ⟨⟨w.driver_obj.client_hdl,
      w.driver_obj.dev_addr, w.driver_obj.dev_hdl,
      (w.driver_obj.actions &&& bnot32 ACTION_GET_CONFIG_DESC.val) |||
        ACTION_GET_STR_DESC.val⟩, out'⟩ := by
  unfold action_get_config_desc assert ESP_ERROR_CHECK
  simp only [h1, h2, bind, Except.bind, pure, Except.pure, bne_iff_ne, ne_eq,
    not_false_eq_true, decide_True, if_true]
  obtain ⟨w1, h5⟩ := intf_loop_found h h.get_active_config_descriptor.2 51 0 0
      ((((w.ESP_LOGI "Getting config descriptor" []).emit
        (.usb_host_get_active_config_descriptor w.driver_obj.dev_hdl)).printf
        "\t*** ******************** config descriptor begin ******************* ***\n" []
        |>.emit (.usb_print_config_descriptor h.get_active_config_descriptor.2.addr)).printf
        "\t*** ******************** config descriptor end ******************* ***\n" []) hep
  have h6 := intf_loop_driver_obj _ _ _ _ _ _ _ h5
  have h5' := h5
  simp only [world.ESP_LOGI, world.emit, world.printf] at h5' ⊢
  rw [h5']
  simp only [world.set_actions, h6, world.ESP_LOGI, world.emit, world.printf]
  exact ⟨_, rfl⟩

theorem action_get_config_desc_halt (h : usb_host) (w : world)
    (h1 : w.driver_obj.dev_hdl ≠ NULL) (h2 : h.get_active_config_descriptor.1 = ESP_OK)
    (e : halt) (hr : action_get_config_desc h w = .error e) :
    e.why = .assert_failed "this_ep" w.driver_obj ∧
      ∃ (intf : usb_intf_desc_t) (i1 : Nat) (off1 : Int), e.out.getLast? =
          some (.usb_parse_endpoint_descriptor_by_index intf.addr i1
            h.get_active_config_descriptor.2.wTotalLength off1) ∧
        h.usb_parse_endpoint_descriptor_by_index intf i1
          h.get_active_config_descriptor.2.wTotalLength off1 = none := by
  unfold action_get_config_desc assert ESP_ERROR_CHECK at hr
  simp only [h1, h2, bind, Except.bind, pure, Except.pure, bne_iff_ne, ne_eq,
    not_false_eq_true, decide_True, if_true] at hr
  cases hl : intf_loop h h.get_active_config_descriptor.2 51 0 0
      ((((w.ESP_LOGI "Getting config descriptor" []).emit
        (.usb_host_get_active_config_descriptor w.driver_obj.dev_hdl)).printf
        "\t*** ******************** config descriptor begin ******************* ***\n" []
        |>.emit (.usb_print_config_descriptor h.get_active_config_descriptor.2.addr)).printf
        "\t*** ******************** config descriptor end ******************* ***\n" []) with
  | ok w1 =>
    have hl1 := hl
    simp only [world.ESP_LOGI, world.emit, world.printf] at hl1 hr
    rw [hl1] at hr
    cases hr
  | error e1 =>
    have hl1 := hl
    simp only [world.ESP_LOGI, world.emit, world.printf] at hl1 hr
    rw [hl1] at hr
    cases hr
    obtain ⟨k1, k2⟩ := intf_loop_halt _ _ _ _ _ _ _ hl
    exact ⟨k1, k2⟩

theorem action_get_config_desc_missing (h : usb_host) (w : world)
    (h1 : w.driver_obj.dev_hdl ≠ NULL) (h2 : h.get_active_config_descriptor.1 = ESP_OK)
    (hep : intf_lookups_found h h.get_active_config_descriptor.2 51 0 0 = false) :
    ∃ out, action_get_config_desc h w =
      .error ⟨.assert_failed "this_ep" w.driver_obj, out⟩ := by
  have hx : ∃ e, action_get_config_desc h w = .error e := by
    unfold action_get_config_desc assert ESP_ERROR_CHECK
    simp only [h1, h2, bind, Except.bind, pure, Except.pure, bne_iff_ne, ne_eq,
      not_false_eq_true, decide_True, if_true]
    obtain ⟨out, h5⟩ := intf_loop_missing h h.get_active_config_descriptor.2 51 0 0
        ((((w.ESP_LOGI "Getting config descriptor" []).emit
          (.usb_host_get_active_config_descriptor w.driver_obj.dev_hdl)).printf
          "\t*** ******************** config descriptor begin ******************* ***\n" []
          |>.emit (.usb_print_config_descriptor h.get_active_config_descriptor.2.addr)).printf
          "\t*** ******************** config descriptor end ******************* ***\n" []) hep
    have h5' := h5
    simp only [world.ESP_LOGI, world.emit, world.printf] at h5' ⊢
    rw [h5']
    exact ⟨out, rfl⟩
  obtain ⟨e, he⟩ := hx
  obtain ⟨hw, _⟩ := action_get_config_desc_halt h w h1 h2 e he
  refine ⟨e.out, ?_⟩
  rw [he]
  cases e
  simp only [] at hw
  rw [hw]

theorem action_get_str_desc_ok (h : usb_host) (w : world) (h1 : w.driver_obj.dev_hdl ≠ NULL)
    (h2 : h.device_info_str.1 = ESP_OK) :
    ∃ out', action_get_str_desc h w = .ok ⟨⟨w.driver_obj.client_hdl,
      w.driver_obj.dev_addr, w.driver_obj.dev_hdl,
      w.driver_obj.actions &&& bnot32 ACTION_GET_STR_DESC.val⟩, out'⟩ := by
  unfold action_get_str_desc assert ESP_ERROR_CHECK
  simp only [h1, h2, bind, Except.bind, pure, Except.pure, bne_iff_ne, ne_eq,
    not_false_eq_true, decide_True, if_true]
  split <;> split <;> split <;> exact ⟨_, rfl⟩

theorem action_close_dev_ok (h : usb_host) (w : world) (h2 : h.device_close = ESP_OK) :
    ∃ out', action_close_dev h w = .ok ⟨⟨w.driver_obj.client_hdl, 0, NULL,
      (w.driver_obj.actions &&& bnot32 ACTION_CLOSE_DEV.val) ||| ACTION_RECONNECT.val⟩,
      out'⟩ := by
  simp only [action_close_dev, ESP_ERROR_CHECK, h2, bind, Except.bind, pure, Except.pure,
    if_true]
  exact ⟨_, rfl⟩

theorem run_if_pending_ok (flag : action_t) (action : world → Except halt world)
    (f : class_driver_t → class_driver_t) (hq : quiet action) (E : List action_t) (w : world)
    (s : class_driver_t × List action_t) (hw : w.driver_obj = s.1)
    (he : executed w.out = E ++ s.2)
    (ha : pending s.1.actions flag → ∀ w1 : world, w1.driver_obj = s.1 →
      ∃ out', action w1 = .ok ⟨f s.1, out'⟩) :
    ∃ w', run_if_pending flag action w = .ok w' ∧
      w'.driver_obj = (when_pending flag f s).1 ∧
      executed w'.out = E ++ (when_pending flag f s).2 := by
  unfold run_if_pending when_pending
  rw [hw]
  by_cases hp : pending s.1.actions flag
  · obtain ⟨out', ho⟩ := ha hp (w.emit (.branch flag)) hw
    have hq' := hq (w.emit (.branch flag))
    rw [ho] at hq'
    simp only [log_of, executed_emit, event.flag?, Option.toList, he] at hq'
    refine ⟨_, by simp only [hp, if_true]; exact ho, by simp [hp], ?_⟩
    simp [hp, hq']
  · exact ⟨w, by simp [hp], by simp [hp, hw], by simp [hp, he]⟩

theorem hdl_ok_open (h : usb_host) (d : class_driver_t) (ha : assertions_hold d)
    (hh : h.device_open.2 ≠ NULL) :
    hdl_ok (when_pending ACTION_OPEN_DEV (open_effect h) (d, [])).1 := by
  unfold when_pending hdl_ok
  by_cases hp : pending d.actions ACTION_OPEN_DEV
  · simp only [hp, if_true, open_effect]
    exact fun _ => hh
  · simp only [hp, if_false]
    exact ha.2 hp

theorem hdl_ok_chain (own next : action_t) (s : class_driver_t × List action_t)
    (hs : hdl_ok s.1)
    (ho : pending s.1.actions own → s.1.dev_hdl ≠ NULL) :
    hdl_ok (when_pending own (chain_effect own next) s).1 := by
  unfold when_pending
  by_cases hp : pending s.1.actions own
  · simp only [hp, if_true, hdl_ok, chain_effect]
    exact fun _ => ho hp
  · simpa only [hp, if_false] using hs

theorem class_driver_task_pass_ok (fuel : Nat) (h : usb_host) (w : world)
    (hs : h.succeeds fuel) (ha : assertions_hold w.driver_obj) :
    ∃ w', class_driver_task_pass fuel h w = .ok (w', (pass_effect h w.driver_obj).2.2) ∧
      w'.driver_obj = (pass_effect h w.driver_obj).1 ∧
      executed w'.out = executed w.out ++ (pass_effect h w.driver_obj).2.1 := by
  -- ACTION_OPEN_DEV
  obtain ⟨w1, e1, d1, x1⟩ := run_if_pending_ok ACTION_OPEN_DEV (action_open_dev h)
    (open_effect h) (action_open_dev_quiet h) (executed w.out) w (w.driver_obj, []) rfl
    (by simp)
    (fun hp w1 hw1 => by
      have := action_open_dev_ok h w1 (by rw [hw1]; exact ha.1 hp) hs.device_open
      simpa only [hw1, open_effect] using this)
  have j1 := hdl_ok_open h w.driver_obj ha hs.device_open_hdl
  -- ACTION_GET_DEV_INFO
  have p2 : pending (when_pending ACTION_OPEN_DEV (open_effect h) (w.driver_obj, [])).1.actions
      ACTION_GET_DEV_INFO →
      (when_pending ACTION_OPEN_DEV (open_effect h) (w.driver_obj, [])).1.dev_hdl ≠ NULL :=
    fun hp => j1 (Or.inl hp)
  obtain ⟨w2, e2, d2, x2⟩ := run_if_pending_ok ACTION_GET_DEV_INFO (action_get_info h)
    (chain_effect ACTION_GET_DEV_INFO ACTION_GET_DEV_DESC) (action_get_info_quiet h)
    (executed w.out) w1 _ d1 x1
    (fun hp w' hw' => by
      have := action_get_info_ok h w' (by rw [hw']; exact p2 hp) hs.device_info
      simpa only [hw', chain_effect] using this)
  have j2 := hdl_ok_chain ACTION_GET_DEV_INFO ACTION_GET_DEV_DESC _ j1 p2
  -- ACTION_GET_DEV_DESC
  have p3 := fun hp => j2 (Or.inr (Or.inl hp))
  obtain ⟨w3, e3, d3, x3⟩ := run_if_pending_ok ACTION_GET_DEV_DESC (action_get_dev_desc fuel h)
    (chain_effect ACTION_GET_DEV_DESC ACTION_GET_CONFIG_DESC) (action_get_dev_desc_quiet fuel h)
    (executed w.out) w2 _ d2 x2
    (fun hp w' hw' => by
      have := action_get_dev_desc_ok fuel h w' (by rw [hw']; exact p3 hp)
        hs.get_device_descriptor hs.get_active_config_descriptor_dev hs.iad_search
      simpa only [hw', chain_effect] using this)
  have j3 := hdl_ok_chain ACTION_GET_DEV_DESC ACTION_GET_CONFIG_DESC _ j2 p3
  -- ACTION_GET_CONFIG_DESC
  have p4 := fun hp => j3 (Or.inr (Or.inr (Or.inl hp)))
  obtain ⟨w4, e4, d4, x4⟩ := run_if_pending_ok ACTION_GET_CONFIG_DESC
    (action_get_config_desc h)
    (chain_effect ACTION_GET_CONFIG_DESC ACTION_GET_STR_DESC) (action_get_config_desc_quiet h)
    (executed w.out) w3 _ d3 x3
    (fun hp w' hw' => by
      have := action_get_config_desc_ok h w' (by rw [hw']; exact p4 hp)
        hs.get_active_config_descriptor hs.endpoints
      simpa only [hw', chain_effect] using this)
  have j4 := hdl_ok_chain ACTION_GET_CONFIG_DESC ACTION_GET_STR_DESC _ j3 p4
  -- ACTION_GET_STR_DESC
  have p5 := fun hp => j4 (Or.inr (Or.inr (Or.inr hp)))
  obtain ⟨w5, e5, d5, x5⟩ := run_if_pending_ok ACTION_GET_STR_DESC (action_get_str_desc h)
    str_effect (action_get_str_desc_quiet h) (executed w.out) w4 _ d4 x4
    (fun hp w' hw' => by
      have := action_get_str_desc_ok h w' (by rw [hw']; exact p5 hp) hs.device_info_str
      simpa only [hw', str_effect] using this)
  -- ACTION_CLOSE_DEV
  obtain ⟨w6, e6, d6, x6⟩ := run_if_pending_ok ACTION_CLOSE_DEV (action_close_dev h)
    close_effect (action_close_dev_quiet h) (executed w.out) w5 _ d5 x5
    (fun _ w' hw' => by
      have := action_close_dev_ok h w' hs.device_close
      simpa only [hw', close_effect] using this)
  -- ACTION_EXIT, ACTION_RECONNECT
  change w6.driver_obj = (actions_effect h w.driver_obj).1 at d6
  change executed w6.out = executed w.out ++ (actions_effect h w.driver_obj).2 at x6
  simp only [class_driver_task_pass, bind, Except.bind, e1, e2, e3, e4, e5, e6, pass_effect, d6]
  by_cases q1 : pending (actions_effect h w.driver_obj).1.actions ACTION_EXIT
  · refine ⟨w6.emit (.branch ACTION_EXIT), by simp [q1, pure, Except.pure],
      by simp [q1, world.emit_driver_obj, d6], ?_⟩
    simp [q1, executed_emit, event.flag?, x6]
  · by_cases q2 : pending (actions_effect h w.driver_obj).1.actions ACTION_RECONNECT
    · refine ⟨(w6.emit (.branch ACTION_RECONNECT)).set_actions 0,
        by simp [q1, q2, pure, Except.pure],
        by simp [q1, q2, world.emit, world.set_actions, d6], ?_⟩
      simp [q1, q2, executed_emit, executed_set_actions, event.flag?, x6]
    · exact ⟨w6, by simp [q1, q2, pure, Except.pure], by simp [q1, q2, d6],
        by simp [q1, q2, x6]⟩

theorem action_open_dev_fields (h : usb_host) (w w' : world)
    (hr : action_open_dev h w = .ok w') :
    w.driver_obj.dev_addr ≠ 0 ∧ w'.driver_obj.dev_addr = w.driver_obj.dev_addr := by
  by_cases h1 : w.driver_obj.dev_addr = 0
  · simp [action_open_dev, assert, h1, bind, Except.bind] at hr
  · by_cases h2 : h.device_open.1 = ESP_OK
    · obtain ⟨o, ho⟩ := action_open_dev_ok h w h1 h2
      rw [ho] at hr
      cases hr
      exact ⟨h1, rfl⟩
    · simp [action_open_dev, assert, ESP_ERROR_CHECK, h1, h2, bind, Except.bind] at hr

theorem action_get_info_fields (h : usb_host) (w w' : world)
    (hr : action_get_info h w = .ok w') :
    w'.driver_obj.dev_addr = w.driver_obj.dev_addr ∧
      w'.driver_obj.dev_hdl = w.driver_obj.dev_hdl := by
  by_cases h1 : w.driver_obj.dev_hdl = NULL
  · simp [action_get_info, assert, h1, bind, Except.bind] at hr
  · by_cases h2 : h.device_info.1 = ESP_OK
    · obtain ⟨o, ho⟩ := action_get_info_ok h w h1 h2
      rw [ho] at hr
      cases hr
      exact ⟨rfl, rfl⟩
    · simp [action_get_info, assert, ESP_ERROR_CHECK, h1, h2, bind, Except.bind] at hr

theorem action_get_str_desc_fields (h : usb_host) (w w' : world)
    (hr : action_get_str_desc h w = .ok w') :
    w'.driver_obj.dev_addr = w.driver_obj.dev_addr ∧
      w'.driver_obj.dev_hdl = w.driver_obj.dev_hdl := by
  by_cases h1 : w.driver_obj.dev_hdl = NULL
  · simp [action_get_str_desc, assert, h1, bind, Except.bind] at hr
  · by_cases h2 : h.device_info_str.1 = ESP_OK
    · obtain ⟨o, ho⟩ := action_get_str_desc_ok h w h1 h2
      rw [ho] at hr
      cases hr
      exact ⟨rfl, rfl⟩
    · simp [action_get_str_desc, assert, ESP_ERROR_CHECK, h1, h2, bind, Except.bind] at hr

theorem action_close_dev_fields (h : usb_host) (w w' : world)
    (hr : action_close_dev h w = .ok w') :
    w'.driver_obj.dev_addr = 0 ∧ w'.driver_obj.dev_hdl = NULL := by
  by_cases h2 : h.device_close = ESP_OK
  · obtain ⟨o, ho⟩ := action_close_dev_ok h w h2
    rw [ho] at hr
    cases hr
    exact ⟨rfl, rfl⟩
  · simp [action_close_dev, ESP_ERROR_CHECK, h2, bind, Except.bind] at hr

theorem action_get_dev_desc_fields (fuel : Nat) (h : usb_host) (w w' : world)
    (hr : action_get_dev_desc fuel h w = .ok w') :
    w'.driver_obj.dev_addr = w.driver_obj.dev_addr ∧
      w'.driver_obj.dev_hdl = w.driver_obj.dev_hdl := by
  unfold action_get_dev_desc assert ESP_ERROR_CHECK at hr
  by_cases h1 : w.driver_obj.dev_hdl = NULL
  · simp [h1, bind, Except.bind] at hr
  by_cases h2 : h.get_device_descriptor.1 = ESP_OK
  · by_cases h3 : h.get_active_config_descriptor_dev.1 = ESP_OK
    · simp only [h1, h2, h3, bind, Except.bind, pure, Except.pure, bne_iff_ne, ne_eq,
        not_false_eq_true, decide_True, if_true] at hr
      split at hr
      · cases hl : iad_loop h _ fuel _ 0 _ with
        | error e => rw [hl] at hr; cases hr
        | ok w1 =>
          rw [hl] at hr
          have hd := iad_loop_driver_obj _ _ _ _ _ _ _ hl
          cases hr
          simp only [world.set_actions, hd]
          exact ⟨rfl, rfl⟩
      · split at hr <;> cases hr <;> exact ⟨rfl, rfl⟩
    · simp [h1, h2, h3, bind, Except.bind] at hr
  · simp [h1, h2, bind, Except.bind] at hr

theorem action_get_config_desc_fields (h : usb_host) (w w' : world)
    (hr : action_get_config_desc h w = .ok w') :
    w'.driver_obj.dev_addr = w.driver_obj.dev_addr ∧
      w'.driver_obj.dev_hdl = w.driver_obj.dev_hdl := by
  unfold action_get_config_desc assert ESP_ERROR_CHECK at hr
  by_cases h1 : w.driver_obj.dev_hdl = NULL
  · simp [h1, bind, Except.bind] at hr
  by_cases h2 : h.get_active_config_descriptor.1 = ESP_OK
  · simp only [h1, h2, bind, Except.bind, pure, Except.pure, bne_iff_ne, ne_eq,
      not_false_eq_true, decide_True, if_true] at hr
    cases hl : intf_loop h _ 51 0 0 _ with
    | error e => rw [hl] at hr; cases hr
    | ok w1 =>
      rw [hl] at hr
      have hd := intf_loop_driver_obj _ _ _ _ _ _ _ hl
      cases hr
      simp only [world.set_actions, hd]
      exact ⟨rfl, rfl⟩
  · simp [h1, h2, bind, Except.bind] at hr

/-- The session invariant: a device handle only with a device address. -/
theorem session_input_apply_invariant (i : session_input) (w w' : world)
    (hi : w.driver_obj.dev_hdl ≠ NULL → w.driver_obj.dev_addr ≠ 0)
    (hr : i.apply w = .ok w') :
    w'.driver_obj.dev_hdl ≠ NULL → w'.driver_obj.dev_addr ≠ 0 := by
  cases i with
  | event event_msg =>
    cases event_msg with
    | USB_HOST_CLIENT_EVENT_NEW_DEV address =>
      simp only [session_input.apply, client_event_cb] at hr
      split at hr
      · rename_i h0
        cases hr
        intro hh
        exact absurd h0 (hi hh)
      · cases hr; exact hi
    | USB_HOST_CLIENT_EVENT_DEV_GONE gone =>
      simp only [session_input.apply, client_event_cb] at hr
      split at hr <;> cases hr <;> exact hi
    | other ev => simp [session_input.apply, client_event_cb] at hr
  | open_dev h =>
    obtain ⟨h1, h2⟩ := action_open_dev_fields h w w' hr
    intro _; rw [h2]; exact h1
  | get_info h =>
    obtain ⟨h1, h2⟩ := action_get_info_fields h w w' hr
    rw [h1, h2]; exact hi
  | get_dev_desc fuel h =>
    obtain ⟨h1, h2⟩ := action_get_dev_desc_fields fuel h w w' hr
    rw [h1, h2]; exact hi
  | get_config_desc h =>
    obtain ⟨h1, h2⟩ := action_get_config_desc_fields h w w' hr
    rw [h1, h2]; exact hi
  | get_str_desc h =>
    obtain ⟨h1, h2⟩ := action_get_str_desc_fields h w w' hr
    rw [h1, h2]; exact hi
  | close_dev h =>
    obtain ⟨_, h2⟩ := action_close_dev_fields h w w' hr
    intro hh; exact absurd h2 hh

theorem session_run_invariant (inputs : List session_input) :
    ∀ (w w' : world), (w.driver_obj.dev_hdl ≠ NULL → w.driver_obj.dev_addr ≠ 0) →
      session_run inputs w = .ok w' →
      (w'.driver_obj.dev_hdl ≠ NULL → w'.driver_obj.dev_addr ≠ 0) := by
  induction inputs with
  | nil => intro w w' hi hr; cases hr; exact hi
  | cons i rest ih =>
    intro w w' hi hr
    unfold session_run at hr
    cases ha : i.apply w with
    | error e => rw [ha] at hr; cases hr
    | ok w1 =>
      rw [ha] at hr
      exact ih w1 w' (session_input_apply_invariant i w w1 hi ha) hr

theorem demo_host_succeeds : demo_host.succeeds 1 where
  device_open := rfl
  device_open_hdl := by decide
  device_info := rfl
  get_device_descriptor := rfl
  get_active_config_descriptor_dev := rfl
  iad_search := by intro _; rfl
  get_active_config_descriptor := rfl
  endpoints := by decide
  device_info_str := rfl
  device_close := rfl

theorem when_pending_keeps (flag : action_t) (f : class_driver_t → class_driver_t)
    (s : class_driver_t × List action_t) (Z : action_t)
    (hf : ∀ d, pending (f d).actions Z ↔ pending d.actions Z) :
    pending (when_pending flag f s).1.actions Z ↔ pending s.1.actions Z := by
  unfold when_pending
  split <;> simp [hf]

theorem when_pending_client_hdl (flag : action_t) (f : class_driver_t → class_driver_t)
    (s : class_driver_t × List action_t) (hf : ∀ d, (f d).client_hdl = d.client_hdl) :
    (when_pending flag f s).1.client_hdl = s.1.client_hdl := by
  unfold when_pending
  split <;> simp [hf]

theorem when_pending_sublist (flag : action_t) (f : class_driver_t → class_driver_t)
    (s : class_driver_t × List action_t) (L : List action_t) (hs : s.2.Sublist L) :
    (when_pending flag f s).2.Sublist (L ++ [flag]) := by
  unfold when_pending
  split
  · exact hs.append (List.Sublist.refl _)
  · exact hs.trans (List.sublist_append_left L [flag])

theorem queries_effect_keeps (h : usb_host) (d : class_driver_t) (Z : action_t)
    (hZ : Z = ACTION_CLOSE_DEV ∨ Z = ACTION_EXIT ∨ Z = ACTION_RECONNECT) :
    pending (queries_effect h d).1.actions Z ↔ pending d.actions Z := by
  unfold queries_effect
  rcases hZ with rfl | rfl | rfl <;>
  · rw [when_pending_keeps, when_pending_keeps, when_pending_keeps, when_pending_keeps,
      when_pending_keeps] <;>
    · intro d
      simp [open_effect, chain_effect, str_effect, pending_or, pending_clear, pending_val]

theorem queries_effect_client_hdl (h : usb_host) (d : class_driver_t) :
    (queries_effect h d).1.client_hdl = d.client_hdl := by
  unfold queries_effect
  rw [when_pending_client_hdl, when_pending_client_hdl, when_pending_client_hdl,
    when_pending_client_hdl, when_pending_client_hdl] <;>
  · intro d; rfl

theorem actions_effect_exit (h : usb_host) (d : class_driver_t) :
    pending (actions_effect h d).1.actions ACTION_EXIT ↔ pending d.actions ACTION_EXIT := by
  unfold actions_effect
  rw [when_pending_keeps, queries_effect_keeps h d _ (Or.inr (Or.inl rfl))]
  intro d
  simp [close_effect, pending_or, pending_clear, pending_val]

theorem actions_effect_sublist (h : usb_host) (d : class_driver_t) :
    (actions_effect h d).2.Sublist
      [ACTION_OPEN_DEV, ACTION_GET_DEV_INFO, ACTION_GET_DEV_DESC, ACTION_GET_CONFIG_DESC,
        ACTION_GET_STR_DESC, ACTION_CLOSE_DEV] := by
  unfold actions_effect queries_effect
  have h0 : (([] : List action_t)).Sublist [] := List.Sublist.refl _
  have h1 := when_pending_sublist ACTION_OPEN_DEV (open_effect h) (d, []) [] h0
  have h2 := when_pending_sublist ACTION_GET_DEV_INFO
    (chain_effect ACTION_GET_DEV_INFO ACTION_GET_DEV_DESC) _ _ h1
  have h3 := when_pending_sublist ACTION_GET_DEV_DESC
    (chain_effect ACTION_GET_DEV_DESC ACTION_GET_CONFIG_DESC) _ _ h2
  have h4 := when_pending_sublist ACTION_GET_CONFIG_DESC
    (chain_effect ACTION_GET_CONFIG_DESC ACTION_GET_STR_DESC) _ _ h3
  have h5 := when_pending_sublist ACTION_GET_STR_DESC str_effect _ _ h4
  exact when_pending_sublist ACTION_CLOSE_DEV close_effect _ _ h5

theorem pending_ne_zero (a : Nat) (Z : action_t) (hp : pending a Z) : a ≠ 0 := by
  intro h0
  rw [h0] at hp
  exact pending_zero Z hp

theorem pass_effect_close (h : usb_host) (d : class_driver_t)
    (hc : pending d.actions ACTION_CLOSE_DEV) (he : ¬ pending d.actions ACTION_EXIT) :
    pass_effect h d = (⟨d.client_hdl, 0, NULL, 0⟩,
      ((queries_effect h d).2 ++ [ACTION_CLOSE_DEV]) ++ [ACTION_RECONNECT], false) := by
  have k1 := (queries_effect_keeps h d ACTION_CLOSE_DEV (Or.inl rfl)).2 hc
  have k2 : ¬ pending (queries_effect h d).1.actions ACTION_EXIT :=
    fun hp => he ((queries_effect_keeps h d ACTION_EXIT (Or.inr (Or.inl rfl))).1 hp)
  have k3 := queries_effect_client_hdl h d
  have ha : actions_effect h d =
      (close_effect (queries_effect h d).1, (queries_effect h d).2 ++ [ACTION_CLOSE_DEV]) := by
    simp [actions_effect, when_pending, k1]
  have q1 : ¬ pending (close_effect (queries_effect h d).1).actions ACTION_EXIT := by
    simp only [close_effect, pending_or, pending_clear, pending_val]
    simp [k2]
  have q2 : pending (close_effect (queries_effect h d).1).actions ACTION_RECONNECT := by
    simp only [close_effect, pending_or, pending_clear, pending_val]
    simp
  simp only [pass_effect, ha, q1, q2, if_true, if_false]
  simp [close_effect, k3]

theorem pass_effect_exit (h : usb_host) (d : class_driver_t)
    (he : pending d.actions ACTION_EXIT) :
    pass_effect h d =
      ((actions_effect h d).1, (actions_effect h d).2 ++ [ACTION_EXIT], true) := by
  have q1 := (actions_effect_exit h d).2 he
  simp only [pass_effect, q1, if_true]

theorem and_two_pow_cases (a k : Nat) : a &&& 2 ^ k = 0 ∨ a &&& 2 ^ k = 2 ^ k := by
  by_cases hb : a.testBit k
  · right
    apply Nat.eq_of_testBit_eq
    intro i
    by_cases hi : k = i
    · subst hi; simp [hb]
    · simp [Nat.testBit_two_pow, hi]
  · left
    apply Nat.eq_of_testBit_eq
    intro i
    by_cases hi : k = i
    · subst hi; simp [hb]
    · simp [Nat.testBit_two_pow, hi]

theorem val_two_pow (f : action_t) : ∃ k, f.val = 2 ^ k := by
  cases f
  exacts [⟨0, rfl⟩, ⟨1, rfl⟩, ⟨2, rfl⟩, ⟨3, rfl⟩, ⟨4, rfl⟩, ⟨5, rfl⟩, ⟨6, rfl⟩, ⟨7, rfl⟩]

theorem and_val_of_pending (a : Nat) (f : action_t) (hp : pending a f) :
    a &&& f.val = f.val := by
  obtain ⟨k, hk⟩ := val_two_pow f
  unfold pending at hp
  rw [hk] at hp ⊢
  rcases and_two_pow_cases a k with h | h
  · exact absurd h hp
  · exact h

theorem or_and_absorb (a b : Nat) : a ||| (a &&& b) = a := by
  apply Nat.eq_of_testBit_eq
  intro i
  simp only [Nat.testBit_or, Nat.testBit_and]
  cases a.testBit i <;> simp

theorem print_ep_desc_out (ep : usb_ep_desc_t) (w : world) :
    print_ep_desc ep w = ⟨w.driver_obj, w.out ++ ep_report ep⟩ := by
  unfold print_ep_desc ep_report classify_endpoint ep_dir_str
  simp only [USB_EP_DESC_GET_XFERTYPE, USB_EP_DESC_GET_EP_DIR,
    USB_BM_ATTRIBUTES_XFERTYPE_MASK, USB_TRANSFER_TYPE_INTR, USB_TRANSFER_TYPE_BULK,
    USB_B_ENDPOINT_ADDRESS_EP_DIR_MASK, world.printf,
    world.emit]
  by_cases h3 : ep.bmAttributes &&& 0x03 = 3
  · by_cases hd : ep.bEndpointAddress &&& 0x80 = 0 <;>
      simp [h3, hd, print_ep_note]
  · by_cases h2 : ep.bmAttributes &&& 0x03 = 2
    · by_cases hd : ep.bEndpointAddress &&& 0x80 = 0 <;>
        simp [h2, hd, print_ep_note]
    · by_cases hd : ep.bEndpointAddress &&& 0x80 = 0 <;>
        simp [h3, h2, hd, print_ep_note]

theorem ep_loop_one (h : usb_host) (intf : usb_intf_desc_t) (j wtl : Nat) (t : Int)
    (i : Nat) (off off' : Int) (ep : usb_ep_desc_t) (w : world)
    (hl : h.usb_parse_endpoint_descriptor_by_index intf i wtl off = some (ep, off')) :
    ep_loop h intf j wtl t 1 i off w =
      .ok (⟨w.driver_obj, w.out ++
        [.usb_parse_endpoint_descriptor_by_index intf.addr i wtl off,
         .printf "found Endpoint: %i on Interface %i " [.int i, .int j]] ++
        config_desc_note (classify_endpoint ep) ++
        [.printf
          "\t*** ******************** Endpoint descriptor  begin ******************* ***\n" []] ++
        ep_report ep ++
        [.printf
          "\t*** ******************** Endpoint descriptor  end ******************* ***\n" []]⟩,
        t) := by
  unfold ep_loop
  simp only [hl, ep_loop, print_ep_desc_out]
  unfold classify_endpoint
  simp only [USB_EP_DESC_GET_XFERTYPE, USB_EP_DESC_GET_EP_DIR,
    USB_BM_ATTRIBUTES_XFERTYPE_MASK, USB_TRANSFER_TYPE_INTR, USB_TRANSFER_TYPE_BULK,
    USB_B_ENDPOINT_ADDRESS_EP_DIR_MASK, world.printf, world.emit]
  by_cases h3 : ep.bmAttributes &&& 0x03 = 3
  · simp [h3, config_desc_note]
  · by_cases h2 : ep.bmAttributes &&& 0x03 = 2
    · by_cases hd : ep.bEndpointAddress &&& 0x80 = 0 <;>
        simp [h2, hd, config_desc_note]
    · simp [h3, h2, config_desc_note]

theorem action_open_dev_result (h : usb_host) (w w' : world)
    (hr : action_open_dev h w = .ok w') :
    w.driver_obj.dev_addr ≠ 0 ∧ w'.driver_obj = open_effect h w.driver_obj := by
  by_cases h1 : w.driver_obj.dev_addr = 0
  · simp [action_open_dev, assert, h1, bind, Except.bind] at hr
  · by_cases h2 : h.device_open.1 = ESP_OK
    · obtain ⟨o, ho⟩ := action_open_dev_ok h w h1 h2
      rw [ho] at hr
      cases hr
      exact ⟨h1, rfl⟩
    · simp [action_open_dev, assert, ESP_ERROR_CHECK, h1, h2, bind, Except.bind] at hr

theorem action_get_info_result (h : usb_host) (w w' : world)
    (hr : action_get_info h w = .ok w') :
    w.driver_obj.dev_hdl ≠ NULL ∧
      w'.driver_obj = chain_effect ACTION_GET_DEV_INFO ACTION_GET_DEV_DESC w.driver_obj := by
  by_cases h1 : w.driver_obj.dev_hdl = NULL
  · simp [action_get_info, assert, h1, bind, Except.bind] at hr
  · by_cases h2 : h.device_info.1 = ESP_OK
    · obtain ⟨o, ho⟩ := action_get_info_ok h w h1 h2
      rw [ho] at hr
      cases hr
      exact ⟨h1, rfl⟩
    · simp [action_get_info, assert, ESP_ERROR_CHECK, h1, h2, bind, Except.bind] at hr

theorem action_get_str_desc_result (h : usb_host) (w w' : world)
    (hr : action_get_str_desc h w = .ok w') :
    w.driver_obj.dev_hdl ≠ NULL ∧ w'.driver_obj = str_effect w.driver_obj := by
  by_cases h1 : w.driver_obj.dev_hdl = NULL
  · simp [action_get_str_desc, assert, h1, bind, Except.bind] at hr
  · by_cases h2 : h.device_info_str.1 = ESP_OK
    · obtain ⟨o, ho⟩ := action_get_str_desc_ok h w h1 h2
      rw [ho] at hr
      cases hr
      exact ⟨h1, rfl⟩
    · simp [action_get_str_desc, assert, ESP_ERROR_CHECK, h1, h2, bind, Except.bind] at hr

theorem action_close_dev_result (h : usb_host) (w w' : world)
    (hr : action_close_dev h w = .ok w') : w'.driver_obj = close_effect w.driver_obj := by
  by_cases h2 : h.device_close = ESP_OK
  · obtain ⟨o, ho⟩ := action_close_dev_ok h w h2
    rw [ho] at hr
    cases hr
    rfl
  · simp [action_close_dev, ESP_ERROR_CHECK, h2, bind, Except.bind] at hr

theorem action_get_dev_desc_result (fuel : Nat) (h : usb_host) (w w' : world)
    (hr : action_get_dev_desc fuel h w = .ok w') :
    w.driver_obj.dev_hdl ≠ NULL ∧
      w'.driver_obj = chain_effect ACTION_GET_DEV_DESC ACTION_GET_CONFIG_DESC w.driver_obj := by
  unfold action_get_dev_desc assert ESP_ERROR_CHECK at hr
  by_cases h1 : w.driver_obj.dev_hdl = NULL
  · simp [h1, bind, Except.bind] at hr
  refine ⟨h1, ?_⟩
  by_cases h2 : h.get_device_descriptor.1 = ESP_OK
  · by_cases h3 : h.get_active_config_descriptor_dev.1 = ESP_OK
    · simp only [h1, h2, h3, bind, Except.bind, pure, Except.pure, bne_iff_ne, ne_eq,
        not_false_eq_true, decide_True, if_true] at hr
      split at hr
      · cases hl : iad_loop h _ fuel _ 0 _ with
        | error e => rw [hl] at hr; cases hr
        | ok w1 =>
          rw [hl] at hr
          have hd := iad_loop_driver_obj _ _ _ _ _ _ _ hl
          cases hr
          simp only [world.set_actions, hd, chain_effect]
          rfl
      · split at hr <;> cases hr <;> rfl
    · simp [h1, h2, h3, bind, Except.bind] at hr
  · simp [h1, h2, bind, Except.bind] at hr

theorem action_get_config_desc_result (h : usb_host) (w w' : world)
    (hr : action_get_config_desc h w = .ok w') :
    w.driver_obj.dev_hdl ≠ NULL ∧
      w'.driver_obj = chain_effect ACTION_GET_CONFIG_DESC ACTION_GET_STR_DESC w.driver_obj := by
  unfold action_get_config_desc assert ESP_ERROR_CHECK at hr
  by_cases h1 : w.driver_obj.dev_hdl = NULL
  · simp [h1, bind, Except.bind] at hr
  refine ⟨h1, ?_⟩
  by_cases h2 : h.get_active_config_descriptor.1 = ESP_OK
  · simp only [h1, h2, bind, Except.bind, pure, Except.pure, bne_iff_ne, ne_eq,
      not_false_eq_true, decide_True, if_true] at hr
    cases hl : intf_loop h _ 51 0 0 _ with
    | error e => rw [hl] at hr; cases hr
    | ok w1 =>
      rw [hl] at hr
      have hd := intf_loop_driver_obj _ _ _ _ _ _ _ hl
      cases hr
      simp only [world.set_actions, hd, chain_effect]
      rfl
  · simp [h1, h2, bind, Except.bind] at hr

theorem run_if_pending_error (flag : action_t) (action : world → Except halt world)
    (w : world) (e : halt) (hr : run_if_pending flag action w = .error e) :
    pending w.driver_obj.actions flag ∧ action (w.emit (.branch flag)) = .error e := by
  unfold run_if_pending at hr
  split at hr
  · rename_i hp; exact ⟨hp, hr⟩
  · cases hr

theorem class_driver_task_pass_halt (fuel : Nat) (h : usb_host) (w : world) (e : halt)
    (hp : class_driver_task_pass fuel h w = .error e) :
    ∃ w1, action_open_dev h w1 = .error e ∨ action_get_info h w1 = .error e ∨
      action_get_dev_desc fuel h w1 = .error e ∨ action_get_config_desc h w1 = .error e ∨
      action_get_str_desc h w1 = .error e ∨ action_close_dev h w1 = .error e := by
  unfold class_driver_task_pass at hp
  simp only [bind, Except.bind] at hp
  cases r1 : run_if_pending ACTION_OPEN_DEV (action_open_dev h) w with
  | error e1 =>
    rw [r1] at hp; cases hp
    exact ⟨_, Or.inl (run_if_pending_error _ _ _ _ r1).2⟩
  | ok w1 =>
    rw [r1] at hp; simp only [] at hp
    cases r2 : run_if_pending ACTION_GET_DEV_INFO (action_get_info h) w1 with
    | error e2 =>
      rw [r2] at hp; cases hp
      exact ⟨_, Or.inr (Or.inl (run_if_pending_error _ _ _ _ r2).2)⟩
    | ok w2 =>
      rw [r2] at hp; simp only [] at hp
      cases r3 : run_if_pending ACTION_GET_DEV_DESC (action_get_dev_desc fuel h) w2 with
      | error e3 =>
        rw [r3] at hp; cases hp
        exact ⟨_, Or.inr (Or.inr (Or.inl (run_if_pending_error _ _ _ _ r3).2))⟩
      | ok w3 =>
        rw [r3] at hp; simp only [] at hp
        cases r4 : run_if_pending ACTION_GET_CONFIG_DESC (action_get_config_desc h) w3 with
        | error e4 =>
          rw [r4] at hp; cases hp
          exact ⟨_, Or.inr (Or.inr (Or.inr (Or.inl (run_if_pending_error _ _ _ _ r4).2)))⟩
        | ok w4 =>
          rw [r4] at hp; simp only [] at hp
          cases r5 : run_if_pending ACTION_GET_STR_DESC (action_get_str_desc h) w4 with
          | error e5 =>
            rw [r5] at hp; cases hp
            exact ⟨_, Or.inr (Or.inr (Or.inr (Or.inr
              (Or.inl (run_if_pending_error _ _ _ _ r5).2))))⟩
          | ok w5 =>
            rw [r5] at hp; simp only [] at hp
            cases r6 : run_if_pending ACTION_CLOSE_DEV (action_close_dev h) w5 with
            | error e6 =>
              rw [r6] at hp; cases hp
              exact ⟨_, Or.inr (Or.inr (Or.inr (Or.inr
                (Or.inr (run_if_pending_error _ _ _ _ r6).2))))⟩
            | ok w6 =>
              rw [r6] at hp; simp only [] at hp
              split at hp
              · cases hp
              · split at hp <;> cases hp

theorem lookups_emit (w : world) (e : event) :
    lookups (w.emit e).out = lookups w.out ++ (if e.is_lookup then [e] else []) := by
  simp only [lookups, world.emit, List.filter_append, List.filter_cons, List.filter_nil]

theorem lookups_printf (w : world) (f : String) (a : List printf_arg) :
    lookups (w.printf f a).out = lookups w.out := by
  simp [world.printf, lookups_emit, event.is_lookup]

theorem lookups_ESP_LOGI (w : world) (f : String) (a : List printf_arg) :
    lookups (w.ESP_LOGI f a).out = lookups w.out := by
  simp [world.ESP_LOGI, lookups_emit, event.is_lookup]

theorem lookups_print_ep_desc (ep : usb_ep_desc_t) (w : world) :
    lookups (print_ep_desc ep w).out = lookups w.out := by
  rw [print_ep_desc_out]
  simp only [lookups, List.filter_append]
  have : List.filter event.is_lookup (ep_report ep) = [] := by
    unfold ep_report
    cases classify_endpoint ep <;> simp [print_ep_note, event.is_lookup]
  rw [this, List.append_nil]

theorem lookups_usbh_print_intf_desc (d : usb_intf_desc_t) (w : world) :
    lookups (usbh_print_intf_desc d w).out = lookups w.out := by
  simp [usbh_print_intf_desc, lookups_printf]

theorem range'_map_cons (f : Nat → event) (i n : Nat) :
    (List.range' i (n + 1)).map f = f i :: (List.range' (i + 1) n).map f := by
  simp [List.range'_succ]

theorem ep_loop_lookups (h : usb_host) (intf : usb_intf_desc_t) (j wtl : Nat) (t : Int)
    (n : Nat) : ∀ (i : Nat) (w : world),
      ∃ pre, lookups (log_of (fun r : world × Int => r.1.out)
          (ep_loop h intf j wtl t n i t w)) = lookups w.out ++ pre ∧
        pre <+: (List.range' i n).map (fun i =>
          event.usb_parse_endpoint_descriptor_by_index intf.addr i wtl t) ∧
        (∀ r, ep_loop h intf j wtl t n i t w = .ok r →
          pre = (List.range' i n).map (fun i =>
            event.usb_parse_endpoint_descriptor_by_index intf.addr i wtl t)) := by
  induction n with
  | zero =>
    intro i w
    exact ⟨[], by simp [ep_loop, log_of], by simp, fun _ _ => by simp⟩
  | succ n ih =>
    intro i w
    unfold ep_loop
    simp only []
    split
    · refine ⟨[.usb_parse_endpoint_descriptor_by_index intf.addr i wtl t], ?_, ?_, ?_⟩
      · simp [log_of, lookups_emit, event.is_lookup]
      · rw [range'_map_cons]
        exact List.prefix_iff_eq_append.mpr (by simp)
      · intro r hr; cases hr
    · rename_i ep off' _
      obtain ⟨pre, h1, h2, h3⟩ := ih (i + 1)
        ((print_ep_desc ep
          (((if USB_EP_DESC_GET_XFERTYPE ep = USB_TRANSFER_TYPE_INTR then
            ((w.emit (.usb_parse_endpoint_descriptor_by_index intf.addr i wtl t)).printf
              "found Endpoint: %i on Interface %i " [.int i, .int j]).printf
              "this is a NOTIF/DATA EP \n" []
          else if USB_EP_DESC_GET_XFERTYPE ep = USB_TRANSFER_TYPE_BULK then
            if USB_EP_DESC_GET_EP_DIR ep ≠ 0 then
              ((w.emit (.usb_parse_endpoint_descriptor_by_index intf.addr i wtl t)).printf
                "found Endpoint: %i on Interface %i " [.int i, .int j]).printf
                "this is a IN EP \n" []
            else
              ((w.emit (.usb_parse_endpoint_descriptor_by_index intf.addr i wtl t)).printf
                "found Endpoint: %i on Interface %i " [.int i, .int j]).printf
                "this is a OUT EP \n" []
          else (w.emit (.usb_parse_endpoint_descriptor_by_index intf.addr i wtl t)).printf
              "found Endpoint: %i on Interface %i " [.int i, .int j])).printf
            "\t*** ******************** Endpoint descriptor  begin ******************* ***\n"
            [])).printf
          "\t*** ******************** Endpoint descriptor  end ******************* ***\n" [])
      refine ⟨.usb_parse_endpoint_descriptor_by_index intf.addr i wtl t :: pre, ?_, ?_, ?_⟩
      · rw [h1]
        simp only [lookups_printf, lookups_print_ep_desc]
        split <;> [skip; split <;> [split; skip]] <;>
          simp [lookups_printf, lookups_emit, event.is_lookup]
      · rw [range'_map_cons]
        exact (List.prefix_cons_inj _).mpr h2
      · intro r hr
        rw [range'_map_cons, h3 r hr]

theorem intf_loop_lookups (h : usb_host) (cfg : usb_config_desc_t) (n : Nat) :
    ∀ (j : Nat) (off : Int) (w : world),
      ∃ pre, lookups (log_of world.out (intf_loop h cfg n j off w)) = lookups w.out ++ pre ∧
        pre <+: expected_walk h cfg n j off ∧
        (∀ w', intf_loop h cfg n j off w = .ok w' → pre = expected_walk h cfg n j off) := by
  induction n with
  | zero =>
    intro j off w
    exact ⟨[], by simp [intf_loop, log_of], by simp, fun _ _ => by simp [expected_walk]⟩
  | succ n ih =>
    intro j off w
    unfold intf_loop expected_walk
    simp only []
    split
    · rename_i heq
      try simp only [heq]
      refine ⟨[.usb_parse_interface_descriptor cfg.addr j 0 off], ?_, ?_, ?_⟩
      · simp [log_of, lookups_emit, event.is_lookup]
      · exact List.prefix_refl _
      · intro _ _; rfl
    · rename_i intf off' heq
      try simp only [heq]
      obtain ⟨p1, a1, a2, a3⟩ := ep_loop_lookups h intf j cfg.wTotalLength off'
        intf.bNumEndpoints 0
        (((w.emit (.usb_parse_interface_descriptor cfg.addr j 0 off)).printf
          "\t*** ******************** Interface descriptor begin ******************* ***\n" []
          |> usbh_print_intf_desc intf).printf
          "\t*** ******************** Interface descriptor end ******************* ***\n" [])
      simp only [lookups_printf, lookups_usbh_print_intf_desc, lookups_emit, event.is_lookup,
        if_true, ← List.range_eq_range'] at a1 a2 a3
      change p1 <+: expected_ep_lookups intf cfg.wTotalLength off' at a2
      cases hep : ep_loop h intf j cfg.wTotalLength off' intf.bNumEndpoints 0 off' _ with
      | error e =>
        rw [hep] at a1
        refine ⟨.usb_parse_interface_descriptor cfg.addr j 0 off :: p1, ?_, ?_, ?_⟩
        · simpa [log_of] using a1
        · exact (List.prefix_cons_inj _).mpr
            (a2.trans (List.prefix_append _ _))
        · intro w' hw'; cases hw'
      | ok r =>
        obtain ⟨w1, off1⟩ := r
        rw [hep] at a1
        have a3' := a3 (w1, off1) hep
        have hoff : off1 = off' := by
          obtain ⟨w2, hw2⟩ : ∃ w2, ep_loop h intf j cfg.wTotalLength off' intf.bNumEndpoints 0
              off' (((w.emit (.usb_parse_interface_descriptor cfg.addr j 0 off)).printf
                "\t*** ******************** Interface descriptor begin ******************* ***\n"
                [] |> usbh_print_intf_desc intf).printf
                "\t*** ******************** Interface descriptor end ******************* ***\n"
                []) = .ok (w2, off') := by
            apply ep_loop_found
            cases hf : ep_lookups_found h intf cfg.wTotalLength off' intf.bNumEndpoints 0 with
            | true => rfl
            | false =>
              obtain ⟨out, ho⟩ := ep_loop_missing h intf j cfg.wTotalLength off'
                intf.bNumEndpoints 0
                (((w.emit (.usb_parse_interface_descriptor cfg.addr j 0 off)).printf
                  "\t*** ******************** Interface descriptor begin ******************* ***\n"
                  [] |> usbh_print_intf_desc intf).printf
                  "\t*** ******************** Interface descriptor end ******************* ***\n"
                  []) hf
              rw [hep] at ho
              cases ho
          rw [hep] at hw2
          cases hw2
          rfl
        subst hoff
        obtain ⟨p2, b1, b2, b3⟩ := ih (j + 1) off1 w1
        simp only [log_of] at a1
        refine ⟨.usb_parse_interface_descriptor cfg.addr j 0 off :: (p1 ++ p2), ?_, ?_, ?_⟩
        · rw [b1, a1]
          simp
        · rw [a3']
          exact (List.prefix_cons_inj _).mpr ((List.prefix_append_right_inj _).mpr b2)
        · intro w' hw'
          rw [a3', b3 w' hw']
          rfl

theorem expected_ep_lookups_intf_indexes (intf : usb_intf_desc_t) (wtl : Nat) (t : Int) :
    intf_indexes (expected_ep_lookups intf wtl t) = [] := by
  simp [intf_indexes, expected_ep_lookups, List.filterMap_map]

theorem expected_walk_intf_indexes (h : usb_host) (cfg : usb_config_desc_t) (n : Nat) :
    ∀ (j : Nat) (off : Int), ∃ k, k ≤ n ∧
      intf_indexes (expected_walk h cfg n j off) = List.range' j k := by
  induction n with
  | zero => intro j off; exact ⟨0, le_refl _, by simp [expected_walk, intf_indexes]⟩
  | succ n ih =>
    intro j off
    unfold expected_walk
    split
    · exact ⟨1, by omega, by simp [intf_indexes]⟩
    · rename_i intf t _
      obtain ⟨k, hk, he⟩ := ih (j + 1) t
      refine ⟨k + 1, by omega, ?_⟩
      have h1 := expected_ep_lookups_intf_indexes intf cfg.wTotalLength t
      simp only [intf_indexes, List.filterMap_cons, List.filterMap_append] at h1 he ⊢
      rw [h1, he]
      simp [List.range'_succ]

theorem action_get_config_desc_lookups (h : usb_host) (w : world) :
    ∃ pre, lookups (log_of world.out (action_get_config_desc h w)) = lookups w.out ++ pre ∧
      pre <+: expected_walk h h.get_active_config_descriptor.2 51 0 0 ∧
      (∀ w', action_get_config_desc h w = .ok w' →
        pre = expected_walk h h.get_active_config_descriptor.2 51 0 0) := by
  unfold action_get_config_desc assert ESP_ERROR_CHECK
  by_cases h1 : w.driver_obj.dev_hdl = NULL
  · exact ⟨[], by simp [h1, bind, Except.bind, log_of], List.nil_prefix,
      fun w' hw' => by simp [h1, bind, Except.bind] at hw'⟩
  by_cases h2 : h.get_active_config_descriptor.1 = ESP_OK
  · simp only [h1, h2, bind, Except.bind, pure, Except.pure, bne_iff_ne, ne_eq,
      not_false_eq_true, decide_True, if_true]
    obtain ⟨pre, a1, a2, a3⟩ := intf_loop_lookups h h.get_active_config_descriptor.2 51 0 0
      ((((w.ESP_LOGI "Getting config descriptor" []).emit
        (.usb_host_get_active_config_descriptor
          (w.ESP_LOGI "Getting config descriptor" []).driver_obj.dev_hdl)).printf
        "\t*** ******************** config descriptor begin ******************* ***\n" []
        |>.emit (.usb_print_config_descriptor h.get_active_config_descriptor.2.addr)).printf
        "\t*** ******************** config descriptor end ******************* ***\n" [])
    simp only [lookups_printf, lookups_emit, lookups_ESP_LOGI, event.is_lookup, if_false,
      List.append_nil, Bool.false_eq_true] at a1
    refine ⟨pre, ?_, a2, ?_⟩
    · revert a1
      cases intf_loop h h.get_active_config_descriptor.2 51 0 0 _ <;>
        simp [log_of, lookups, world.set_actions]
    · intro w' hw'
      revert hw' a3
      cases intf_loop h h.get_active_config_descriptor.2 51 0 0 _ with
      | error e => intro _ hw'; cases hw'
      | ok w1 => intro a3 _; exact a3 w1 rfl
  · exact ⟨[], by simp [h1, h2, bind, Except.bind, log_of, lookups_emit, lookups_ESP_LOGI,
      event.is_lookup], List.nil_prefix,
      fun w' hw' => by simp [h1, h2, bind, Except.bind] at hw'⟩

theorem expected_ep_lookups_ep_indexes (intf : usb_intf_desc_t) (wtl : Nat) (t : Int) :
    ep_indexes (expected_ep_lookups intf wtl t) = List.range intf.bNumEndpoints := by
  simp only [ep_indexes, expected_ep_lookups, List.filterMap_map]
  have hf : (List.filterMap
      ((fun e => match e with
        | event.usb_parse_endpoint_descriptor_by_index _ index _ _ => some index
        | _ => none) ∘
        fun i => event.usb_parse_endpoint_descriptor_by_index intf.addr i wtl t)) =
      List.filterMap (fun i : Nat => some i) := by
    congr 1
  rw [hf]
  simp

theorem class_driver_client_deregister_ok (h : usb_host) (w : world)
    (hu : h.client_unblock = ESP_OK) :
    class_driver_client_deregister h w =
      .ok ⟨⟨w.driver_obj.client_hdl, w.driver_obj.dev_addr, w.driver_obj.dev_hdl,
        if w.driver_obj.dev_hdl ≠ NULL then ACTION_CLOSE_DEV.val ||| ACTION_EXIT.val
        else w.driver_obj.actions ||| ACTION_EXIT.val⟩,
        w.out ++ [.usb_host_client_unblock w.driver_obj.client_hdl]⟩ := by
  unfold class_driver_client_deregister
  by_cases hh : w.driver_obj.dev_hdl = NULL <;>
    simp [ESP_ERROR_CHECK, hu, world.emit, world.set_actions, hh]

theorem when_pending_clears (flag : action_t) (f : class_driver_t → class_driver_t)
    (s : class_driver_t × List action_t) (hf : ∀ d, ¬ pending (f d).actions flag) :
    ¬ pending (when_pending flag f s).1.actions flag := by
  unfold when_pending
  split
  · exact hf _
  · assumption

theorem queries_effect_drained (h : usb_host) (d : class_driver_t) (flag : action_t)
    (hf : flag = ACTION_OPEN_DEV ∨ flag = ACTION_GET_DEV_INFO ∨ flag = ACTION_GET_DEV_DESC ∨
      flag = ACTION_GET_CONFIG_DESC ∨ flag = ACTION_GET_STR_DESC) :
    ¬ pending (queries_effect h d).1.actions flag := by
  unfold queries_effect
  rcases hf with rfl | rfl | rfl | rfl | rfl
  · rw [when_pending_keeps, when_pending_keeps, when_pending_keeps, when_pending_keeps]
    · exact when_pending_clears _ _ _ (fun d => by
        simp [open_effect, pending_or, pending_clear, pending_val])
    all_goals
      intro d
      simp [chain_effect, str_effect, pending_or, pending_clear, pending_val]
  · rw [when_pending_keeps, when_pending_keeps, when_pending_keeps]
    · exact when_pending_clears _ _ _ (fun d => by
        simp [chain_effect, pending_or, pending_clear, pending_val])
    all_goals
      intro d
      simp [chain_effect, str_effect, pending_or, pending_clear, pending_val]
  · rw [when_pending_keeps, when_pending_keeps]
    · exact when_pending_clears _ _ _ (fun d => by
        simp [chain_effect, pending_or, pending_clear, pending_val])
    all_goals
      intro d
      simp [chain_effect, str_effect, pending_or, pending_clear, pending_val]
  · rw [when_pending_keeps]
    · exact when_pending_clears _ _ _ (fun d => by
        simp [chain_effect, pending_or, pending_clear, pending_val])
    all_goals
      intro d
      simp [chain_effect, str_effect, pending_or, pending_clear, pending_val]
  · exact when_pending_clears _ _ _ (fun d => by
      simp [str_effect, pending_or, pending_clear, pending_val])

theorem actions_effect_drained (h : usb_host) (d : class_driver_t) (flag : action_t)
    (hf : flag = ACTION_OPEN_DEV ∨ flag = ACTION_GET_DEV_INFO ∨ flag = ACTION_GET_DEV_DESC ∨
      flag = ACTION_GET_CONFIG_DESC ∨ flag = ACTION_GET_STR_DESC ∨ flag = ACTION_CLOSE_DEV) :
    ¬ pending (actions_effect h d).1.actions flag := by
  unfold actions_effect
  rcases hf with rfl | rfl | rfl | rfl | rfl | rfl
  · rw [when_pending_keeps]
    · exact queries_effect_drained h d _ (Or.inl rfl)
    · intro d; simp [close_effect, pending_or, pending_clear, pending_val]
  · rw [when_pending_keeps]
    · exact queries_effect_drained h d _ (Or.inr (Or.inl rfl))
    · intro d; simp [close_effect, pending_or, pending_clear, pending_val]
  · rw [when_pending_keeps]
    · exact queries_effect_drained h d _ (Or.inr (Or.inr (Or.inl rfl)))
    · intro d; simp [close_effect, pending_or, pending_clear, pending_val]
  · rw [when_pending_keeps]
    · exact queries_effect_drained h d _ (Or.inr (Or.inr (Or.inr (Or.inl rfl))))
    · intro d; simp [close_effect, pending_or, pending_clear, pending_val]
  · rw [when_pending_keeps]
    · exact queries_effect_drained h d _ (Or.inr (Or.inr (Or.inr (Or.inr rfl))))
    · intro d; simp [close_effect, pending_or, pending_clear, pending_val]
  · exact when_pending_clears _ _ _ (fun d => by
      simp [close_effect, pending_or, pending_clear, pending_val])

theorem pass_effect_drained (h : usb_host) (d : class_driver_t) (flag : action_t)
    (hf : flag = ACTION_OPEN_DEV ∨ flag = ACTION_GET_DEV_INFO ∨ flag = ACTION_GET_DEV_DESC ∨
      flag = ACTION_GET_CONFIG_DESC ∨ flag = ACTION_GET_STR_DESC ∨ flag = ACTION_CLOSE_DEV) :
    ¬ pending (pass_effect h d).1.actions flag := by
  unfold pass_effect
  simp only []
  split
  · exact actions_effect_drained h d flag hf
  · split
    · exact pending_zero flag
    · exact actions_effect_drained h d flag hf

theorem session_ok_assertions (d : class_driver_t) (hd : session_ok d) : assertions_hold d :=
  ⟨hd.1, fun _ hq => hd.2 hq⟩

theorem session_ok_drained (d : class_driver_t)
    (h1 : ¬ pending d.actions ACTION_OPEN_DEV) (h2 : ¬ pending d.actions ACTION_GET_DEV_INFO)
    (h3 : ¬ pending d.actions ACTION_GET_DEV_DESC)
    (h4 : ¬ pending d.actions ACTION_GET_CONFIG_DESC)
    (h5 : ¬ pending d.actions ACTION_GET_STR_DESC) : session_ok d :=
  ⟨fun hp => absurd hp h1, fun hq => by
    rcases hq with hq | hq | hq | hq
    · exact absurd hq h2
    · exact absurd hq h3
    · exact absurd hq h4
    · exact absurd hq h5⟩

theorem task_input_apply_ok (i : task_input) (w : world) (hi : i.admissible)
    (hw : session_ok w.driver_obj) :
    ∃ w', i.apply w = .ok w' ∧ session_ok w'.driver_obj := by
  cases i with
  | new_dev a =>
    simp only [task_input.apply, client_event_cb]
    split
    · refine ⟨_, rfl, ?_, ?_⟩
      · intro _; exact hi
      · intro hq
        apply hw.2
        simpa [pending_or, pending_val] using hq
    · exact ⟨w, rfl, hw⟩
  | dev_gone g =>
    simp only [task_input.apply, client_event_cb]
    split
    · exact ⟨_, rfl, session_ok_drained _
        (show ¬ pending ACTION_CLOSE_DEV.val ACTION_OPEN_DEV by decide)
        (show ¬ pending ACTION_CLOSE_DEV.val ACTION_GET_DEV_INFO by decide)
        (show ¬ pending ACTION_CLOSE_DEV.val ACTION_GET_DEV_DESC by decide)
        (show ¬ pending ACTION_CLOSE_DEV.val ACTION_GET_CONFIG_DESC by decide)
        (show ¬ pending ACTION_CLOSE_DEV.val ACTION_GET_STR_DESC by decide)⟩
    · exact ⟨w, rfl, hw⟩
  | stop h =>
    refine ⟨_, class_driver_client_deregister_ok h w hi, ?_⟩
    by_cases hh : w.driver_obj.dev_hdl = NULL
    · simp only [hh, ne_eq, not_true_eq_false, if_false]
      refine ⟨?_, ?_⟩
      · intro hp
        apply hw.1
        simpa [pending_or, pending_val] using hp
      · intro hq
        exact absurd hh (hw.2 (by simpa [pending_or, pending_val] using hq))
    · simp only [hh, ne_eq, not_false_eq_true, if_true]
      exact session_ok_drained _
        (show ¬ pending (ACTION_CLOSE_DEV.val ||| ACTION_EXIT.val) ACTION_OPEN_DEV by decide)
        (show ¬ pending (ACTION_CLOSE_DEV.val ||| ACTION_EXIT.val) ACTION_GET_DEV_INFO by decide)
        (show ¬ pending (ACTION_CLOSE_DEV.val ||| ACTION_EXIT.val) ACTION_GET_DEV_DESC by decide)
        (show ¬ pending (ACTION_CLOSE_DEV.val ||| ACTION_EXIT.val) ACTION_GET_CONFIG_DESC
          by decide)
        (show ¬ pending (ACTION_CLOSE_DEV.val ||| ACTION_EXIT.val) ACTION_GET_STR_DESC
          by decide)
  | pass fuel h =>
    obtain ⟨w', e, hd, _⟩ := class_driver_task_pass_ok fuel h w hi
      (session_ok_assertions _ hw)
    refine ⟨w', by simp [task_input.apply, e], ?_⟩
    rw [hd]
    exact session_ok_drained _
      (pass_effect_drained h _ _ (Or.inl rfl))
      (pass_effect_drained h _ _ (Or.inr (Or.inl rfl)))
      (pass_effect_drained h _ _ (Or.inr (Or.inr (Or.inl rfl))))
      (pass_effect_drained h _ _ (Or.inr (Or.inr (Or.inr (Or.inl rfl)))))
      (pass_effect_drained h _ _ (Or.inr (Or.inr (Or.inr (Or.inr (Or.inl rfl))))))

theorem task_run_ok (inputs : List task_input) :
    ∀ (w : world), (∀ i ∈ inputs, i.admissible) → session_ok w.driver_obj →
      ∃ w', task_run inputs w = .ok w' ∧ session_ok w'.driver_obj := by
  induction inputs with
  | nil => intro w _ hw; exact ⟨w, rfl, hw⟩
  | cons i rest ih =>
    intro w hi hw
    obtain ⟨w1, e1, h1⟩ := task_input_apply_ok i w (hi i (List.mem_cons_self _ _)) hw
    obtain ⟨w2, e2, h2⟩ := ih w1 (fun i' hi' => hi i' (List.mem_cons_of_mem _ hi')) h1
    exact ⟨w2, by simp [task_run, e1, e2], h2⟩

theorem idx_injective (f g : action_t) (h : f.idx = g.idx) : f = g := by
  cases f <;> cases g <;> simp [action_t.idx] at h <;> rfl

theorem highest_pending_of_drained (a : Nat) (f : action_t)
    (hd : drained_below f.idx a) (hp : pending a f) : highest_pending a = some f := by
  have h0 := hd ACTION_OPEN_DEV
  have h1 := hd ACTION_GET_DEV_INFO
  have h2 := hd ACTION_GET_DEV_DESC
  have h3 := hd ACTION_GET_CONFIG_DESC
  have h4 := hd ACTION_GET_STR_DESC
  have h5 := hd ACTION_CLOSE_DEV
  have h6 := hd ACTION_EXIT
  cases f <;> simp only [action_t.idx] at h0 h1 h2 h3 h4 h5 h6 <;>
    simp [highest_pending, priority_order, List.find?, hp, h0, h1, h2, h3, h4, h5, h6]

theorem highest_pending_none (a : Nat) (hd : drained_below 8 a) : highest_pending a = none := by
  have h0 := hd ACTION_OPEN_DEV (by decide)
  have h1 := hd ACTION_GET_DEV_INFO (by decide)
  have h2 := hd ACTION_GET_DEV_DESC (by decide)
  have h3 := hd ACTION_GET_CONFIG_DESC (by decide)
  have h4 := hd ACTION_GET_STR_DESC (by decide)
  have h5 := hd ACTION_CLOSE_DEV (by decide)
  have h6 := hd ACTION_EXIT (by decide)
  have h7 := hd ACTION_RECONNECT (by decide)
  simp [highest_pending, priority_order, List.find?, h0, h1, h2, h3, h4, h5, h6, h7]

theorem drained_below_succ (a : Nat) (f : action_t) (hd : drained_below f.idx a)
    (hp : ¬ pending a f) : drained_below (f.idx + 1) a := by
  intro g hg
  by_cases hgf : g.idx = f.idx
  · rw [idx_injective g f hgf]; exact hp
  · exact hd g (by omega)

theorem refine_exit (fuel : Nat) (h : usb_host) (w : world)
    (hd : drained_below 6 w.driver_obj.actions) (n : Nat) (hn : 2 ≤ n) :
    run_pending_actions fuel h n w =
      (if pending w.driver_obj.actions ACTION_EXIT then
        pure (w.emit (.branch ACTION_EXIT), true)
      else if pending w.driver_obj.actions ACTION_RECONNECT then
        pure ((w.emit (.branch ACTION_RECONNECT)).set_actions 0, false)
      else
        pure (w, false)) := by
  obtain ⟨m, rfl⟩ : ∃ m, n = m + 2 := ⟨n - 2, by omega⟩
  by_cases h1 : pending w.driver_obj.actions ACTION_EXIT
  · have hh := highest_pending_of_drained _ ACTION_EXIT hd h1
    simp [run_pending_actions, hh, execute_flag, h1, pure, Except.pure]
  · have hd7 := drained_below_succ _ ACTION_EXIT hd h1
    by_cases h2 : pending w.driver_obj.actions ACTION_RECONNECT
    · have hh := highest_pending_of_drained _ ACTION_RECONNECT hd7 h2
      have hz : highest_pending 0 = none := by decide
      simp [run_pending_actions, hh, execute_flag, h1, h2, pure, Except.pure,
        world.set_actions, world.emit, hz]
    · have hd8 := drained_below_succ _ ACTION_RECONNECT hd7 h2
      have hh := highest_pending_none _ hd8
      simp [run_pending_actions, hh, h1, h2, pure, Except.pure]

theorem refine_step (fuel : Nat) (h : usb_host) (own : action_t)
    (action : world → Except halt world) (g : world → Except halt (world × Bool)) (N : Nat)
    (hexec : ∀ w, execute_flag fuel h own w =
      match action (w.emit (.branch own)) with
      | .error e => .error e
      | .ok w' => .ok (w', false))
    (hres : ∀ w w1, action w = .ok w1 → ∀ flag : action_t, flag.idx ≤ own.idx →
      pending w1.driver_obj.actions flag → (flag ≠ own ∧ pending w.driver_obj.actions flag))
    (hg : ∀ w, drained_below (own.idx + 1) w.driver_obj.actions → ∀ n, N ≤ n →
      run_pending_actions fuel h n w = g w) :
    ∀ w, drained_below own.idx w.driver_obj.actions → ∀ n, N + 1 ≤ n →
      run_pending_actions fuel h n w = (run_if_pending own action w >>= g) := by
  intro w hd n hn
  by_cases hp : pending w.driver_obj.actions own
  · obtain ⟨m, rfl⟩ : ∃ m, n = m + 1 := ⟨n - 1, by omega⟩
    have hh := highest_pending_of_drained _ own hd hp
    simp only [run_pending_actions, hh, hexec, run_if_pending, hp, if_true, bind, Except.bind]
    cases ha : action (w.emit (.branch own)) with
    | error e => rfl
    | ok w1 =>
      simp only []
      apply hg w1 _ m (by omega)
      intro flag hf hpf
      obtain ⟨hne, hpw⟩ := hres _ w1 ha flag (by omega) hpf
      have hlt : flag.idx < own.idx := by
        have : flag.idx ≠ own.idx := fun hi => hne (idx_injective _ _ hi)
        omega
      exact hd flag hlt hpw
  · have := hg w (drained_below_succ _ own hd hp) n (by omega)
    simp only [run_if_pending, hp, if_false, bind, Except.bind]
    exact this

theorem chain_flags (a : Nat) (own next flag : action_t) (hn : own.idx < next.idx)
    (hf : flag.idx ≤ own.idx) (hp : pending ((a &&& bnot32 own.val) ||| next.val) flag) :
    flag ≠ own ∧ pending a flag := by
  rw [pending_or, pending_clear, pending_val] at hp
  rcases hp with hp | hp
  · exact hp
  · rw [hp] at hf; omega

theorem class_driver_task_pass_refines (fuel : Nat) (h : usb_host) (w : world) (n : Nat)
    (hn : 8 ≤ n) : run_pending_actions fuel h n w = class_driver_task_pass fuel h w := by
  unfold class_driver_task_pass
  refine refine_step fuel h ACTION_OPEN_DEV (action_open_dev h) _ 7 (fun _ => rfl) ?_ ?_ w
    (fun flag hf => by simp [action_t.idx] at hf) n hn
  · intro w w1 hr flag hf hp
    rw [(action_open_dev_result h w w1 hr).2] at hp
    exact chain_flags _ ACTION_OPEN_DEV ACTION_GET_DEV_INFO flag (by decide) hf hp
  refine refine_step fuel h ACTION_GET_DEV_INFO (action_get_info h) _ 6 (fun _ => rfl) ?_ ?_
  · intro w w1 hr flag hf hp
    rw [(action_get_info_result h w w1 hr).2] at hp
    exact chain_flags _ ACTION_GET_DEV_INFO ACTION_GET_DEV_DESC flag (by decide) hf hp
  refine refine_step fuel h ACTION_GET_DEV_DESC (action_get_dev_desc fuel h) _ 5
    (fun _ => rfl) ?_ ?_
  · intro w w1 hr flag hf hp
    rw [(action_get_dev_desc_result fuel h w w1 hr).2] at hp
    exact chain_flags _ ACTION_GET_DEV_DESC ACTION_GET_CONFIG_DESC flag (by decide) hf hp
  refine refine_step fuel h ACTION_GET_CONFIG_DESC (action_get_config_desc h) _ 4
    (fun _ => rfl) ?_ ?_
  · intro w w1 hr flag hf hp
    rw [(action_get_config_desc_result h w w1 hr).2] at hp
    exact chain_flags _ ACTION_GET_CONFIG_DESC ACTION_GET_STR_DESC flag (by decide) hf hp
  refine refine_step fuel h ACTION_GET_STR_DESC (action_get_str_desc h) _ 3
    (fun _ => rfl) ?_ ?_
  · intro w w1 hr flag hf hp
    rw [(action_get_str_desc_result h w w1 hr).2] at hp
    simp only [str_effect] at hp
    exact (pending_clear _ _ _).1 hp
  refine refine_step fuel h ACTION_CLOSE_DEV (action_close_dev h) _ 2 (fun _ => rfl) ?_ ?_
  · intro w w1 hr flag hf hp
    rw [action_close_dev_result h w w1 hr] at hp
    exact chain_flags _ ACTION_CLOSE_DEV ACTION_RECONNECT flag (by decide) hf hp
  intro w hd n hn
  exact refine_exit fuel h w hd n hn

theorem val_lt (f : action_t) : f.val < 2 ^ 8 := by
  cases f <;> decide

theorem actions_zero_of_drained (a : Nat) (ha : a < 2 ^ 8) (hd : drained_below 8 a) :
    a = 0 := by
  have h0 := hd ACTION_OPEN_DEV (by decide)
  have h1 := hd ACTION_GET_DEV_INFO (by decide)
  have h2 := hd ACTION_GET_DEV_DESC (by decide)
  have h3 := hd ACTION_GET_CONFIG_DESC (by decide)
  have h4 := hd ACTION_GET_STR_DESC (by decide)
  have h5 := hd ACTION_CLOSE_DEV (by decide)
  have h6 := hd ACTION_EXIT (by decide)
  have h7 := hd ACTION_RECONNECT (by decide)
  simp only [pending, ne_eq, not_not, action_t.val] at h0 h1 h2 h3 h4 h5 h6 h7
  have hm : a &&& (2 ^ 8 - 1) = a := Nat.and_pow_two_sub_one_of_lt_two_pow ha
  have hs : (2 ^ 8 - 1 : Nat) = 0x01 ||| 0x02 ||| 0x04 ||| 0x08 ||| 0x10 ||| 0x20 ||| 0x40 |||
      0x80 := by decide
  rw [hs] at hm
  simp only [Nat.and_or_distrib_left, h0, h1, h2, h3, h4, h5, h6, h7, Nat.or_self] at hm
  exact hm.symm

theorem chain_bound (a : Nat) (own next : action_t) (ha : a < 2 ^ 8) :
    (a &&& bnot32 own.val) ||| next.val < 2 ^ 8 :=
  Nat.or_lt_two_pow (Nat.lt_of_le_of_lt Nat.and_le_left ha) (val_lt next)

theorem when_pending_bound (flag : action_t) (f : class_driver_t → class_driver_t)
    (s : class_driver_t × List action_t)
    (hf : ∀ d : class_driver_t, d.actions < 2 ^ 8 → (f d).actions < 2 ^ 8)
    (hs : s.1.actions < 2 ^ 8) : (when_pending flag f s).1.actions < 2 ^ 8 := by
  unfold when_pending
  split
  · exact hf _ hs
  · exact hs

theorem actions_effect_bound (h : usb_host) (d : class_driver_t) (hd : d.actions < 2 ^ 8) :
    (actions_effect h d).1.actions < 2 ^ 8 := by
  unfold actions_effect queries_effect
  apply when_pending_bound _ _ _ (fun d hd => chain_bound _ _ _ hd)
  apply when_pending_bound _ _ _
    (fun d hd => Nat.lt_of_le_of_lt Nat.and_le_left hd)
  apply when_pending_bound _ _ _ (fun d hd => chain_bound _ _ _ hd)
  apply when_pending_bound _ _ _ (fun d hd => chain_bound _ _ _ hd)
  apply when_pending_bound _ _ _ (fun d hd => chain_bound _ _ _ hd)
  apply when_pending_bound _ _ _ (fun d hd => chain_bound _ _ _ hd)
  exact hd

theorem pass_effect_no_exit (h : usb_host) (d : class_driver_t) (hd : d.actions < 2 ^ 8)
    (he : ¬ pending d.actions ACTION_EXIT) :
    (pass_effect h d).1.actions = 0 ∧ (pass_effect h d).2.2 = false := by
  have q1 : ¬ pending (actions_effect h d).1.actions ACTION_EXIT :=
    fun hp => he ((actions_effect_exit h d).1 hp)
  unfold pass_effect
  simp only [q1, if_false]
  split
  · exact ⟨rfl, rfl⟩
  · rename_i q2
    refine ⟨?_, rfl⟩
    apply actions_zero_of_drained _ (actions_effect_bound h d hd)
    intro flag _
    cases flag
    · exact actions_effect_drained h d _ (Or.inl rfl)
    · exact actions_effect_drained h d _ (Or.inr (Or.inl rfl))
    · exact actions_effect_drained h d _ (Or.inr (Or.inr (Or.inl rfl)))
    · exact actions_effect_drained h d _ (Or.inr (Or.inr (Or.inr (Or.inl rfl))))
    · exact actions_effect_drained h d _ (Or.inr (Or.inr (Or.inr (Or.inr (Or.inl rfl)))))
    · exact actions_effect_drained h d _ (Or.inr (Or.inr (Or.inr (Or.inr (Or.inr rfl)))))
    · exact q1
    · exact q2

theorem effect_keeps_exit (a : Nat) (own next : action_t) (h1 : own ≠ ACTION_EXIT)
    (h2 : next ≠ ACTION_EXIT) :
    pending ((a &&& bnot32 own.val) ||| next.val) ACTION_EXIT ↔ pending a ACTION_EXIT := by
  rw [pending_or, pending_clear, pending_val]
  constructor
  · rintro (⟨_, hp⟩ | hp)
    · exact hp
    · exact absurd hp.symm h2
  · intro hp
    exact Or.inl ⟨fun hc => h1 hc.symm, hp⟩

theorem class_driver_task_pass_statements (fuel : Nat) (h : usb_host) (w : world) :
    class_driver_task_pass fuel h w =
      match run_statements (action_statements fuel h) w with
      | .error e => .error e
      | .ok w =>
        if pending w.driver_obj.actions ACTION_EXIT then
          .ok (w.emit (.branch ACTION_EXIT), true)
        else if pending w.driver_obj.actions ACTION_RECONNECT then
          .ok ((w.emit (.branch ACTION_RECONNECT)).set_actions 0, false)
        else
          .ok (w, false) := by
  simp only [class_driver_task_pass, action_statements, run_statements, bind, Except.bind,
    pure, Except.pure]
  cases run_if_pending ACTION_OPEN_DEV (action_open_dev h) w with
  | error e => rfl
  | ok w1 =>
    simp only []
    cases run_if_pending ACTION_GET_DEV_INFO (action_get_info h) w1 with
    | error e => rfl
    | ok w2 =>
      simp only []
      cases run_if_pending ACTION_GET_DEV_DESC (action_get_dev_desc fuel h) w2 with
      | error e => rfl
      | ok w3 =>
        simp only []
        cases run_if_pending ACTION_GET_CONFIG_DESC (action_get_config_desc h) w3 with
        | error e => rfl
        | ok w4 =>
          simp only []
          cases run_if_pending ACTION_GET_STR_DESC (action_get_str_desc h) w4 with
          | error e => rfl
          | ok w5 =>
            simp only []
            cases run_if_pending ACTION_CLOSE_DEV (action_close_dev h) w5 with
            | error e => rfl
            | ok w6 => rfl

theorem run_statements_halt (L : List (action_t × (world → Except halt world))) :
    ∀ (k : Nat) (w w1 : world) (flag : action_t) (action : world → Except halt world)
      (e : halt), L[k]? = some (flag, action) →
      run_statements (L.take k) w = .ok w1 →
      pending w1.driver_obj.actions flag →
      action (w1.emit (.branch flag)) = .error e →
      run_statements L w = .error e := by
  induction L with
  | nil => intro k w w1 flag action e hk; simp at hk
  | cons x rest ih =>
    intro k w w1 flag action e hk hr hp he
    cases k with
    | zero =>
      simp only [List.getElem?_cons_zero, Option.some.injEq] at hk
      subst hk
      simp only [List.take_zero, run_statements, Except.ok.injEq] at hr
      subst hr
      simp [run_statements, run_if_pending, hp, he]
    | succ k =>
      simp only [List.getElem?_cons_succ] at hk
      obtain ⟨f0, a0⟩ := x
      simp only [List.take_succ_cons, run_statements] at hr ⊢
      cases h0 : run_if_pending f0 a0 w with
      | error e0 => rw [h0] at hr; cases hr
      | ok w0 =>
        rw [h0] at hr
        exact ih k w0 w1 flag action e hk hr hp he

theorem class_driver_task_pass_halts (fuel : Nat) (h : usb_host) (k : Nat) (w w1 : world)
    (flag : action_t) (action : world → Except halt world) (e : halt)
    (hk : (action_statements fuel h)[k]? = some (flag, action))
    (hr : run_statements ((action_statements fuel h).take k) w = .ok w1)
    (hp : pending w1.driver_obj.actions flag)
    (he : action (w1.emit (.branch flag)) = .error e) :
    class_driver_task_pass fuel h w = .error e := by
  rw [class_driver_task_pass_statements,
    run_statements_halt _ k w w1 flag action e hk hr hp he]

theorem action_statements_quiet (fuel : Nat) (h : usb_host) (k : Nat) (flag : action_t)
    (action : world → Except halt world)
    (hk : (action_statements fuel h)[k]? = some (flag, action)) : quiet action := by
  unfold action_statements at hk
  match k, hk with
  | 0, hk => simp at hk; rw [← hk.2]; exact action_open_dev_quiet h
  | 1, hk => simp at hk; rw [← hk.2]; exact action_get_info_quiet h
  | 2, hk => simp at hk; rw [← hk.2]; exact action_get_dev_desc_quiet fuel h
  | 3, hk => simp at hk; rw [← hk.2]; exact action_get_config_desc_quiet h
  | 4, hk => simp at hk; rw [← hk.2]; exact action_get_str_desc_quiet h
  | 5, hk => simp at hk; rw [← hk.2]; exact action_close_dev_quiet h
  | k + 6, hk => simp at hk

theorem run_if_pending_keeps (flag Z : action_t) (action : world → Except halt world)
    (hres : ∀ w w', action w = .ok w' →
      (pending w'.driver_obj.actions Z ↔ pending w.driver_obj.actions Z))
    (w w' : world) (hr : run_if_pending flag action w = .ok w') :
    pending w'.driver_obj.actions Z ↔ pending w.driver_obj.actions Z := by
  unfold run_if_pending at hr
  split at hr
  · exact hres (w.emit (.branch flag)) w' hr
  · cases hr; rfl

theorem action_open_dev_keeps (h : usb_host) (Z : action_t)
    (hZ : Z = ACTION_CLOSE_DEV ∨ Z = ACTION_EXIT ∨ Z = ACTION_RECONNECT) (w w' : world)
    (hr : action_open_dev h w = .ok w') :
    pending w'.driver_obj.actions Z ↔ pending w.driver_obj.actions Z := by
  rw [(action_open_dev_result h w w' hr).2]
  rcases hZ with rfl | rfl | rfl <;> simp [open_effect, pending_or, pending_clear, pending_val]

theorem action_get_info_keeps (h : usb_host) (Z : action_t)
    (hZ : Z = ACTION_CLOSE_DEV ∨ Z = ACTION_EXIT ∨ Z = ACTION_RECONNECT) (w w' : world)
    (hr : action_get_info h w = .ok w') :
    pending w'.driver_obj.actions Z ↔ pending w.driver_obj.actions Z := by
  rw [(action_get_info_result h w w' hr).2]
  rcases hZ with rfl | rfl | rfl <;> simp [chain_effect, pending_or, pending_clear, pending_val]

theorem action_get_dev_desc_keeps (fuel : Nat) (h : usb_host) (Z : action_t)
    (hZ : Z = ACTION_CLOSE_DEV ∨ Z = ACTION_EXIT ∨ Z = ACTION_RECONNECT) (w w' : world)
    (hr : action_get_dev_desc fuel h w = .ok w') :
    pending w'.driver_obj.actions Z ↔ pending w.driver_obj.actions Z := by
  rw [(action_get_dev_desc_result fuel h w w' hr).2]
  rcases hZ with rfl | rfl | rfl <;> simp [chain_effect, pending_or, pending_clear, pending_val]

theorem run_statements_three_keeps (fuel : Nat) (h : usb_host) (Z : action_t)
    (hZ : Z = ACTION_CLOSE_DEV ∨ Z = ACTION_EXIT ∨ Z = ACTION_RECONNECT) (w w' : world)
    (hr : run_statements ((action_statements fuel h).take 3) w = .ok w') :
    pending w'.driver_obj.actions Z ↔ pending w.driver_obj.actions Z := by
  simp only [action_statements, List.take_succ_cons, List.take_zero, run_statements] at hr
  cases h1 : run_if_pending ACTION_OPEN_DEV (action_open_dev h) w with
  | error e => rw [h1] at hr; cases hr
  | ok w1 =>
    rw [h1] at hr
    simp only [] at hr
    cases h2 : run_if_pending ACTION_GET_DEV_INFO (action_get_info h) w1 with
    | error e => rw [h2] at hr; cases hr
    | ok w2 =>
      rw [h2] at hr
      simp only [] at hr
      cases h3 : run_if_pending ACTION_GET_DEV_DESC (action_get_dev_desc fuel h) w2 with
      | error e => rw [h3] at hr; cases hr
      | ok w3 =>
        rw [h3] at hr
        cases hr
        rw [run_if_pending_keeps _ Z _ (action_get_dev_desc_keeps fuel h Z hZ) _ _ h3,
          run_if_pending_keeps _ Z _ (action_get_info_keeps h Z hZ) _ _ h2,
          run_if_pending_keeps _ Z _ (action_open_dev_keeps h Z hZ) _ _ h1]

theorem actions_effect_mem (h : usb_host) (d : class_driver_t) :
    (ACTION_OPEN_DEV ∈ (actions_effect h d).2 ↔ pending d.actions ACTION_OPEN_DEV) ∧
    (ACTION_GET_DEV_INFO ∈ (actions_effect h d).2 ↔
      pending d.actions ACTION_GET_DEV_INFO ∨ ACTION_OPEN_DEV ∈ (actions_effect h d).2) ∧
    (ACTION_GET_DEV_DESC ∈ (actions_effect h d).2 ↔
      pending d.actions ACTION_GET_DEV_DESC ∨ ACTION_GET_DEV_INFO ∈ (actions_effect h d).2) ∧
    (ACTION_GET_CONFIG_DESC ∈ (actions_effect h d).2 ↔
      pending d.actions ACTION_GET_CONFIG_DESC ∨
        ACTION_GET_DEV_DESC ∈ (actions_effect h d).2) ∧
    (ACTION_GET_STR_DESC ∈ (actions_effect h d).2 ↔
      pending d.actions ACTION_GET_STR_DESC ∨
        ACTION_GET_CONFIG_DESC ∈ (actions_effect h d).2) ∧
    (ACTION_CLOSE_DEV ∈ (actions_effect h d).2 ↔ pending d.actions ACTION_CLOSE_DEV) := by
  by_cases p1 : pending d.actions ACTION_OPEN_DEV <;>
  by_cases p2 : pending d.actions ACTION_GET_DEV_INFO <;>
  by_cases p3 : pending d.actions ACTION_GET_DEV_DESC <;>
  by_cases p4 : pending d.actions ACTION_GET_CONFIG_DESC <;>
  by_cases p5 : pending d.actions ACTION_GET_STR_DESC <;>
  by_cases p6 : pending d.actions ACTION_CLOSE_DEV <;>
  simp [actions_effect, queries_effect, when_pending, open_effect, chain_effect, str_effect,
    close_effect, pending_or, pending_clear, pending_val, p1, p2, p3, p4, p5, p6]

theorem ep_lookups_made_found (h : usb_host) (intf : usb_intf_desc_t) (wtl : Nat) (t : Int)
    (n : Nat) : ∀ i : Nat,
      (ep_lookups_made h intf wtl t n i).2 = ep_lookups_found h intf wtl t n i := by
  induction n with
  | zero => intro i; rfl
  | succ n ih =>
    intro i
    unfold ep_lookups_made ep_lookups_found
    split
    · rename_i heq; simp [heq]
    · rename_i heq; simp [heq, ih]

theorem walk_made_found (h : usb_host) (cfg : usb_config_desc_t) (n : Nat) :
    ∀ (j : Nat) (off : Int),
      (walk_made h cfg n j off).2 = intf_lookups_found h cfg n j off := by
  induction n with
  | zero => intro j off; rfl
  | succ n ih =>
    intro j off
    unfold walk_made intf_lookups_found
    split
    · rename_i heq; simp [heq]
    · rename_i intf t heq
      simp only [heq, ep_lookups_made_found]
      cases ep_lookups_found h intf cfg.wTotalLength t intf.bNumEndpoints 0 <;> simp [ih]

theorem ep_lookups_made_beginning (h : usb_host) (intf : usb_intf_desc_t) (wtl : Nat) (t : Int)
    (n : Nat) : ∀ i : Nat,
      (ep_lookups_made h intf wtl t n i).1 <+: (List.range' i n).map (fun i =>
          event.usb_parse_endpoint_descriptor_by_index intf.addr i wtl t) ∧
        ((ep_lookups_made h intf wtl t n i).2 = true →
          (ep_lookups_made h intf wtl t n i).1 = (List.range' i n).map (fun i =>
            event.usb_parse_endpoint_descriptor_by_index intf.addr i wtl t)) := by
  induction n with
  | zero => intro i; exact ⟨by simp [ep_lookups_made], fun _ => by simp [ep_lookups_made]⟩
  | succ n ih =>
    intro i
    unfold ep_lookups_made
    rw [range'_map_cons]
    split
    · exact ⟨List.prefix_iff_eq_append.mpr (by simp), fun hf => by simp at hf⟩
    · obtain ⟨h1, h2⟩ := ih (i + 1)
      refine ⟨(List.prefix_cons_inj _).mpr h1, fun hf => ?_⟩
      simp only [] at hf ⊢
      rw [h2 hf]

theorem walk_made_beginning (h : usb_host) (cfg : usb_config_desc_t) (n : Nat) :
    ∀ (j : Nat) (off : Int),
      (walk_made h cfg n j off).1 <+: expected_walk h cfg n j off ∧
        ((walk_made h cfg n j off).2 = true →
          (walk_made h cfg n j off).1 = expected_walk h cfg n j off) := by
  induction n with
  | zero => intro j off; exact ⟨by simp [walk_made], fun _ => by simp [walk_made, expected_walk]⟩
  | succ n ih =>
    intro j off
    unfold walk_made expected_walk
    split
    · rename_i heq
      try simp only [heq]
      exact ⟨List.prefix_refl _, by simp⟩
    · rename_i intf t heq
      try simp only [heq]
      obtain ⟨e1, e2⟩ := ep_lookups_made_beginning h intf cfg.wTotalLength t intf.bNumEndpoints 0
      rw [← List.range_eq_range'] at e1 e2
      change _ <+: expected_ep_lookups intf cfg.wTotalLength t at e1
      change _ → _ = expected_ep_lookups intf cfg.wTotalLength t at e2
      obtain ⟨w1, w2⟩ := ih (j + 1) t
      split
      · rename_i hf
        simp only []
        rw [e2 hf]
        exact ⟨(List.prefix_cons_inj _).mpr ((List.prefix_append_right_inj _).mpr w1),
          fun hw => by rw [w2 hw]⟩
      · simp only []
        exact ⟨(List.prefix_cons_inj _).mpr (e1.trans (List.prefix_append _ _)),
          fun hf => by simp at hf⟩

theorem ep_lookups_made_last (h : usb_host) (intf : usb_intf_desc_t) (wtl : Nat) (t : Int)
    (n : Nat) : ∀ i : Nat, (ep_lookups_made h intf wtl t n i).2 = false →
      ∃ i1, (ep_lookups_made h intf wtl t n i).1.getLast? =
          some (.usb_parse_endpoint_descriptor_by_index intf.addr i1 wtl t) ∧
        h.usb_parse_endpoint_descriptor_by_index intf i1 wtl t = none := by
  induction n with
  | zero => intro i hf; simp [ep_lookups_made] at hf
  | succ n ih =>
    intro i hf
    unfold ep_lookups_made at hf ⊢
    split
    · rename_i heq
      exact ⟨i, by simp, heq⟩
    · rename_i heq
      rw [heq] at hf
      simp only [] at hf
      obtain ⟨i1, h1, h2⟩ := ih (i + 1) hf
      refine ⟨i1, ?_, h2⟩
      simp only []
      rw [List.getLast?_cons, h1]
      rfl

theorem getLast?_append_of_some {α : Type} (a b : List α) (x : α) (hb : b.getLast? = some x) :
    (a ++ b).getLast? = some x := by
  rw [List.getLast?_append, hb]
  rfl

theorem walk_made_last (h : usb_host) (cfg : usb_config_desc_t) (n : Nat) :
    ∀ (j : Nat) (off : Int), (walk_made h cfg n j off).2 = false →
      ∃ (intf : usb_intf_desc_t) (i1 : Nat) (off1 : Int),
        (walk_made h cfg n j off).1.getLast? =
          some (.usb_parse_endpoint_descriptor_by_index intf.addr i1 cfg.wTotalLength off1) ∧
        h.usb_parse_endpoint_descriptor_by_index intf i1 cfg.wTotalLength off1 = none := by
  induction n with
  | zero => intro j off hf; simp [walk_made] at hf
  | succ n ih =>
    intro j off hf
    unfold walk_made at hf ⊢
    split
    · rename_i heq
      rw [heq] at hf
      simp at hf
    · rename_i intf t heq
      rw [heq] at hf
      simp only [] at hf ⊢
      split
      · rename_i hq
        rw [if_pos hq] at hf
        simp only [] at hf
        obtain ⟨intf1, i1, off1, h1, h2⟩ := ih (j + 1) t hf
        refine ⟨intf1, i1, off1, ?_, h2⟩
        simp only []
        rw [← List.cons_append]
        exact getLast?_append_of_some _ _ _ h1
      · rename_i hq
        simp only [Bool.not_eq_true] at hq
        obtain ⟨i1, h1, h2⟩ := ep_lookups_made_last h intf cfg.wTotalLength t
          intf.bNumEndpoints 0 hq
        refine ⟨intf, i1, t, ?_, h2⟩
        simp only []
        rw [List.getLast?_cons, h1]
        rfl

theorem ep_loop_lookups_made (h : usb_host) (intf : usb_intf_desc_t) (j wtl : Nat) (t : Int)
    (n : Nat) : ∀ (i : Nat) (w : world),
      lookups (log_of (fun r : world × Int => r.1.out) (ep_loop h intf j wtl t n i t w)) =
        lookups w.out ++ (ep_lookups_made h intf wtl t n i).1 := by
  induction n with
  | zero => intro i w; simp [ep_loop, log_of, ep_lookups_made]
  | succ n ih =>
    intro i w
    unfold ep_loop ep_lookups_made
    simp only []
    split
    · rename_i heq
      simp [log_of, lookups_emit, event.is_lookup, heq]
    · rename_i ep off1 heq
      rw [ih]
      simp only [lookups_printf, lookups_print_ep_desc, heq]
      split <;> [skip; split <;> [split; skip]] <;>
        simp [lookups_printf, lookups_emit, event.is_lookup]

theorem ep_loop_cases (h : usb_host) (intf : usb_intf_desc_t) (j wtl : Nat) (t : Int)
    (n i : Nat) (w : world) :
    ((ep_lookups_made h intf wtl t n i).2 = true ∧
      ∃ w', ep_loop h intf j wtl t n i t w = .ok (w', t) ∧
        lookups w'.out = lookups w.out ++ (ep_lookups_made h intf wtl t n i).1) ∨
    ((ep_lookups_made h intf wtl t n i).2 = false ∧
      ∃ e, ep_loop h intf j wtl t n i t w = .error e ∧
        lookups e.out = lookups w.out ++ (ep_lookups_made h intf wtl t n i).1) := by
  have hl := ep_loop_lookups_made h intf j wtl t n i w
  cases hf : (ep_lookups_made h intf wtl t n i).2 with
  | true =>
    left
    rw [ep_lookups_made_found] at hf
    obtain ⟨w', hw'⟩ := ep_loop_found h intf j wtl t n i w hf
    rw [hw'] at hl
    exact ⟨rfl, w', hw', hl⟩
  | false =>
    right
    rw [ep_lookups_made_found] at hf
    obtain ⟨e, he⟩ := ep_loop_missing h intf j wtl t n i w hf
    rw [he] at hl
    exact ⟨rfl, e, he, hl⟩

theorem intf_loop_lookups_made (h : usb_host) (cfg : usb_config_desc_t) (n : Nat) :
    ∀ (j : Nat) (off : Int) (w : world),
      lookups (log_of world.out (intf_loop h cfg n j off w)) =
        lookups w.out ++ (walk_made h cfg n j off).1 := by
  induction n with
  | zero => intro j off w; simp [intf_loop, log_of, walk_made]
  | succ n ih =>
    intro j off w
    unfold intf_loop walk_made
    simp only []
    split
    · rename_i heq
      simp [log_of, lookups_emit, event.is_lookup, heq]
    · rename_i intf t heq
      rcases ep_loop_cases h intf j cfg.wTotalLength t intf.bNumEndpoints 0
        (((w.emit (.usb_parse_interface_descriptor cfg.addr j 0 off)).printf
          "\t*** ******************** Interface descriptor begin ******************* ***\n" []
          |> usbh_print_intf_desc intf).printf
          "\t*** ******************** Interface descriptor end ******************* ***\n" [])
        with ⟨hf, w', hw', hl⟩ | ⟨hf, e, he, hl⟩
      · rw [hw']
        simp only [heq, hf, if_true]
        rw [ih, hl]
        simp [lookups_printf, lookups_usbh_print_intf_desc, lookups_emit, event.is_lookup]
      · rw [he]
        simp only [heq, hf, log_of]
        rw [hl]
        simp [lookups_printf, lookups_usbh_print_intf_desc, lookups_emit, event.is_lookup]

theorem action_get_config_desc_lookups_made (h : usb_host) (w : world)
    (h1 : w.driver_obj.dev_hdl ≠ NULL) (h2 : h.get_active_config_descriptor.1 = ESP_OK) :
    lookups (log_of world.out (action_get_config_desc h w)) =
      lookups w.out ++ (walk_made h h.get_active_config_descriptor.2 51 0 0).1 := by
  unfold action_get_config_desc assert ESP_ERROR_CHECK
  simp only [h1, h2, bind, Except.bind, pure, Except.pure, bne_iff_ne, ne_eq,
    not_false_eq_true, decide_True, if_true]
  have hl := intf_loop_lookups_made h h.get_active_config_descriptor.2 51 0 0
    ((((w.ESP_LOGI "Getting config descriptor" []).emit
      (.usb_host_get_active_config_descriptor
        (w.ESP_LOGI "Getting config descriptor" []).driver_obj.dev_hdl)).printf
      "\t*** ******************** config descriptor begin ******************* ***\n" []
      |>.emit (.usb_print_config_descriptor h.get_active_config_descriptor.2.addr)).printf
      "\t*** ******************** config descriptor end ******************* ***\n" [])
  simp only [lookups_printf, lookups_emit, lookups_ESP_LOGI, event.is_lookup, if_false,
    List.append_nil, Bool.false_eq_true] at hl
  revert hl
  cases intf_loop h h.get_active_config_descriptor.2 51 0 0 _ <;>
    simp [log_of, lookups, world.set_actions]

theorem iad_loop_halt (h : usb_host) (wtl : Nat) (fuel : Nat) :
    ∀ (cur : Nat) (off : Int) (w : world) (e : halt), iad_loop h wtl fuel cur off w = .error e →
      e.why = .out_of_fuel := by
  induction fuel with
  | zero => intro cur off w e hr; simp only [iad_loop, Except.error.injEq] at hr; rw [← hr]
  | succ n ih =>
    intro cur off w e hr
    unfold iad_loop at hr
    simp only [] at hr
    split at hr
    · cases hr
    · exact ih _ _ _ _ hr

theorem action_get_dev_desc_halt (fuel : Nat) (h : usb_host) (w : world)
    (h1 : w.driver_obj.dev_hdl ≠ NULL) (h2 : h.get_device_descriptor.1 = ESP_OK)
    (h3 : h.get_active_config_descriptor_dev.1 = ESP_OK) (e : halt)
    (hr : action_get_dev_desc fuel h w = .error e) : e.why = .out_of_fuel := by
  unfold action_get_dev_desc assert ESP_ERROR_CHECK at hr
  simp only [h1, h2, h3, bind, Except.bind, pure, Except.pure, bne_iff_ne, ne_eq,
    not_false_eq_true, decide_True, if_true] at hr
  split at hr
  · cases hl : iad_loop h _ fuel _ 0 _ with
    | error e1 =>
      rw [hl] at hr
      cases hr
      exact iad_loop_halt _ _ _ _ _ _ _ hl
    | ok w1 => rw [hl] at hr; cases hr
  · split at hr <;> cases hr

theorem run_if_pending_result (flag : action_t) (action : world → Except halt world)
    (f : class_driver_t → class_driver_t)
    (hres : ∀ w w', action w = .ok w' → w'.driver_obj = f w.driver_obj)
    (w w' : world) (s : class_driver_t × List action_t) (hw : w.driver_obj = s.1)
    (hr : run_if_pending flag action w = .ok w') :
    w'.driver_obj = (when_pending flag f s).1 := by
  unfold run_if_pending at hr
  unfold when_pending
  rw [← hw]
  split at hr
  · rename_i hp
    simp only [hp, if_true]
    exact hres (w.emit (.branch flag)) w' hr
  · rename_i hp
    cases hr
    simp only [hp, if_false]
    exact hw

theorem class_driver_task_pass_result (fuel : Nat) (h : usb_host) (w w' : world) (brk : Bool)
    (hr : class_driver_task_pass fuel h w = .ok (w', brk)) :
    w'.driver_obj = (pass_effect h w.driver_obj).1 ∧ brk = (pass_effect h w.driver_obj).2.2 := by
  simp only [class_driver_task_pass, bind, Except.bind] at hr
  cases h1 : run_if_pending ACTION_OPEN_DEV (action_open_dev h) w with
  | error e => rw [h1] at hr; cases hr
  | ok w1 =>
    rw [h1] at hr
    simp only [] at hr
    have d1 := run_if_pending_result _ _ (open_effect h)
      (fun a b hab => (action_open_dev_result h a b hab).2) w w1 (w.driver_obj, []) rfl h1
    cases h2 : run_if_pending ACTION_GET_DEV_INFO (action_get_info h) w1 with
    | error e => rw [h2] at hr; cases hr
    | ok w2 =>
      rw [h2] at hr
      simp only [] at hr
      have d2 := run_if_pending_result _ _ (chain_effect ACTION_GET_DEV_INFO ACTION_GET_DEV_DESC)
        (fun a b hab => (action_get_info_result h a b hab).2) w1 w2 _ d1 h2
      cases h3 : run_if_pending ACTION_GET_DEV_DESC (action_get_dev_desc fuel h) w2 with
      | error e => rw [h3] at hr; cases hr
      | ok w3 =>
        rw [h3] at hr
        simp only [] at hr
        have d3 := run_if_pending_result _ _
          (chain_effect ACTION_GET_DEV_DESC ACTION_GET_CONFIG_DESC)
          (fun a b hab => (action_get_dev_desc_result fuel h a b hab).2) w2 w3 _ d2 h3
        cases h4 : run_if_pending ACTION_GET_CONFIG_DESC (action_get_config_desc h) w3 with
        | error e => rw [h4] at hr; cases hr
        | ok w4 =>
          rw [h4] at hr
          simp only [] at hr
          have d4 := run_if_pending_result _ _
            (chain_effect ACTION_GET_CONFIG_DESC ACTION_GET_STR_DESC)
            (fun a b hab => (action_get_config_desc_result h a b hab).2) w3 w4 _ d3 h4
          cases h5 : run_if_pending ACTION_GET_STR_DESC (action_get_str_desc h) w4 with
          | error e => rw [h5] at hr; cases hr
          | ok w5 =>
            rw [h5] at hr
            simp only [] at hr
            have d5 := run_if_pending_result _ _ str_effect
              (fun a b hab => (action_get_str_desc_result h a b hab).2) w4 w5 _ d4 h5
            cases h6 : run_if_pending ACTION_CLOSE_DEV (action_close_dev h) w5 with
            | error e => rw [h6] at hr; cases hr
            | ok w6 =>
              rw [h6] at hr
              simp only [] at hr
              have d6 := run_if_pending_result _ _ close_effect
                (fun a b hab => action_close_dev_result h a b hab) w5 w6 _ d5 h6
              change w6.driver_obj = (actions_effect h w.driver_obj).1 at d6
              unfold pass_effect
              simp only []
              rw [← d6]
              split at hr
              · rename_i q1
                simp only [pure, Except.pure, Except.ok.injEq, Prod.mk.injEq] at hr
                obtain ⟨r1, r2⟩ := hr
                subst r1 r2
                simp [q1, world.emit_driver_obj]
              · rename_i q1
                split at hr
                · rename_i q2
                  simp only [pure, Except.pure, Except.ok.injEq, Prod.mk.injEq] at hr
                  obtain ⟨r1, r2⟩ := hr
                  subst r1 r2
                  simp [q1, q2, world.emit, world.set_actions]
                · rename_i q2
                  simp only [pure, Except.pure, Except.ok.injEq, Prod.mk.injEq] at hr
                  obtain ⟨r1, r2⟩ := hr
                  subst r1 r2
                  simp [q1, q2]

theorem run_if_pending_hdl_ok (flag : action_t) (action : world → Except halt world)
    (hres : ∀ w w', action w = .ok w' → w'.driver_obj.dev_hdl ≠ NULL)
    (w w' : world) (hw : hdl_ok w.driver_obj)
    (hr : run_if_pending flag action w = .ok w') : hdl_ok w'.driver_obj := by
  unfold run_if_pending at hr
  split at hr
  · exact fun _ => hres _ _ hr
  · cases hr; exact hw

theorem run_if_pending_open_hdl_ok (h : usb_host) (w w' : world)
    (ha : assertions_hold w.driver_obj) (hh : h.device_open.2 ≠ NULL)
    (hr : run_if_pending ACTION_OPEN_DEV (action_open_dev h) w = .ok w') :
    hdl_ok w'.driver_obj := by
  unfold run_if_pending at hr
  split at hr
  · intro _
    rw [(action_open_dev_result h _ _ hr).2]
    exact hh
  · rename_i hp
    cases hr
    exact ha.2 hp

theorem chain_effect_hdl (own next : action_t) (w w' : world)
    (hr : w.driver_obj.dev_hdl ≠ NULL ∧ w'.driver_obj = chain_effect own next w.driver_obj) :
    w'.driver_obj.dev_hdl ≠ NULL := by
  rw [hr.2]
  exact hr.1

theorem class_driver_task_pass_halt_cause (fuel : Nat) (h : usb_host) (w : world)
    (hs : h.calls_succeed) (ha : assertions_hold w.driver_obj) (e : halt)
    (he : class_driver_task_pass fuel h w = .error e) :
    (∃ d, e.why = .assert_failed "this_ep" d) ∨ e.why = .out_of_fuel := by
  simp only [class_driver_task_pass, bind, Except.bind] at he
  cases h1 : run_if_pending ACTION_OPEN_DEV (action_open_dev h) w with
  | error e1 =>
    obtain ⟨hp, hx⟩ := run_if_pending_error _ _ _ _ h1
    obtain ⟨o, ho⟩ := action_open_dev_ok h (w.emit (.branch ACTION_OPEN_DEV)) (ha.1 hp)
      hs.device_open
    rw [ho] at hx
    cases hx
  | ok w1 =>
    rw [h1] at he
    simp only [] at he
    have j1 := run_if_pending_open_hdl_ok h w w1 ha hs.device_open_hdl h1
    cases h2 : run_if_pending ACTION_GET_DEV_INFO (action_get_info h) w1 with
    | error e2 =>
      obtain ⟨hp, hx⟩ := run_if_pending_error _ _ _ _ h2
      obtain ⟨o, ho⟩ := action_get_info_ok h (w1.emit (.branch ACTION_GET_DEV_INFO))
        (j1 (Or.inl hp)) hs.device_info
      rw [ho] at hx
      cases hx
    | ok w2 =>
      rw [h2] at he
      simp only [] at he
      have j2 := run_if_pending_hdl_ok _ _
        (fun a b hab => chain_effect_hdl _ _ a b (action_get_info_result h a b hab)) w1 w2 j1 h2
      cases h3 : run_if_pending ACTION_GET_DEV_DESC (action_get_dev_desc fuel h) w2 with
      | error e3 =>
        rw [h3] at he
        cases he
        obtain ⟨hp, hx⟩ := run_if_pending_error _ _ _ _ h3
        exact Or.inr (action_get_dev_desc_halt fuel h (w2.emit (.branch ACTION_GET_DEV_DESC))
          (j2 (Or.inr (Or.inl hp))) hs.get_device_descriptor
          hs.get_active_config_descriptor_dev _ hx)
      | ok w3 =>
        rw [h3] at he
        simp only [] at he
        have j3 := run_if_pending_hdl_ok _ _
          (fun a b hab => chain_effect_hdl _ _ a b (action_get_dev_desc_result fuel h a b hab))
          w2 w3 j2 h3
        cases h4 : run_if_pending ACTION_GET_CONFIG_DESC (action_get_config_desc h) w3 with
        | error e4 =>
          rw [h4] at he
          cases he
          obtain ⟨hp, hx⟩ := run_if_pending_error _ _ _ _ h4
          exact Or.inl ⟨_, (action_get_config_desc_halt h
            (w3.emit (.branch ACTION_GET_CONFIG_DESC)) (j3 (Or.inr (Or.inr (Or.inl hp))))
            hs.get_active_config_descriptor _ hx).1⟩
        | ok w4 =>
          rw [h4] at he
          simp only [] at he
          have j4 := run_if_pending_hdl_ok _ _
            (fun a b hab => chain_effect_hdl _ _ a b (action_get_config_desc_result h a b hab))
            w3 w4 j3 h4
          cases h5 : run_if_pending ACTION_GET_STR_DESC (action_get_str_desc h) w4 with
          | error e5 =>
            obtain ⟨hp, hx⟩ := run_if_pending_error _ _ _ _ h5
            obtain ⟨o, ho⟩ := action_get_str_desc_ok h (w4.emit (.branch ACTION_GET_STR_DESC))
              (j4 (Or.inr (Or.inr (Or.inr hp)))) hs.device_info_str
            rw [ho] at hx
            cases hx
          | ok w5 =>
            rw [h5] at he
            simp only [] at he
            cases h6 : run_if_pending ACTION_CLOSE_DEV (action_close_dev h) w5 with
            | error e6 =>
              obtain ⟨hp, hx⟩ := run_if_pending_error _ _ _ _ h6
              obtain ⟨o, ho⟩ := action_close_dev_ok h (w5.emit (.branch ACTION_CLOSE_DEV))
                hs.device_close
              rw [ho] at hx
              cases hx
            | ok w6 =>
              rw [h6] at he
              simp only [] at he
              split at he
              · cases he
              · split at he <;> cases he

theorem task_input_apply_transport (i : task_input) (w : world) (hi : i.transport_ok)
    (hw : session_ok w.driver_obj) :
    (∀ w', i.apply w = .ok w' → session_ok w'.driver_obj) ∧
      (∀ e, i.apply w = .error e →
        (∃ d, e.why = .assert_failed "this_ep" d) ∨ e.why = .out_of_fuel) := by
  have key : ∀ j : task_input, j.admissible →
      (∀ w', j.apply w = .ok w' → session_ok w'.driver_obj) ∧
        (∀ e, j.apply w = .error e →
          (∃ d, e.why = .assert_failed "this_ep" d) ∨ e.why = .out_of_fuel) := by
    intro j hj
    obtain ⟨w1, e1, s1⟩ := task_input_apply_ok j w hj hw
    refine ⟨fun w' hw' => ?_, fun e he => ?_⟩
    · rw [e1] at hw'
      cases hw'
      exact s1
    · rw [e1] at he
      cases he
  cases i with
  | new_dev a => exact key (.new_dev a) hi
  | dev_gone g => exact key (.dev_gone g) hi
  | stop h => exact key (.stop h) hi
  | pass fuel h =>
    refine ⟨fun w' hw' => ?_, fun e he => ?_⟩
    · simp only [task_input.apply] at hw'
      cases hp : class_driver_task_pass fuel h w with
      | error e1 => rw [hp] at hw'; cases hw'
      | ok r =>
        obtain ⟨w1, brk⟩ := r
        rw [hp] at hw'
        cases hw'
        rw [(class_driver_task_pass_result fuel h w _ brk hp).1]
        exact session_ok_drained _
          (pass_effect_drained h _ _ (Or.inl rfl))
          (pass_effect_drained h _ _ (Or.inr (Or.inl rfl)))
          (pass_effect_drained h _ _ (Or.inr (Or.inr (Or.inl rfl))))
          (pass_effect_drained h _ _ (Or.inr (Or.inr (Or.inr (Or.inl rfl)))))
          (pass_effect_drained h _ _ (Or.inr (Or.inr (Or.inr (Or.inr (Or.inl rfl))))))
    · simp only [task_input.apply] at he
      cases hp : class_driver_task_pass fuel h w with
      | error e1 =>
        rw [hp] at he
        cases he
        exact class_driver_task_pass_halt_cause fuel h w hi (session_ok_assertions _ hw) _ hp
      | ok r =>
        obtain ⟨w1, brk⟩ := r
        rw [hp] at he
        cases he

theorem task_run_transport (inputs : List task_input) :
    ∀ (w : world), (∀ i ∈ inputs, i.transport_ok) → session_ok w.driver_obj →
      (∀ w', task_run inputs w = .ok w' → session_ok w'.driver_obj) ∧
        (∀ e, task_run inputs w = .error e →
          (∃ d, e.why = .assert_failed "this_ep" d) ∨ e.why = .out_of_fuel) := by
  induction inputs with
  | nil =>
    intro w _ hw
    refine ⟨fun w' hw' => ?_, fun e he => ?_⟩
    · cases hw'
      exact hw
    · cases he
  | cons i rest ih =>
    intro w hi hw
    obtain ⟨a1, a2⟩ := task_input_apply_transport i w (hi i (List.mem_cons_self _ _)) hw
    unfold task_run
    cases ha : i.apply w with
    | error e1 =>
      refine ⟨fun w' hw' => ?_, fun e he => ?_⟩
      · cases hw'
      · cases he
        exact a2 _ ha
    | ok w1 =>
      exact ih w1 (fun i' hi' => hi i' (List.mem_cons_of_mem _ hi')) (a1 w1 ha)

theorem usb_host.succeeds.calls_succeed {h : usb_host} {fuel : Nat} (hs : h.succeeds fuel) :
    h.calls_succeed :=
  ⟨hs.device_open, hs.device_open_hdl, hs.device_info, hs.get_device_descriptor,
    hs.get_active_config_descriptor_dev, hs.get_active_config_descriptor, hs.device_info_str,
    hs.device_close⟩

theorem task_input.admissible.transport_ok {i : task_input} (hi : i.admissible) :
    i.transport_ok := by
  cases i with
  | new_dev a => exact hi
  | dev_gone g => exact hi
  | stop h => exact hi
  | pass fuel h => exact usb_host.succeeds.calls_succeed hi

theorem short_host_calls_succeed : short_host.calls_succeed :=
  ⟨rfl, by decide, rfl, rfl, rfl, rfl, rfl, rfl⟩

theorem class_driver_task_pass_no_entry_halt (fuel : Nat) (h : usb_host) (w : world)
    (hs : h.calls_succeed) (ha : assertions_hold w.driver_obj) (k : Nat) (w1 : world)
    (flag : action_t) (action : world → Except halt world)
    (hk : (action_statements fuel h)[k]? = some (flag, action))
    (hr : run_statements ((action_statements fuel h).take k) w = .ok w1)
    (hp : pending w1.driver_obj.actions flag) (expr : String) (d : class_driver_t)
    (out : List event) (hne : expr ≠ "this_ep") :
    action (w1.emit (.branch flag)) ≠ .error ⟨.assert_failed expr d, out⟩ := by
  intro hx
  have hpass := class_driver_task_pass_halts fuel h k w w1 flag action _ hk hr hp hx
  rcases class_driver_task_pass_halt_cause fuel h w hs ha _ hpass with ⟨d1, hd⟩ | hd
  · simp only [cause.assert_failed.injEq] at hd
    exact hne hd.1
  · cases hd

theorem class_driver_task_pass_entry (fuel : Nat) (h : usb_host) (w : world)
    (hs : h.calls_succeed) (ha : assertions_hold w.driver_obj) (k : Nat) (w1 : world)
    (flag : action_t) (action : world → Except halt world)
    (hk : (action_statements fuel h)[k]? = some (flag, action))
    (hr : run_statements ((action_statements fuel h).take k) w = .ok w1)
    (hp : pending w1.driver_obj.actions flag) :
    (flag = ACTION_OPEN_DEV → w1.driver_obj.dev_addr ≠ 0) ∧
      (flag = ACTION_GET_DEV_INFO ∨ flag = ACTION_GET_DEV_DESC ∨
          flag = ACTION_GET_CONFIG_DESC ∨ flag = ACTION_GET_STR_DESC →
        w1.driver_obj.dev_hdl ≠ NULL) := by
  have key := class_driver_task_pass_no_entry_halt fuel h w hs ha k w1 flag action hk hr hp
  have hk' := hk
  unfold action_statements at hk'
  match k, hk' with
  | 0, hk' =>
    simp only [List.getElem?_cons_zero, Option.some.injEq, Prod.mk.injEq] at hk'
    obtain ⟨rfl, rfl⟩ := hk'
    refine ⟨fun _ hz => ?_, fun hf => by rcases hf with hf | hf | hf | hf <;> cases hf⟩
    exact key "driver_obj->dev_addr != 0" _ _ (by decide)
      (by simp [action_open_dev, assert, world.emit, hz, bind, Except.bind]; exact ⟨rfl, rfl⟩)
  | 1, hk' =>
    simp only [List.getElem?_cons_succ, List.getElem?_cons_zero, Option.some.injEq,
      Prod.mk.injEq] at hk'
    obtain ⟨rfl, rfl⟩ := hk'
    refine ⟨fun hf => (by cases hf), fun _ hz => ?_⟩
    exact key "driver_obj->dev_hdl != NULL" _ _ (by decide)
      (by simp [action_get_info, assert, world.emit, hz, bind, Except.bind]; exact ⟨rfl, rfl⟩)
  | 2, hk' =>
    simp only [List.getElem?_cons_succ, List.getElem?_cons_zero, Option.some.injEq,
      Prod.mk.injEq] at hk'
    obtain ⟨rfl, rfl⟩ := hk'
    refine ⟨fun hf => (by cases hf), fun _ hz => ?_⟩
    exact key "driver_obj->dev_hdl != NULL" _ _ (by decide)
      (by simp [action_get_dev_desc, assert, world.emit, hz, bind, Except.bind]; exact ⟨rfl, rfl⟩)
  | 3, hk' =>
    simp only [List.getElem?_cons_succ, List.getElem?_cons_zero, Option.some.injEq,
      Prod.mk.injEq] at hk'
    obtain ⟨rfl, rfl⟩ := hk'
    refine ⟨fun hf => (by cases hf), fun _ hz => ?_⟩
    exact key "driver_obj->dev_hdl != NULL" _ _ (by decide)
      (by simp [action_get_config_desc, assert, world.emit, hz, bind, Except.bind]; exact ⟨rfl, rfl⟩)
  | 4, hk' =>
    simp only [List.getElem?_cons_succ, List.getElem?_cons_zero, Option.some.injEq,
      Prod.mk.injEq] at hk'
    obtain ⟨rfl, rfl⟩ := hk'
    refine ⟨fun hf => (by cases hf), fun _ hz => ?_⟩
    exact key "driver_obj->dev_hdl != NULL" _ _ (by decide)
      (by simp [action_get_str_desc, assert, world.emit, hz, bind, Except.bind]; exact ⟨rfl, rfl⟩)
  | 5, hk' =>
    simp only [List.getElem?_cons_succ, List.getElem?_cons_zero, Option.some.injEq,
      Prod.mk.injEq] at hk'
    obtain ⟨rfl, rfl⟩ := hk'
    exact ⟨fun hf => (by cases hf), fun hf => (by rcases hf with hf | hf | hf | hf <;> cases hf)⟩
  | k + 6, hk' => simp at hk'

/-! ## The claims -/

/-- C1. In every session reached from the initial session (`dev_addr = 0`,
`dev_hdl = NULL`, `actions = 0`) by any sequence of event messages handled by
`client_event_cb` and of executed actions that return (no failed assertion, no failed
library call), `dev_hdl` is not `NULL` only when `dev_addr != 0`.  The sequence is
arbitrary, so the invariant holds after every callback and after every action. -/
theorem dev_hdl_only_with_dev_addr (client_hdl : Nat) (out : List event)
    (inputs : List session_input) (w : world)
    (hr : session_run inputs (initial_session client_hdl out) = .ok w) :
    w.driver_obj.dev_hdl ≠ NULL → w.driver_obj.dev_addr ≠ 0 :=
  session_run_invariant inputs (initial_session client_hdl out) w (fun hh => absurd rfl hh) hr

/-- Witness of C1: a device is announced at address 5, opened and queried. -/
theorem dev_hdl_only_with_dev_addr_witness :
    (∃ w, session_run
        [.event (.USB_HOST_CLIENT_EVENT_NEW_DEV 5), .open_dev demo_host, .get_info demo_host]
        (initial_session 1 []) = .ok w ∧ w.driver_obj.dev_hdl = 7 ∧ w.driver_obj.dev_addr = 5) ∧
      ((7 : Nat) ≠ NULL → (5 : Nat) ≠ 0) :=
  ⟨⟨_, rfl, rfl, rfl⟩,
    dev_hdl_only_with_dev_addr 1 []
      [.event (.USB_HOST_CLIENT_EVENT_NEW_DEV 5), .open_dev demo_host, .get_info demo_host]
      _ rfl⟩

/-- C2. Disconnect precedence: on `USB_HOST_CLIENT_EVENT_DEV_GONE`, `client_event_cb`
returns; when a device handle is open the pending set becomes exactly
`{ACTION_CLOSE_DEV}` whatever was pending, with `dev_addr` and `dev_hdl` unchanged; when
no device handle is open the whole session is unchanged. -/
theorem device_gone_precedence (w : world) (gone : Nat) :
    client_event_cb (.USB_HOST_CLIENT_EVENT_DEV_GONE gone) w =
        .ok (if w.driver_obj.dev_hdl ≠ NULL then
          ⟨⟨w.driver_obj.client_hdl, w.driver_obj.dev_addr, w.driver_obj.dev_hdl,
            ACTION_CLOSE_DEV.val⟩, w.out⟩
        else w) ∧
      ∀ flag, pending ACTION_CLOSE_DEV.val flag ↔ flag = ACTION_CLOSE_DEV := by
  refine ⟨?_, fun flag => pending_val _ _⟩
  simp only [client_event_cb]
  split <;> rfl

/-- C3. On `USB_HOST_CLIENT_EVENT_NEW_DEV` with address `a`, `client_event_cb` returns;
if `dev_addr == 0` it records `a` and adds `ACTION_OPEN_DEV` to the pending set, every
other flag and `dev_hdl` being unchanged; otherwise the whole session is unchanged. -/
theorem new_device_handling (w : world) (a : Nat) :
    client_event_cb (.USB_HOST_CLIENT_EVENT_NEW_DEV a) w =
        .ok (if w.driver_obj.dev_addr = 0 then
          ⟨⟨w.driver_obj.client_hdl, a, w.driver_obj.dev_hdl,
            w.driver_obj.actions ||| ACTION_OPEN_DEV.val⟩, w.out⟩
        else w) ∧
      ∀ flag, pending (w.driver_obj.actions ||| ACTION_OPEN_DEV.val) flag ↔
        (flag = ACTION_OPEN_DEV ∨ pending w.driver_obj.actions flag) := by
  refine ⟨?_, fun flag => ?_⟩
  · simp only [client_event_cb]
    split <;> rfl
  · rw [pending_or, pending_val]
    tauto

/-- C4. Ordering: in a dispatcher pass the branches are taken in the fixed order
`priority_order`, each at most once, and the first branch taken is the one of the first
pending flag in that order; this holds for every driver object and whatever the library
returns, also when an action halts the program.  For the pending set
`{ACTION_GET_STR_DESC, ACTION_OPEN_DEV, ACTION_GET_CONFIG_DESC}` the first action is
`ACTION_OPEN_DEV`. -/
theorem dispatch_order (fuel : Nat) (h : usb_host) (w : world) :
    executed (log_of (fun r : world × Bool => r.1.out) (class_driver_task_pass fuel h w)) =
        executed w.out ++ pass_trace fuel h w ∧
      (pass_trace fuel h w).Sublist priority_order ∧
      (pass_trace fuel h w).head? = highest_pending w.driver_obj.actions ∧
      (w.driver_obj.actions =
          ACTION_GET_STR_DESC.val ||| ACTION_OPEN_DEV.val ||| ACTION_GET_CONFIG_DESC.val →
        (pass_trace fuel h w).head? = some ACTION_OPEN_DEV) := by
  obtain ⟨t, ht1, ht2, ht3⟩ := class_driver_task_pass_ordered fuel h w
  have hpt : pass_trace fuel h w = t := by simp [pass_trace, ht1]
  rw [hpt]
  refine ⟨ht1, ht2, ht3, ?_⟩
  intro ha
  rw [ht3, ha]
  decide

/-- Witness of C4: the pass for `{ACTION_GET_STR_DESC, ACTION_OPEN_DEV,
ACTION_GET_CONFIG_DESC}` with a device at address 5. -/
theorem dispatch_order_witness :
    pass_trace 1 demo_host ⟨⟨1, 5, NULL, 0x19⟩, []⟩ =
        [ACTION_OPEN_DEV, ACTION_GET_DEV_INFO, ACTION_GET_DEV_DESC, ACTION_GET_CONFIG_DESC,
          ACTION_GET_STR_DESC] ∧
      (pass_trace 1 demo_host ⟨⟨1, 5, NULL, 0x19⟩, []⟩).head? = some ACTION_OPEN_DEV :=
  ⟨rfl, (dispatch_order 1 demo_host ⟨⟨1, 5, NULL, 0x19⟩, []⟩).2.2.2 rfl⟩

/-- C5. Enumeration scenario: from the initial session, `NEW_DEV` with address 5 gives
the pending set `{ACTION_OPEN_DEV}`; then, every library call succeeding,
`action_open_dev` gives `{ACTION_GET_DEV_INFO}`, `action_get_info` gives
`{ACTION_GET_DEV_DESC}`, `action_get_dev_desc` gives `{ACTION_GET_CONFIG_DESC}`,
`action_get_config_desc` gives `{ACTION_GET_STR_DESC}` and `action_get_str_desc` gives
the empty set, with `dev_addr = 5` and the opened handle kept.  In any session an action
that runs clears exactly its own flag and sets exactly its successor (the last two
conjuncts say what that does to each flag). -/
theorem enumeration_scenario (fuel : Nat) (h : usb_host) (client_hdl : Nat)
    (out : List event) (hs : h.succeeds fuel) :
    (∃ o1 o2 o3 o4 o5 o6,
      client_event_cb (.USB_HOST_CLIENT_EVENT_NEW_DEV 5) (initial_session client_hdl out) =
          .ok ⟨⟨client_hdl, 5, NULL, ACTION_OPEN_DEV.val⟩, o1⟩ ∧
        action_open_dev h ⟨⟨client_hdl, 5, NULL, ACTION_OPEN_DEV.val⟩, o1⟩ =
          .ok ⟨⟨client_hdl, 5, h.device_open.2, ACTION_GET_DEV_INFO.val⟩, o2⟩ ∧
        action_get_info h ⟨⟨client_hdl, 5, h.device_open.2, ACTION_GET_DEV_INFO.val⟩, o2⟩ =
          .ok ⟨⟨client_hdl, 5, h.device_open.2, ACTION_GET_DEV_DESC.val⟩, o3⟩ ∧
        action_get_dev_desc fuel h
            ⟨⟨client_hdl, 5, h.device_open.2, ACTION_GET_DEV_DESC.val⟩, o3⟩ =
          .ok ⟨⟨client_hdl, 5, h.device_open.2, ACTION_GET_CONFIG_DESC.val⟩, o4⟩ ∧
        action_get_config_desc h
            ⟨⟨client_hdl, 5, h.device_open.2, ACTION_GET_CONFIG_DESC.val⟩, o4⟩ =
          .ok ⟨⟨client_hdl, 5, h.device_open.2, ACTION_GET_STR_DESC.val⟩, o5⟩ ∧
        action_get_str_desc h ⟨⟨client_hdl, 5, h.device_open.2, ACTION_GET_STR_DESC.val⟩, o5⟩ =
          .ok ⟨⟨client_hdl, 5, h.device_open.2, 0⟩, o6⟩ ∧
        h.device_open.2 ≠ NULL) ∧
      (∀ w : world, w.driver_obj.dev_addr ≠ 0 → ∃ o, action_open_dev h w =
        .ok ⟨⟨w.driver_obj.client_hdl, w.driver_obj.dev_addr, h.device_open.2,
          (w.driver_obj.actions &&& bnot32 ACTION_OPEN_DEV.val) ||| ACTION_GET_DEV_INFO.val⟩,
          o⟩) ∧
      (∀ w : world, w.driver_obj.dev_hdl ≠ NULL →
        (∃ o, action_get_info h w =
          .ok ⟨⟨w.driver_obj.client_hdl, w.driver_obj.dev_addr, w.driver_obj.dev_hdl,
            (w.driver_obj.actions &&& bnot32 ACTION_GET_DEV_INFO.val) |||
              ACTION_GET_DEV_DESC.val⟩, o⟩) ∧
        (∃ o, action_get_dev_desc fuel h w =
          .ok ⟨⟨w.driver_obj.client_hdl, w.driver_obj.dev_addr, w.driver_obj.dev_hdl,
            (w.driver_obj.actions &&& bnot32 ACTION_GET_DEV_DESC.val) |||
              ACTION_GET_CONFIG_DESC.val⟩, o⟩) ∧
        (∃ o, action_get_config_desc h w =
          .ok ⟨⟨w.driver_obj.client_hdl, w.driver_obj.dev_addr, w.driver_obj.dev_hdl,
            (w.driver_obj.actions &&& bnot32 ACTION_GET_CONFIG_DESC.val) |||
              ACTION_GET_STR_DESC.val⟩, o⟩) ∧
        (∃ o, action_get_str_desc h w =
          .ok ⟨⟨w.driver_obj.client_hdl, w.driver_obj.dev_addr, w.driver_obj.dev_hdl,
            w.driver_obj.actions &&& bnot32 ACTION_GET_STR_DESC.val⟩, o⟩)) ∧
      (∀ (actions : Nat) (own next flag : action_t),
        pending ((actions &&& bnot32 own.val) ||| next.val) flag ↔
          (flag = next ∨ (flag ≠ own ∧ pending actions flag))) ∧
      (∀ (actions : Nat) (own flag : action_t),
        pending (actions &&& bnot32 own.val) flag ↔ (flag ≠ own ∧ pending actions flag)) := by
  have hh := hs.device_open_hdl
  refine ⟨?_, ?_, ?_, ?_, ?_⟩
  · have e1 : client_event_cb (.USB_HOST_CLIENT_EVENT_NEW_DEV 5)
        (initial_session client_hdl out) =
        .ok ⟨⟨client_hdl, 5, NULL, ACTION_OPEN_DEV.val⟩, out⟩ := by
      simp [client_event_cb, initial_session]
    obtain ⟨o2, e2⟩ := action_open_dev_ok h
      ⟨⟨client_hdl, 5, NULL, ACTION_OPEN_DEV.val⟩, out⟩ (Nat.succ_ne_zero 4) hs.device_open
    obtain ⟨o3, e3⟩ := action_get_info_ok h
      ⟨⟨client_hdl, 5, h.device_open.2, ACTION_GET_DEV_INFO.val⟩, o2⟩ hh hs.device_info
    obtain ⟨o4, e4⟩ := action_get_dev_desc_ok fuel h
      ⟨⟨client_hdl, 5, h.device_open.2, ACTION_GET_DEV_DESC.val⟩, o3⟩ hh
      hs.get_device_descriptor hs.get_active_config_descriptor_dev hs.iad_search
    obtain ⟨o5, e5⟩ := action_get_config_desc_ok h
      ⟨⟨client_hdl, 5, h.device_open.2, ACTION_GET_CONFIG_DESC.val⟩, o4⟩ hh
      hs.get_active_config_descriptor hs.endpoints
    obtain ⟨o6, e6⟩ := action_get_str_desc_ok h
      ⟨⟨client_hdl, 5, h.device_open.2, ACTION_GET_STR_DESC.val⟩, o5⟩ hh hs.device_info_str
    have c2 : (ACTION_OPEN_DEV.val &&& bnot32 ACTION_OPEN_DEV.val) |||
        ACTION_GET_DEV_INFO.val = ACTION_GET_DEV_INFO.val := by decide
    have c3 : (ACTION_GET_DEV_INFO.val &&& bnot32 ACTION_GET_DEV_INFO.val) |||
        ACTION_GET_DEV_DESC.val = ACTION_GET_DEV_DESC.val := by decide
    have c4 : (ACTION_GET_DEV_DESC.val &&& bnot32 ACTION_GET_DEV_DESC.val) |||
        ACTION_GET_CONFIG_DESC.val = ACTION_GET_CONFIG_DESC.val := by decide
    have c5 : (ACTION_GET_CONFIG_DESC.val &&& bnot32 ACTION_GET_CONFIG_DESC.val) |||
        ACTION_GET_STR_DESC.val = ACTION_GET_STR_DESC.val := by decide
    have c6 : ACTION_GET_STR_DESC.val &&& bnot32 ACTION_GET_STR_DESC.val = 0 := by decide
    dsimp only at e2 e3 e4 e5 e6
    rw [c2] at e2
    rw [c3] at e3
    rw [c4] at e4
    rw [c5] at e5
    rw [c6] at e6
    exact ⟨out, o2, o3, o4, o5, o6, e1, e2, e3, e4, e5, e6, hh⟩
  · intro w hw
    exact action_open_dev_ok h w hw hs.device_open
  · intro w hw
    exact ⟨action_get_info_ok h w hw hs.device_info,
      action_get_dev_desc_ok fuel h w hw hs.get_device_descriptor
        hs.get_active_config_descriptor_dev hs.iad_search,
      action_get_config_desc_ok h w hw hs.get_active_config_descriptor hs.endpoints,
      action_get_str_desc_ok h w hw hs.device_info_str⟩
  · intro actions own next flag
    rw [pending_or, pending_clear, pending_val]
    tauto
  · intro actions own flag
    exact pending_clear actions own flag

/-- Witness of C5: the scenario with the library `demo_host`. -/
theorem enumeration_scenario_witness :
    demo_host.succeeds 1 ∧
      ∃ o5 o6, action_get_str_desc demo_host ⟨⟨1, 5, 7, ACTION_GET_STR_DESC.val⟩, o5⟩ =
        .ok ⟨⟨1, 5, 7, 0⟩, o6⟩ := by
  refine ⟨demo_host_succeeds, ?_⟩
  obtain ⟨_, _, _, _, o5, o6, _, _, _, _, _, e6, _⟩ :=
    (enumeration_scenario 1 demo_host 1 [] demo_host_succeeds).1
  exact ⟨o5, o6, e6⟩

/-- C6. For every session with an open device (`dev_hdl != NULL`; and `dev_addr != 0` in
case `ACTION_OPEN_DEV` is pending too, which `action_open_dev` asserts) whose pending set
contains `ACTION_CLOSE_DEV` and not `ACTION_EXIT`, one dispatcher pass in which the
library calls succeed returns without leaving the loop and ends idle:
`dev_hdl = NULL`, `dev_addr = 0`, nothing pending, the last two branches taken being
`ACTION_CLOSE_DEV` and `ACTION_RECONNECT`; a following `NEW_DEV` with address `a` is
accepted and gives `dev_addr = a` and the pending set `{ACTION_OPEN_DEV}`.
`action_close_dev` clears both device fields and sets `ACTION_RECONNECT`; the
`ACTION_RECONNECT` branch clears all flags and makes no call (it adds only its marker to
the log). -/
theorem close_returns_to_idle (fuel : Nat) (h : usb_host) (w : world) (a : Nat)
    (hs : h.succeeds fuel) (hh : w.driver_obj.dev_hdl ≠ NULL)
    (hd : pending w.driver_obj.actions ACTION_OPEN_DEV → w.driver_obj.dev_addr ≠ 0)
    (hc : pending w.driver_obj.actions ACTION_CLOSE_DEV)
    (he : ¬ pending w.driver_obj.actions ACTION_EXIT) :
    (∃ w', class_driver_task_pass fuel h w = .ok (w', false) ∧
      w'.driver_obj = ⟨w.driver_obj.client_hdl, 0, NULL, 0⟩ ∧
      (∃ t, executed w'.out =
        executed w.out ++ (t ++ [ACTION_CLOSE_DEV, ACTION_RECONNECT])) ∧
      client_event_cb (.USB_HOST_CLIENT_EVENT_NEW_DEV a) w' =
        .ok ⟨⟨w.driver_obj.client_hdl, a, NULL, ACTION_OPEN_DEV.val⟩, w'.out⟩) ∧
      (∀ w1 : world, ∃ o, action_close_dev h w1 =
        .ok ⟨⟨w1.driver_obj.client_hdl, 0, NULL,
          (w1.driver_obj.actions &&& bnot32 ACTION_CLOSE_DEV.val) ||| ACTION_RECONNECT.val⟩,
          o⟩) ∧
      (∀ w1 : world, pending w1.driver_obj.actions ACTION_RECONNECT →
        (∀ flag, flag ≠ ACTION_RECONNECT → ¬ pending w1.driver_obj.actions flag) →
        class_driver_task_pass fuel h w1 =
          .ok (⟨⟨w1.driver_obj.client_hdl, w1.driver_obj.dev_addr, w1.driver_obj.dev_hdl, 0⟩,
            w1.out ++ [.branch ACTION_RECONNECT]⟩, false)) := by
  refine ⟨?_, fun w1 => action_close_dev_ok h w1 hs.device_close, ?_⟩
  · obtain ⟨w', e, hd', hx⟩ := class_driver_task_pass_ok fuel h w hs
      ⟨hd, fun _ _ => hh⟩
    rw [pass_effect_close h w.driver_obj hc he] at e hd' hx
    refine ⟨w', e, hd', ⟨(queries_effect h w.driver_obj).2, ?_⟩, ?_⟩
    · simpa using hx
    · have hw : w' = ⟨⟨w.driver_obj.client_hdl, 0, NULL, 0⟩, w'.out⟩ := by
        cases w'; simp only [world.mk.injEq, and_true]; exact hd'
      rw [hw]
      simp [client_event_cb]
  · intro w1 hr hn
    simp [class_driver_task_pass, run_if_pending, hr, hn, bind, Except.bind, pure,
      Except.pure, world.emit, world.set_actions]

/-- Witness of C6: a disconnect during enumeration, with the library `demo_host`. -/
theorem close_returns_to_idle_witness :
    demo_host.succeeds 1 ∧
      ∃ w', class_driver_task_pass 1 demo_host
          ⟨⟨1, 5, 7, ACTION_CLOSE_DEV.val ||| ACTION_GET_CONFIG_DESC.val⟩, []⟩ =
        .ok (w', false) ∧ w'.driver_obj = ⟨1, 0, NULL, 0⟩ := by
  obtain ⟨w', e, hd', _⟩ := (close_returns_to_idle 1 demo_host
    ⟨⟨1, 5, 7, ACTION_CLOSE_DEV.val ||| ACTION_GET_CONFIG_DESC.val⟩, []⟩ 9
    demo_host_succeeds (by decide) (fun _ => by decide) (by decide) (by decide)).1
  exact ⟨demo_host_succeeds, w', e, hd'⟩

/-- C7. Stop while idle: with nothing pending and no device handle open,
`class_driver_client_deregister` makes the pending set exactly `{ACTION_EXIT}`; the
following dispatcher pass takes the `ACTION_EXIT` branch only, so it runs no action and
makes no library call, and leaves the loop; the task then deregisters the client. -/
theorem stop_while_idle (fuel : Nat) (h : usb_host) (i : loop_input)
    (rest : List loop_input) (client_hdl dev_addr : Nat) (out : List event)
    (hu : h.client_unblock = ESP_OK) (hd : h.client_deregister = ESP_OK) :
    class_driver_client_deregister h ⟨⟨client_hdl, dev_addr, NULL, 0⟩, out⟩ =
        .ok ⟨⟨client_hdl, dev_addr, NULL, ACTION_EXIT.val⟩,
          out ++ [.usb_host_client_unblock client_hdl]⟩ ∧
      class_driver_task_pass fuel i.host
          ⟨⟨client_hdl, dev_addr, NULL, ACTION_EXIT.val⟩,
            out ++ [.usb_host_client_unblock client_hdl]⟩ =
        .ok (⟨⟨client_hdl, dev_addr, NULL, ACTION_EXIT.val⟩,
          out ++ [.usb_host_client_unblock client_hdl] ++ [.branch ACTION_EXIT]⟩, true) ∧
      class_driver_task_run fuel h (i :: rest)
          ⟨⟨client_hdl, dev_addr, NULL, ACTION_EXIT.val⟩,
            out ++ [.usb_host_client_unblock client_hdl]⟩ =
        .ok (⟨⟨client_hdl, dev_addr, NULL, ACTION_EXIT.val⟩,
          out ++ [.usb_host_client_unblock client_hdl] ++
            [.branch ACTION_EXIT, .ESP_LOGI TAG "Deregistering Client" [],
              .usb_host_client_deregister client_hdl, .vTaskSuspend]⟩, true) := by
  have e1 : class_driver_task_pass fuel i.host
      ⟨⟨client_hdl, dev_addr, NULL, ACTION_EXIT.val⟩,
        out ++ [.usb_host_client_unblock client_hdl]⟩ =
      .ok (⟨⟨client_hdl, dev_addr, NULL, ACTION_EXIT.val⟩,
        out ++ [.usb_host_client_unblock client_hdl] ++ [.branch ACTION_EXIT]⟩, true) := by
    simp [class_driver_task_pass, run_if_pending, pending_val, bind, Except.bind, pure,
      Except.pure, world.emit]
  have e0 : ACTION_EXIT.val ≠ 0 := by decide
  refine ⟨?_, e1, ?_⟩
  · simp [class_driver_client_deregister, ESP_ERROR_CHECK, hu, world.emit, world.set_actions,
      NULL]
  · simp [class_driver_task_run, class_driver_task_loop, e0, e1, class_driver_task_exit,
      ESP_ERROR_CHECK, hd, bind, Except.bind, pure, Except.pure, world.emit, world.ESP_LOGI]

/-- Witness of C7: the stop request with the library `demo_host`. -/
theorem stop_while_idle_witness :
    class_driver_task_run 1 demo_host [⟨demo_host, []⟩]
        ⟨⟨1, 0, NULL, ACTION_EXIT.val⟩, [.usb_host_client_unblock 1]⟩ =
      .ok (⟨⟨1, 0, NULL, ACTION_EXIT.val⟩,
        [.usb_host_client_unblock 1, .branch ACTION_EXIT,
          .ESP_LOGI TAG "Deregistering Client" [], .usb_host_client_deregister 1,
          .vTaskSuspend]⟩, true) :=
  (stop_while_idle 1 demo_host ⟨demo_host, []⟩ [] 1 0 [] rfl rfl).2.2

/-- C8. Stop request: when `usb_host_client_unblock` succeeds,
`class_driver_client_deregister` returns with `dev_addr` and `dev_hdl` unchanged; when
`dev_hdl != NULL` the pending set becomes exactly `{ACTION_CLOSE_DEV, ACTION_EXIT}`,
every other flag being discarded; when `dev_hdl == NULL` it only adds `ACTION_EXIT`.
`ACTION_EXIT` is pending afterwards in both cases. -/
theorem stop_request_flags (h : usb_host) (w : world) (hu : h.client_unblock = ESP_OK) :
    class_driver_client_deregister h w =
        .ok ⟨⟨w.driver_obj.client_hdl, w.driver_obj.dev_addr, w.driver_obj.dev_hdl,
          if w.driver_obj.dev_hdl ≠ NULL then ACTION_CLOSE_DEV.val ||| ACTION_EXIT.val
          else w.driver_obj.actions ||| ACTION_EXIT.val⟩,
          w.out ++ [.usb_host_client_unblock w.driver_obj.client_hdl]⟩ ∧
      (∀ flag, pending (ACTION_CLOSE_DEV.val ||| ACTION_EXIT.val) flag ↔
        (flag = ACTION_CLOSE_DEV ∨ flag = ACTION_EXIT)) ∧
      (∀ flag, pending (w.driver_obj.actions ||| ACTION_EXIT.val) flag ↔
        (flag = ACTION_EXIT ∨ pending w.driver_obj.actions flag)) := by
  refine ⟨?_, fun flag => ?_, fun flag => ?_⟩
  · unfold class_driver_client_deregister
    by_cases hh : w.driver_obj.dev_hdl = NULL <;>
      simp [ESP_ERROR_CHECK, hu, world.emit, world.set_actions, hh]
  · rw [pending_or, pending_val, pending_val]
  · rw [pending_or, pending_val]
    tauto

/-- Witness of C8: a stop request while a device is open and being enumerated. -/
theorem stop_request_flags_witness :
    class_driver_client_deregister demo_host ⟨⟨1, 5, 7, ACTION_GET_DEV_DESC.val⟩, []⟩ =
      .ok ⟨⟨1, 5, 7, ACTION_CLOSE_DEV.val ||| ACTION_EXIT.val⟩,
        [.usb_host_client_unblock 1]⟩ :=
  (stop_request_flags demo_host ⟨⟨1, 5, 7, ACTION_GET_DEV_DESC.val⟩, []⟩ rfl).1

/-- C9, as stated, fails: with `{ACTION_OPEN_DEV, ACTION_EXIT}` pending and a device at
address 5, the pass runs five actions before it takes the `ACTION_EXIT` branch, not at
most one. -/
theorem exit_not_checked_after_every_action :
    pending (ACTION_OPEN_DEV.val ||| ACTION_EXIT.val) ACTION_EXIT ∧
      ∃ w', class_driver_task_pass 1 demo_host
          ⟨⟨1, 5, NULL, ACTION_OPEN_DEV.val ||| ACTION_EXIT.val⟩, []⟩ = .ok (w', true) ∧
        executed w'.out =
          [ACTION_OPEN_DEV, ACTION_GET_DEV_INFO, ACTION_GET_DEV_DESC, ACTION_GET_CONFIG_DESC,
            ACTION_GET_STR_DESC, ACTION_EXIT] ∧
        ¬ ((executed w'.out).filter (fun flag => decide (flag ≠ ACTION_EXIT))).length ≤ 1 :=
  ⟨by decide, _, rfl, by decide, by decide⟩

/-- C9, amended.  `ACTION_EXIT` is checked once per dispatcher pass, after the six action
statements: when `ACTION_EXIT` is pending at the start of a pass in which no assertion
fails and the library calls succeed, the pass runs every action whose flag is pending at
the start or becomes pending on the way, and no other: the list `t` of the actions run
is in the fixed order, each action at most once (so at most six); it holds
`ACTION_OPEN_DEV` and `ACTION_CLOSE_DEV` exactly when they are pending at the start, and
each query action exactly when its flag is pending at the start or the action before it
in the chain has run.  Then the pass takes the `ACTION_EXIT` branch and leaves the loop
in that same pass; the task then deregisters the client. -/
theorem exit_checked_once_per_pass (fuel : Nat) (h : usb_host) (i : loop_input)
    (rest : List loop_input) (w : world) (hs : i.host.succeeds fuel)
    (ha : assertions_hold w.driver_obj) (he : pending w.driver_obj.actions ACTION_EXIT)
    (hd : h.client_deregister = ESP_OK) :
    ∃ w' t, class_driver_task_pass fuel i.host w = .ok (w', true) ∧
      executed w'.out = executed w.out ++ (t ++ [ACTION_EXIT]) ∧
      t.Sublist [ACTION_OPEN_DEV, ACTION_GET_DEV_INFO, ACTION_GET_DEV_DESC,
        ACTION_GET_CONFIG_DESC, ACTION_GET_STR_DESC, ACTION_CLOSE_DEV] ∧
      t.length ≤ 6 ∧
      (∀ flag : action_t, pending w.driver_obj.actions flag → flag ≠ ACTION_EXIT →
        flag ≠ ACTION_RECONNECT → flag ∈ t) ∧
      (ACTION_OPEN_DEV ∈ t ↔ pending w.driver_obj.actions ACTION_OPEN_DEV) ∧
      (ACTION_GET_DEV_INFO ∈ t ↔
        pending w.driver_obj.actions ACTION_GET_DEV_INFO ∨ ACTION_OPEN_DEV ∈ t) ∧
      (ACTION_GET_DEV_DESC ∈ t ↔
        pending w.driver_obj.actions ACTION_GET_DEV_DESC ∨ ACTION_GET_DEV_INFO ∈ t) ∧
      (ACTION_GET_CONFIG_DESC ∈ t ↔
        pending w.driver_obj.actions ACTION_GET_CONFIG_DESC ∨ ACTION_GET_DEV_DESC ∈ t) ∧
      (ACTION_GET_STR_DESC ∈ t ↔
        pending w.driver_obj.actions ACTION_GET_STR_DESC ∨ ACTION_GET_CONFIG_DESC ∈ t) ∧
      (ACTION_CLOSE_DEV ∈ t ↔ pending w.driver_obj.actions ACTION_CLOSE_DEV) ∧
      class_driver_task_run fuel h (i :: rest) w =
        .ok (⟨w'.driver_obj, w'.out ++ [.ESP_LOGI TAG "Deregistering Client" [],
          .usb_host_client_deregister w'.driver_obj.client_hdl, .vTaskSuspend]⟩, true) := by
  obtain ⟨w', e, _, hx⟩ := class_driver_task_pass_ok fuel i.host w hs ha
  rw [pass_effect_exit i.host w.driver_obj he] at e hx
  have hsub := actions_effect_sublist i.host w.driver_obj
  have h0 := pending_ne_zero _ _ he
  obtain ⟨m1, m2, m3, m4, m5, m6⟩ := actions_effect_mem i.host w.driver_obj
  refine ⟨w', (actions_effect i.host w.driver_obj).2, e, hx, hsub, ?_, ?_, m1, m2, m3, m4,
    m5, m6, ?_⟩
  · simpa using hsub.length_le
  · intro flag hp h1 h2
    cases flag with
    | ACTION_OPEN_DEV => exact m1.2 hp
    | ACTION_GET_DEV_INFO => exact m2.2 (Or.inl hp)
    | ACTION_GET_DEV_DESC => exact m3.2 (Or.inl hp)
    | ACTION_GET_CONFIG_DESC => exact m4.2 (Or.inl hp)
    | ACTION_GET_STR_DESC => exact m5.2 (Or.inl hp)
    | ACTION_CLOSE_DEV => exact m6.2 hp
    | ACTION_EXIT => exact absurd rfl h1
    | ACTION_RECONNECT => exact absurd rfl h2
  · simp only [] at e
    simp [class_driver_task_run, class_driver_task_loop, h0, e, class_driver_task_exit,
      ESP_ERROR_CHECK, hd, bind, Except.bind, pure, Except.pure, world.emit, world.ESP_LOGI]

/-- Witness of C9 (amended): `{ACTION_OPEN_DEV, ACTION_EXIT}` with a device at address 5
and the library `demo_host`; the five actions of the chain run before the loop is
left. -/
theorem exit_checked_once_per_pass_witness :
    demo_host.succeeds 1 ∧
      ∃ w' t, class_driver_task_pass 1 demo_host
          ⟨⟨1, 5, NULL, ACTION_OPEN_DEV.val ||| ACTION_EXIT.val⟩, []⟩ = .ok (w', true) ∧
        executed w'.out = t ++ [ACTION_EXIT] ∧
        ACTION_OPEN_DEV ∈ t ∧ ACTION_GET_STR_DESC ∈ t ∧ ACTION_CLOSE_DEV ∉ t := by
  obtain ⟨w', t, e, hx, _, _, _, m1, m2, m3, m4, m5, m6, _⟩ :=
    exit_checked_once_per_pass 1 demo_host ⟨demo_host, []⟩ []
      ⟨⟨1, 5, NULL, ACTION_OPEN_DEV.val ||| ACTION_EXIT.val⟩, []⟩ demo_host_succeeds
      ⟨fun _ => by decide, fun hn => absurd (by decide) hn⟩ (by decide) rfl
  have k1 : ACTION_OPEN_DEV ∈ t := m1.2 (by decide)
  refine ⟨demo_host_succeeds, w', t, e, by simpa using hx, k1,
    m5.2 (Or.inr (m4.2 (Or.inr (m3.2 (Or.inr (m2.2 (Or.inr k1))))))), ?_⟩
  intro hc
  exact absurd (m6.1 hc) (by decide)

/-- C10, as stated, fails: with the library `short_host` (one interface that declares two
endpoints, one endpoint record) the lookup of endpoint 1 finds nothing,
`action_get_config_desc` halts the program on `assert(this_ep)`, and so does the
dispatcher pass; no session with `ACTION_CLOSE_DEV` and `ACTION_RECONNECT` pending is
produced, and neither flag is pending in the driver object at the halt. -/
theorem missing_endpoint_halts_program :
    intf_lookups_found short_host short_host.get_active_config_descriptor.2 51 0 0 = false ∧
      (∃ out, action_get_config_desc short_host
          ⟨⟨1, 5, 7, ACTION_GET_CONFIG_DESC.val⟩, []⟩ =
        .error ⟨.assert_failed "this_ep" ⟨1, 5, 7, ACTION_GET_CONFIG_DESC.val⟩, out⟩) ∧
      (∃ out, class_driver_task_pass 1 short_host
          ⟨⟨1, 5, 7, ACTION_GET_CONFIG_DESC.val⟩, []⟩ =
        .error ⟨.assert_failed "this_ep" ⟨1, 5, 7, ACTION_GET_CONFIG_DESC.val⟩, out⟩) ∧
      ¬ pending ACTION_GET_CONFIG_DESC.val ACTION_CLOSE_DEV ∧
      ¬ pending ACTION_GET_CONFIG_DESC.val ACTION_RECONNECT ∧
      ¬ ∃ w' brk, class_driver_task_pass 1 short_host
          ⟨⟨1, 5, 7, ACTION_GET_CONFIG_DESC.val⟩, []⟩ = .ok (w', brk) ∧
        pending w'.driver_obj.actions ACTION_CLOSE_DEV ∧
        pending w'.driver_obj.actions ACTION_RECONNECT := by
  have e : ∃ out, class_driver_task_pass 1 short_host
      ⟨⟨1, 5, 7, ACTION_GET_CONFIG_DESC.val⟩, []⟩ =
      .error ⟨.assert_failed "this_ep" ⟨1, 5, 7, ACTION_GET_CONFIG_DESC.val⟩, out⟩ := ⟨_, rfl⟩
  refine ⟨by decide, ⟨_, rfl⟩, e, by decide, by decide, ?_⟩
  rintro ⟨w', brk, hw, _⟩
  obtain ⟨out, ho⟩ := e
  rw [ho] at hw
  cases hw

/-- C10, amended.  When an endpoint lookup of `action_get_config_desc` finds no record
(`intf_lookups_found` is false: some interface found by the walk has an index below its
`bNumEndpoints` for which the lookup returns `NULL`), `assert(this_ep)` fails: the action
does not return and the program halts, the last entry of the log being the lookup that
found nothing.  The driver object at the halt is the one the action started with, so no
flag is set or cleared by the action.  A dispatcher pass that reaches the statement of
`ACTION_GET_CONFIG_DESC` with the flag pending (the three statements before it having
returned, with an open device handle) halts there with that very halt, and so does the
loop of `class_driver_task`; the branch of `ACTION_GET_CONFIG_DESC` is the last one
taken, and `ACTION_CLOSE_DEV` and `ACTION_RECONNECT` are pending at the halt only if
they were pending when the pass started: they are not set. -/
theorem missing_endpoint_aborts (fuel : Nat) (h : usb_host) (w : world)
    (hc : h.get_active_config_descriptor.1 = ESP_OK)
    (hm : intf_lookups_found h h.get_active_config_descriptor.2 51 0 0 = false) :
    (w.driver_obj.dev_hdl ≠ NULL →
      ∃ out, action_get_config_desc h w =
          .error ⟨.assert_failed "this_ep" w.driver_obj, out⟩ ∧
        ∃ (intf_desc : usb_intf_desc_t) (i : Nat) (offset : Int),
          out.getLast? = some (.usb_parse_endpoint_descriptor_by_index intf_desc.addr i
            h.get_active_config_descriptor.2.wTotalLength offset) ∧
          h.usb_parse_endpoint_descriptor_by_index intf_desc i
            h.get_active_config_descriptor.2.wTotalLength offset = none) ∧
    (∀ w1 : world, run_statements ((action_statements fuel h).take 3) w = .ok w1 →
      pending w1.driver_obj.actions ACTION_GET_CONFIG_DESC →
      w1.driver_obj.dev_hdl ≠ NULL →
      ∃ out, class_driver_task_pass fuel h w =
          .error ⟨.assert_failed "this_ep" w1.driver_obj, out⟩ ∧
        (w.driver_obj.actions ≠ 0 → ∀ msgs rest,
          class_driver_task_loop fuel (⟨h, msgs⟩ :: rest) w =
            .error ⟨.assert_failed "this_ep" w1.driver_obj, out⟩) ∧
        executed out = executed w1.out ++ [ACTION_GET_CONFIG_DESC] ∧
        (pending w1.driver_obj.actions ACTION_CLOSE_DEV ↔
          pending w.driver_obj.actions ACTION_CLOSE_DEV) ∧
        (pending w1.driver_obj.actions ACTION_RECONNECT ↔
          pending w.driver_obj.actions ACTION_RECONNECT)) := by
  refine ⟨?_, ?_⟩
  · intro hh
    obtain ⟨out, ho⟩ := action_get_config_desc_missing h w hh hc hm
    obtain ⟨_, hl⟩ := action_get_config_desc_halt h w hh hc _ ho
    exact ⟨out, ho, hl⟩
  · intro w1 hr hp hh
    obtain ⟨out, ho⟩ := action_get_config_desc_missing h
      (w1.emit (.branch ACTION_GET_CONFIG_DESC)) hh hc hm
    have hpass := class_driver_task_pass_halts fuel h 3 w w1 ACTION_GET_CONFIG_DESC
      (action_get_config_desc h) _ rfl hr hp ho
    refine ⟨out, hpass, ?_, ?_, run_statements_three_keeps fuel h _ (Or.inl rfl) w w1 hr,
      run_statements_three_keeps fuel h _ (Or.inr (Or.inr rfl)) w w1 hr⟩
    · intro h0 msgs rest
      simp [class_driver_task_loop, h0, hpass, world.emit_driver_obj]
    · have hq := action_get_config_desc_quiet h (w1.emit (.branch ACTION_GET_CONFIG_DESC))
      rw [ho] at hq
      simpa [log_of, executed_emit, event.flag?] using hq

/-- Witness of C10 (amended): the library `short_host`, for the action alone and for the
pass started with `{ACTION_OPEN_DEV}`, which halts in `action_get_config_desc` with only
`ACTION_GET_CONFIG_DESC` pending. -/
theorem missing_endpoint_aborts_witness :
    (∃ out, action_get_config_desc short_host ⟨⟨1, 5, 7, ACTION_GET_CONFIG_DESC.val⟩, []⟩ =
      .error ⟨.assert_failed "this_ep" ⟨1, 5, 7, ACTION_GET_CONFIG_DESC.val⟩, out⟩) ∧
    (∃ out, class_driver_task_pass 1 short_host ⟨⟨1, 5, NULL, ACTION_OPEN_DEV.val⟩, []⟩ =
        .error ⟨.assert_failed "this_ep" ⟨1, 5, 7, ACTION_GET_CONFIG_DESC.val⟩, out⟩ ∧
      executed out = [ACTION_OPEN_DEV, ACTION_GET_DEV_INFO, ACTION_GET_DEV_DESC,
        ACTION_GET_CONFIG_DESC]) := by
  have hx := missing_endpoint_aborts 1 short_host
  refine ⟨?_, ?_⟩
  · obtain ⟨out, ho, _⟩ := (hx ⟨⟨1, 5, 7, ACTION_GET_CONFIG_DESC.val⟩, []⟩ rfl (by decide)).1
      (by decide)
    exact ⟨out, ho⟩
  · obtain ⟨out, ho, _, hq, _⟩ := (hx ⟨⟨1, 5, NULL, ACTION_OPEN_DEV.val⟩, []⟩ rfl
      (by decide)).2
      ⟨⟨1, 5, 7, ACTION_GET_CONFIG_DESC.val⟩,
        [.branch ACTION_OPEN_DEV, .ESP_LOGI TAG "Opening device at address %d" [.int 5],
          .usb_host_device_open 1 5, .branch ACTION_GET_DEV_INFO,
          .ESP_LOGI TAG "Getting device information" [], .usb_host_device_info 7,
          .ESP_LOGI TAG "\t%s speed" [.str (some "Full")],
          .ESP_LOGI TAG "\tbConfigurationValue %d" [.int 1],
          .branch ACTION_GET_DEV_DESC, .ESP_LOGI TAG "Getting device descriptor" [],
          .usb_host_get_device_descriptor 7, .usb_host_get_active_config_descriptor 7,
          .usb_print_device_descriptor 100,
          .printf "This is a Communication Device Class \n" []]⟩
      rfl (by decide) (by decide)
    exact ⟨out, ho, hq⟩

/-- C11. Transport failure is fatal.  For each of the six actions, when its library call
returns a status other than `ESP_OK` (the assertion before the call having passed), the
action halts the program on `ESP_ERROR_CHECK` with that status: the log ends with that
one call, made once, and the driver object at the halt is the one the action started
with, so the own flag is not cleared and the successor flag is not set.  A dispatcher
pass that halts does so with the very halt of one of its actions, so nothing runs after
the failed call, and the loop of `class_driver_task` ends with the same halt.
Conversely, whenever a pass reaches an action statement whose flag is pending (the
statements before it having returned) and the action halts, the pass and the loop halt
with that very halt, and the branch of that action is the last one taken: no later
action of the pass is executed. -/
theorem transport_failure_is_fatal (fuel : Nat) (h : usb_host) (w : world) :
    (w.driver_obj.dev_addr ≠ 0 → h.device_open.1 ≠ ESP_OK →
      action_open_dev h w = .error ⟨.esp_error_check h.device_open.1 w.driver_obj,
        w.out ++ [.ESP_LOGI TAG "Opening device at address %d" [.int w.driver_obj.dev_addr],
          .usb_host_device_open w.driver_obj.client_hdl w.driver_obj.dev_addr]⟩) ∧
    (w.driver_obj.dev_hdl ≠ NULL → h.device_info.1 ≠ ESP_OK →
      action_get_info h w = .error ⟨.esp_error_check h.device_info.1 w.driver_obj,
        w.out ++ [.ESP_LOGI TAG "Getting device information" [],
          .usb_host_device_info w.driver_obj.dev_hdl]⟩) ∧
    (w.driver_obj.dev_hdl ≠ NULL → h.get_device_descriptor.1 ≠ ESP_OK →
      action_get_dev_desc fuel h w =
        .error ⟨.esp_error_check h.get_device_descriptor.1 w.driver_obj,
          w.out ++ [.ESP_LOGI TAG "Getting device descriptor" [],
            .usb_host_get_device_descriptor w.driver_obj.dev_hdl]⟩) ∧
    (w.driver_obj.dev_hdl ≠ NULL → h.get_device_descriptor.1 = ESP_OK →
      h.get_active_config_descriptor_dev.1 ≠ ESP_OK →
      action_get_dev_desc fuel h w =
        .error ⟨.esp_error_check h.get_active_config_descriptor_dev.1 w.driver_obj,
          w.out ++ [.ESP_LOGI TAG "Getting device descriptor" [],
            .usb_host_get_device_descriptor w.driver_obj.dev_hdl,
            .usb_host_get_active_config_descriptor w.driver_obj.dev_hdl]⟩) ∧
    (w.driver_obj.dev_hdl ≠ NULL → h.get_active_config_descriptor.1 ≠ ESP_OK →
      action_get_config_desc h w =
        .error ⟨.esp_error_check h.get_active_config_descriptor.1 w.driver_obj,
          w.out ++ [.ESP_LOGI TAG "Getting config descriptor" [],
            .usb_host_get_active_config_descriptor w.driver_obj.dev_hdl]⟩) ∧
    (w.driver_obj.dev_hdl ≠ NULL → h.device_info_str.1 ≠ ESP_OK →
      action_get_str_desc h w = .error ⟨.esp_error_check h.device_info_str.1 w.driver_obj,
        w.out ++ [.usb_host_device_info w.driver_obj.dev_hdl]⟩) ∧
    (h.device_close ≠ ESP_OK →
      action_close_dev h w = .error ⟨.esp_error_check h.device_close w.driver_obj,
        w.out ++ [.usb_host_device_close w.driver_obj.client_hdl w.driver_obj.dev_hdl]⟩) ∧
    (∀ e, class_driver_task_pass fuel h w = .error e →
      (∃ w1, action_open_dev h w1 = .error e ∨ action_get_info h w1 = .error e ∨
        action_get_dev_desc fuel h w1 = .error e ∨ action_get_config_desc h w1 = .error e ∨
        action_get_str_desc h w1 = .error e ∨ action_close_dev h w1 = .error e) ∧
      (w.driver_obj.actions ≠ 0 → ∀ msgs rest,
        class_driver_task_loop fuel (⟨h, msgs⟩ :: rest) w = .error e)) ∧
    (∀ (k : Nat) (w1 : world) (flag : action_t) (action : world → Except halt world)
        (e : halt), (action_statements fuel h)[k]? = some (flag, action) →
      run_statements ((action_statements fuel h).take k) w = .ok w1 →
      pending w1.driver_obj.actions flag →
      action (w1.emit (.branch flag)) = .error e →
      class_driver_task_pass fuel h w = .error e ∧
        executed e.out = executed w1.out ++ [flag] ∧
        (w.driver_obj.actions ≠ 0 → ∀ msgs rest,
          class_driver_task_loop fuel (⟨h, msgs⟩ :: rest) w = .error e)) := by
  refine ⟨?_, ?_, ?_, ?_, ?_, ?_, ?_, ?_, ?_⟩
  · intro h1 h2
    simp [action_open_dev, assert, ESP_ERROR_CHECK, h1, h2, bind, Except.bind, world.emit,
      world.ESP_LOGI]
  · intro h1 h2
    simp [action_get_info, assert, ESP_ERROR_CHECK, h1, h2, bind, Except.bind, world.emit,
      world.ESP_LOGI]
  · intro h1 h2
    simp [action_get_dev_desc, assert, ESP_ERROR_CHECK, h1, h2, bind, Except.bind, world.emit,
      world.ESP_LOGI]
  · intro h1 h2 h3
    simp [action_get_dev_desc, assert, ESP_ERROR_CHECK, h1, h2, h3, bind, Except.bind,
      world.emit, world.ESP_LOGI]
  · intro h1 h2
    simp [action_get_config_desc, assert, ESP_ERROR_CHECK, h1, h2, bind, Except.bind,
      world.emit, world.ESP_LOGI]
  · intro h1 h2
    simp [action_get_str_desc, assert, ESP_ERROR_CHECK, h1, h2, bind, Except.bind, world.emit]
  · intro h2
    simp [action_close_dev, ESP_ERROR_CHECK, h2, bind, Except.bind, world.emit]
  · intro e he
    refine ⟨class_driver_task_pass_halt fuel h w e he, ?_⟩
    intro h0 msgs rest
    simp [class_driver_task_loop, h0, he]
  · intro k w1 flag action e hk hr hp he
    have hpass := class_driver_task_pass_halts fuel h k w w1 flag action e hk hr hp he
    refine ⟨hpass, ?_, ?_⟩
    · have hq := action_statements_quiet fuel h k flag action hk (w1.emit (.branch flag))
      rw [he] at hq
      simpa [log_of, executed_emit, event.flag?] using hq
    · intro h0 msgs rest
      simp [class_driver_task_loop, h0, hpass]

/-- Witness of C11: `usb_host_device_info` fails in `action_get_info`, both for the action
alone and in the pass started with `{ACTION_OPEN_DEV}`, which halts after the branches of
`ACTION_OPEN_DEV` and `ACTION_GET_DEV_INFO` with `ACTION_GET_DEV_INFO` still pending and
`ACTION_GET_DEV_DESC` not set. -/
theorem transport_failure_is_fatal_witness :
    action_get_info failing_info_host ⟨⟨1, 5, 7, ACTION_GET_DEV_INFO.val⟩, []⟩ =
        .error ⟨.esp_error_check (-1) ⟨1, 5, 7, ACTION_GET_DEV_INFO.val⟩,
          [.ESP_LOGI TAG "Getting device information" [], .usb_host_device_info 7]⟩ ∧
      class_driver_task_pass 1 failing_info_host ⟨⟨1, 5, NULL, ACTION_OPEN_DEV.val⟩, []⟩ =
        .error ⟨.esp_error_check (-1) ⟨1, 5, 7, ACTION_GET_DEV_INFO.val⟩,
          [.branch ACTION_OPEN_DEV, .ESP_LOGI TAG "Opening device at address %d" [.int 5],
            .usb_host_device_open 1 5, .branch ACTION_GET_DEV_INFO,
            .ESP_LOGI TAG "Getting device information" [], .usb_host_device_info 7]⟩ :=
  ⟨(transport_failure_is_fatal 1 failing_info_host
      ⟨⟨1, 5, 7, ACTION_GET_DEV_INFO.val⟩, []⟩).2.1 (by decide) (by decide),
    ((transport_failure_is_fatal 1 failing_info_host
      ⟨⟨1, 5, NULL, ACTION_OPEN_DEV.val⟩, []⟩).2.2.2.2.2.2.2.2 1
      ⟨⟨1, 5, 7, ACTION_GET_DEV_INFO.val⟩,
        [.branch ACTION_OPEN_DEV, .ESP_LOGI TAG "Opening device at address %d" [.int 5],
          .usb_host_device_open 1 5]⟩
      ACTION_GET_DEV_INFO (action_get_info failing_info_host) _ rfl rfl (by decide) rfl).1⟩

/-- C12. Endpoint classification.  `print_ep_desc` prints the report `ep_report`, and one
iteration of the endpoint loop of `action_get_config_desc` prints its own note followed
by that report; both notes are given by the one classification `classify_endpoint` of the
descriptor, so the two decisions agree for every descriptor.  When the low 2 bits of
`bmAttributes` equal the bulk code (2), the endpoint is reported as bulk IN (type string
`BULK`, direction `IN`) if the high bit (0x80) of `bEndpointAddress` is set and as bulk
OUT if it is clear; when they equal the interrupt code (3) it is reported as the
notification endpoint (type string `INT`) whatever the direction bit is. -/
theorem endpoint_classification (ep : usb_ep_desc_t) (w : world) :
    print_ep_desc ep w = ⟨w.driver_obj, w.out ++ ep_report ep⟩ ∧
    (∀ (h : usb_host) (intf : usb_intf_desc_t) (j wtl i : Nat) (t off off' : Int),
      h.usb_parse_endpoint_descriptor_by_index intf i wtl off = some (ep, off') →
      ep_loop h intf j wtl t 1 i off w =
        .ok (⟨w.driver_obj, w.out ++
          [.usb_parse_endpoint_descriptor_by_index intf.addr i wtl off,
           .printf "found Endpoint: %i on Interface %i " [.int i, .int j]] ++
          config_desc_note (classify_endpoint ep) ++
          [.printf
            "\t*** ******************** Endpoint descriptor  begin ******************* ***\n"
            []] ++
          ep_report ep ++
          [.printf
            "\t*** ******************** Endpoint descriptor  end ******************* ***\n"
            []]⟩, t)) ∧
    (ep.bmAttributes &&& 0x03 = 2 → ep.bEndpointAddress &&& 0x80 ≠ 0 →
      classify_endpoint ep = .bulk_in ∧ ep_type_str ep = some "BULK" ∧ ep_dir_str ep = "IN") ∧
    (ep.bmAttributes &&& 0x03 = 2 → ep.bEndpointAddress &&& 0x80 = 0 →
      classify_endpoint ep = .bulk_out ∧ ep_type_str ep = some "BULK" ∧
        ep_dir_str ep = "OUT") ∧
    (ep.bmAttributes &&& 0x03 = 3 →
      classify_endpoint ep = .notif ∧ ep_type_str ep = some "INT") := by
  refine ⟨print_ep_desc_out ep w, ?_, ?_, ?_, ?_⟩
  · intro h intf j wtl i t off off' hl
    exact ep_loop_one h intf j wtl t i off off' ep w hl
  · intro h2 hd
    simp [classify_endpoint, ep_type_str, ep_dir_str, h2, hd, USB_BM_ATTRIBUTES_XFERTYPE_MASK,
      USB_BM_ATTRIBUTES_XFER_CONTROL, USB_BM_ATTRIBUTES_XFER_ISOC, USB_BM_ATTRIBUTES_XFER_BULK]
  · intro h2 hd
    simp [classify_endpoint, ep_type_str, ep_dir_str, h2, hd, USB_BM_ATTRIBUTES_XFERTYPE_MASK,
      USB_BM_ATTRIBUTES_XFER_CONTROL, USB_BM_ATTRIBUTES_XFER_ISOC, USB_BM_ATTRIBUTES_XFER_BULK]
  · intro h3
    simp [classify_endpoint, ep_type_str, h3, USB_BM_ATTRIBUTES_XFERTYPE_MASK,
      USB_BM_ATTRIBUTES_XFER_CONTROL, USB_BM_ATTRIBUTES_XFER_ISOC, USB_BM_ATTRIBUTES_XFER_BULK,
      USB_BM_ATTRIBUTES_XFER_INT]

/-- C13. Endpoint type decoding is total: for every value of `bmAttributes`,
`print_ep_desc` selects one of the four type names `CTRL`, `ISOC`, `BULK`, `INT`, never
the `NULL` of the default branch; the name is determined by `bmAttributes & 0x03` alone
(0, 1, 2, 3 in this order), and it is the name printed in the attribute line. -/
theorem ep_type_str_total (ep : usb_ep_desc_t) (w : world) :
    (ep_type_str ep = some "CTRL" ∨ ep_type_str ep = some "ISOC" ∨
      ep_type_str ep = some "BULK" ∨ ep_type_str ep = some "INT") ∧
    ep_type_str ep ≠ none ∧
    (ep.bmAttributes &&& 0x03 = 0 → ep_type_str ep = some "CTRL") ∧
    (ep.bmAttributes &&& 0x03 = 1 → ep_type_str ep = some "ISOC") ∧
    (ep.bmAttributes &&& 0x03 = 2 → ep_type_str ep = some "BULK") ∧
    (ep.bmAttributes &&& 0x03 = 3 → ep_type_str ep = some "INT") ∧
    (∀ ep' : usb_ep_desc_t, ep.bmAttributes &&& 0x03 = ep'.bmAttributes &&& 0x03 →
      ep_type_str ep = ep_type_str ep') ∧
    event.printf "\t\tbmAttributes 0x%x\t%s\n" [.int ep.bmAttributes, .str (ep_type_str ep)] ∈
      (print_ep_desc ep w).out := by
  have hle : ep.bmAttributes &&& 0x03 ≤ 3 := Nat.and_le_right
  refine ⟨?_, ?_, ?_, ?_, ?_, ?_, ?_, ?_⟩
  · generalize hv : ep.bmAttributes &&& 0x03 = v at hle
    interval_cases v <;>
      simp [ep_type_str, hv, USB_BM_ATTRIBUTES_XFERTYPE_MASK, USB_BM_ATTRIBUTES_XFER_CONTROL,
        USB_BM_ATTRIBUTES_XFER_ISOC, USB_BM_ATTRIBUTES_XFER_BULK, USB_BM_ATTRIBUTES_XFER_INT]
  · generalize hv : ep.bmAttributes &&& 0x03 = v at hle
    interval_cases v <;>
      simp [ep_type_str, hv, USB_BM_ATTRIBUTES_XFERTYPE_MASK, USB_BM_ATTRIBUTES_XFER_CONTROL,
        USB_BM_ATTRIBUTES_XFER_ISOC, USB_BM_ATTRIBUTES_XFER_BULK, USB_BM_ATTRIBUTES_XFER_INT]
  · intro hv
    simp [ep_type_str, hv, USB_BM_ATTRIBUTES_XFERTYPE_MASK, USB_BM_ATTRIBUTES_XFER_CONTROL]
  · intro hv
    simp [ep_type_str, hv, USB_BM_ATTRIBUTES_XFERTYPE_MASK, USB_BM_ATTRIBUTES_XFER_CONTROL,
      USB_BM_ATTRIBUTES_XFER_ISOC]
  · intro hv
    simp [ep_type_str, hv, USB_BM_ATTRIBUTES_XFERTYPE_MASK, USB_BM_ATTRIBUTES_XFER_CONTROL,
      USB_BM_ATTRIBUTES_XFER_ISOC, USB_BM_ATTRIBUTES_XFER_BULK]
  · intro hv
    simp [ep_type_str, hv, USB_BM_ATTRIBUTES_XFERTYPE_MASK, USB_BM_ATTRIBUTES_XFER_CONTROL,
      USB_BM_ATTRIBUTES_XFER_ISOC, USB_BM_ATTRIBUTES_XFER_BULK, USB_BM_ATTRIBUTES_XFER_INT]
  · intro ep' hv
    simp only [ep_type_str, USB_BM_ATTRIBUTES_XFERTYPE_MASK, hv]
  · unfold print_ep_desc
    simp only [world.printf, world.emit]
    split <;> [skip; split <;> [split; skip]] <;> simp

/-- C14. The device classification of `action_get_dev_desc` does not branch the action
sequence.  The device is taken as composite with interface association descriptors
exactly when its class / subclass / protocol triple is (0xEF, 0x02, 0x01) or
(0x00, 0x00, 0x00), and otherwise as communications class when `bDeviceClass` is 0x02.
For any two libraries (device descriptors and configuration buffers) whose calls succeed
and whose descriptor search ends, `action_get_dev_desc` on the same session returns the
same driver object: `ACTION_GET_DEV_DESC` cleared, `ACTION_GET_CONFIG_DESC` set, every
other flag, `dev_addr` and `dev_hdl` unchanged.  Whenever the action returns at all, it
returns that driver object. -/
theorem dev_desc_classification_no_branch (fuel1 fuel2 : Nat) (h1 h2 : usb_host) (w : world)
    (hh : w.driver_obj.dev_hdl ≠ NULL)
    (hd1 : h1.get_device_descriptor.1 = ESP_OK)
    (hc1 : h1.get_active_config_descriptor_dev.1 = ESP_OK)
    (hs1 : is_composite_iad h1.get_device_descriptor.2 = true →
      iad_search_ends h1 h1.get_active_config_descriptor_dev.2.wTotalLength fuel1
        h1.get_active_config_descriptor_dev.2.addr 0 = true)
    (hd2 : h2.get_device_descriptor.1 = ESP_OK)
    (hc2 : h2.get_active_config_descriptor_dev.1 = ESP_OK)
    (hs2 : is_composite_iad h2.get_device_descriptor.2 = true →
      iad_search_ends h2 h2.get_active_config_descriptor_dev.2.wTotalLength fuel2
        h2.get_active_config_descriptor_dev.2.addr 0 = true) :
    (∃ o1 o2,
      action_get_dev_desc fuel1 h1 w =
        .ok ⟨⟨w.driver_obj.client_hdl, w.driver_obj.dev_addr, w.driver_obj.dev_hdl,
          (w.driver_obj.actions &&& bnot32 ACTION_GET_DEV_DESC.val) |||
            ACTION_GET_CONFIG_DESC.val⟩, o1⟩ ∧
      action_get_dev_desc fuel2 h2 w =
        .ok ⟨⟨w.driver_obj.client_hdl, w.driver_obj.dev_addr, w.driver_obj.dev_hdl,
          (w.driver_obj.actions &&& bnot32 ACTION_GET_DEV_DESC.val) |||
            ACTION_GET_CONFIG_DESC.val⟩, o2⟩) ∧
    (∀ flag, pending ((w.driver_obj.actions &&& bnot32 ACTION_GET_DEV_DESC.val) |||
        ACTION_GET_CONFIG_DESC.val) flag ↔
      (flag = ACTION_GET_CONFIG_DESC ∨
        (flag ≠ ACTION_GET_DEV_DESC ∧ pending w.driver_obj.actions flag))) ∧
    (∀ (fuel : Nat) (h : usb_host) (w' : world), action_get_dev_desc fuel h w = .ok w' →
      w'.driver_obj = ⟨w.driver_obj.client_hdl, w.driver_obj.dev_addr, w.driver_obj.dev_hdl,
        (w.driver_obj.actions &&& bnot32 ACTION_GET_DEV_DESC.val) |||
          ACTION_GET_CONFIG_DESC.val⟩) ∧
    (∀ dev_desc : usb_device_desc_t, is_composite_iad dev_desc = true ↔
      ((dev_desc.bDeviceClass = 0xEF ∧ dev_desc.bDeviceSubClass = 0x02 ∧
          dev_desc.bDeviceProtocol = 0x01) ∨
        (dev_desc.bDeviceClass = 0x00 ∧ dev_desc.bDeviceSubClass = 0x00 ∧
          dev_desc.bDeviceProtocol = 0x00))) := by
  obtain ⟨o1, e1⟩ := action_get_dev_desc_ok fuel1 h1 w hh hd1 hc1 hs1
  obtain ⟨o2, e2⟩ := action_get_dev_desc_ok fuel2 h2 w hh hd2 hc2 hs2
  refine ⟨⟨o1, o2, e1, e2⟩, ?_, ?_, ?_⟩
  · intro flag
    rw [pending_or, pending_clear, pending_val]
    tauto
  · intro fuel h w' hr
    exact (action_get_dev_desc_result fuel h w w' hr).2
  · intro dev_desc
    simp [is_composite_iad, USB_CLASS_MISC, USB_SUBCLASS_COMMON, USB_DEVICE_PROTOCOL_IAD,
      USB_CLASS_PER_INTERFACE, USB_SUBCLASS_NULL, USB_PROTOCOL_NULL, and_assoc]

/-- Witness of C14: the communications-class device of `demo_host` and the same library
with a composite device (null triple, no interface association descriptor found). -/
theorem dev_desc_classification_no_branch_witness :
    ∃ o1 o2,
      action_get_dev_desc 1 demo_host ⟨⟨1, 5, 7, ACTION_GET_DEV_DESC.val⟩, []⟩ =
        .ok ⟨⟨1, 5, 7, (ACTION_GET_DEV_DESC.val &&& bnot32 ACTION_GET_DEV_DESC.val) |||
          ACTION_GET_CONFIG_DESC.val⟩, o1⟩ ∧
      action_get_dev_desc 1 composite_host ⟨⟨1, 5, 7, ACTION_GET_DEV_DESC.val⟩, []⟩ =
        .ok ⟨⟨1, 5, 7, (ACTION_GET_DEV_DESC.val &&& bnot32 ACTION_GET_DEV_DESC.val) |||
          ACTION_GET_CONFIG_DESC.val⟩, o2⟩ :=
  (dev_desc_classification_no_branch 1 1 demo_host composite_host
    ⟨⟨1, 5, 7, ACTION_GET_DEV_DESC.val⟩, []⟩ (by decide) rfl rfl (fun _ => rfl) rfl rfl
    (fun _ => rfl)).1

/-- C15, as stated, fails: with the library `no_ep_host` the only interface declares two
endpoints and the first endpoint lookup finds nothing, so the walk makes one endpoint
lookup for that interface, not `bNumEndpoints = 2`, before `assert(this_ep)` halts the
program. -/
theorem walk_stops_at_missing_endpoint :
    no_ep_host.usb_parse_interface_descriptor ⟨200, 25⟩ 0 0 0 =
        some (⟨209, 9, 4, 0, 0, 2, 0x0A, 0, 0, 0⟩, 9) ∧
      lookups (log_of world.out
          (action_get_config_desc no_ep_host ⟨⟨1, 5, 7, ACTION_GET_CONFIG_DESC.val⟩, []⟩)) =
        [.usb_parse_interface_descriptor 200 0 0 0,
          .usb_parse_endpoint_descriptor_by_index 209 0 25 9] ∧
      ¬ (ep_indexes (lookups (log_of world.out
          (action_get_config_desc no_ep_host
            ⟨⟨1, 5, 7, ACTION_GET_CONFIG_DESC.val⟩, []⟩)))).length = 2 :=
  ⟨rfl, by decide, by decide⟩

/-- C15, amended.  Interface walk bound: for every configuration buffer, the lookups
made by `action_get_config_desc` (device handle open, configuration descriptor obtained)
are exactly those of `walk_made`: interfaces looked up by index 0, 1, 2, ... in
increasing order, the walk stopping at the first index without an interface record and
after index 50 at the latest; for each interface found, endpoint lookups with the indexes
0, 1, ... in increasing order, each from the saved offset of the interface, and the
first endpoint lookup that finds no record ends the walk there: `assert(this_ep)` halts
the program, the failed lookup being the last entry of the log.  These lookups are a
beginning of `expected_walk` (exactly `bNumEndpoints` endpoint lookups, indexes
`0 .. bNumEndpoints - 1`, for every interface found), and all of it exactly when every
endpoint lookup finds a record, in which case the action returns. -/
theorem interface_walk (h : usb_host) (w : world) :
    (∃ made, lookups (log_of world.out (action_get_config_desc h w)) = lookups w.out ++ made ∧
      made <+: expected_walk h h.get_active_config_descriptor.2 51 0 0 ∧
      (∀ w', action_get_config_desc h w = .ok w' →
        made = expected_walk h h.get_active_config_descriptor.2 51 0 0)) ∧
    (∃ k, k ≤ 51 ∧
      intf_indexes (expected_walk h h.get_active_config_descriptor.2 51 0 0) = List.range k) ∧
    (∀ (intf_desc : usb_intf_desc_t) (wTotalLength : Nat) (temp_offset : Int),
      ep_indexes (expected_ep_lookups intf_desc wTotalLength temp_offset) =
        List.range intf_desc.bNumEndpoints) ∧
    (w.driver_obj.dev_hdl ≠ NULL → h.get_active_config_descriptor.1 = ESP_OK →
      intf_lookups_found h h.get_active_config_descriptor.2 51 0 0 = true →
      ∃ w', action_get_config_desc h w = .ok w' ∧
        lookups w'.out =
          lookups w.out ++ expected_walk h h.get_active_config_descriptor.2 51 0 0) ∧
    (w.driver_obj.dev_hdl ≠ NULL → h.get_active_config_descriptor.1 = ESP_OK →
      lookups (log_of world.out (action_get_config_desc h w)) =
        lookups w.out ++ (walk_made h h.get_active_config_descriptor.2 51 0 0).1) ∧
    ((walk_made h h.get_active_config_descriptor.2 51 0 0).1 <+:
        expected_walk h h.get_active_config_descriptor.2 51 0 0 ∧
      ((walk_made h h.get_active_config_descriptor.2 51 0 0).2 = true →
        (walk_made h h.get_active_config_descriptor.2 51 0 0).1 =
          expected_walk h h.get_active_config_descriptor.2 51 0 0)) ∧
    ((walk_made h h.get_active_config_descriptor.2 51 0 0).2 =
      intf_lookups_found h h.get_active_config_descriptor.2 51 0 0) ∧
    ((walk_made h h.get_active_config_descriptor.2 51 0 0).2 = false →
      (∃ (intf_desc : usb_intf_desc_t) (i : Nat) (offset : Int),
        (walk_made h h.get_active_config_descriptor.2 51 0 0).1.getLast? =
          some (.usb_parse_endpoint_descriptor_by_index intf_desc.addr i
            h.get_active_config_descriptor.2.wTotalLength offset) ∧
        h.usb_parse_endpoint_descriptor_by_index intf_desc i
          h.get_active_config_descriptor.2.wTotalLength offset = none) ∧
      (w.driver_obj.dev_hdl ≠ NULL → h.get_active_config_descriptor.1 = ESP_OK →
        ∃ out, action_get_config_desc h w =
            .error ⟨.assert_failed "this_ep" w.driver_obj, out⟩ ∧
          ∃ (intf_desc : usb_intf_desc_t) (i : Nat) (offset : Int),
            out.getLast? = some (.usb_parse_endpoint_descriptor_by_index intf_desc.addr i
              h.get_active_config_descriptor.2.wTotalLength offset) ∧
            h.usb_parse_endpoint_descriptor_by_index intf_desc i
              h.get_active_config_descriptor.2.wTotalLength offset = none)) := by
  obtain ⟨made, a1, a2, a3⟩ := action_get_config_desc_lookups h w
  refine ⟨⟨made, a1, a2, a3⟩, ?_, expected_ep_lookups_ep_indexes, ?_,
    action_get_config_desc_lookups_made h w,
    walk_made_beginning h h.get_active_config_descriptor.2 51 0 0,
    walk_made_found h h.get_active_config_descriptor.2 51 0 0, ?_⟩
  · obtain ⟨k, hk, he⟩ := expected_walk_intf_indexes h h.get_active_config_descriptor.2 51 0 0
    exact ⟨k, hk, by rw [he, List.range_eq_range']⟩
  · intro h1 h2 h3
    obtain ⟨o, ho⟩ := action_get_config_desc_ok h w h1 h2 h3
    refine ⟨_, ho, ?_⟩
    rw [ho] at a1
    rw [← a3 _ ho]
    exact a1
  · intro hf
    refine ⟨walk_made_last h h.get_active_config_descriptor.2 51 0 0 hf, ?_⟩
    intro h1 h2
    rw [walk_made_found] at hf
    obtain ⟨out, ho⟩ := action_get_config_desc_missing h w h1 h2 hf
    obtain ⟨_, hl⟩ := action_get_config_desc_halt h w h1 h2 _ ho
    exact ⟨out, ho, hl⟩

/-- Witness of C15 (amended): the walk with the library `demo_host`, one interface with
one endpoint, and the walk with the library `no_ep_host`, which ends at the first
endpoint lookup. -/
theorem interface_walk_witness :
    (∃ w', action_get_config_desc demo_host ⟨⟨1, 5, 7, ACTION_GET_CONFIG_DESC.val⟩, []⟩ =
        .ok w' ∧
      lookups w'.out =
        [.usb_parse_interface_descriptor 200 0 0 0,
          .usb_parse_endpoint_descriptor_by_index 209 0 25 9,
          .usb_parse_interface_descriptor 200 1 0 9]) ∧
    lookups (log_of world.out
        (action_get_config_desc no_ep_host ⟨⟨1, 5, 7, ACTION_GET_CONFIG_DESC.val⟩, []⟩)) =
      [.usb_parse_interface_descriptor 200 0 0 0,
        .usb_parse_endpoint_descriptor_by_index 209 0 25 9] := by
  refine ⟨?_, ?_⟩
  · obtain ⟨w', e, hl⟩ := (interface_walk demo_host
      ⟨⟨1, 5, 7, ACTION_GET_CONFIG_DESC.val⟩, []⟩).2.2.2.1 (by decide) rfl (by decide)
    refine ⟨w', e, ?_⟩
    rw [hl]
    decide
  · rw [(interface_walk no_ep_host
      ⟨⟨1, 5, 7, ACTION_GET_CONFIG_DESC.val⟩, []⟩).2.2.2.2.1 (by decide) rfl]
    decide

/-- C16. Idempotence of flag setting (`actions |= FLAG`): setting a flag that is already
pending leaves `actions` unchanged; setting a flag twice gives the same as setting it
once; the order in which two flags are set does not matter; a flag that was set is
pending.  A stop request made twice leaves the driver object as after the first one. -/
theorem flag_setting_idempotent (actions : Nat) (f g : action_t) :
    (pending actions f → actions ||| f.val = actions) ∧
    (actions ||| f.val) ||| f.val = actions ||| f.val ∧
    (actions ||| f.val) ||| g.val = (actions ||| g.val) ||| f.val ∧
    pending (actions ||| f.val) f ∧
    (∀ (h : usb_host) (w : world), h.client_unblock = ESP_OK →
      ∃ w1 w2, class_driver_client_deregister h w = .ok w1 ∧
        class_driver_client_deregister h w1 = .ok w2 ∧ w2.driver_obj = w1.driver_obj) := by
  refine ⟨?_, ?_, ?_, ?_, ?_⟩
  · intro hp
    have h := and_val_of_pending actions f hp
    rw [← h]
    exact or_and_absorb actions f.val
  · rw [Nat.or_assoc, Nat.or_self]
  · rw [Nat.or_assoc, Nat.or_assoc, Nat.or_comm f.val g.val]
  · rw [pending_or, pending_val]
    exact Or.inr rfl
  · intro h w hu
    refine ⟨_, _, class_driver_client_deregister_ok h w hu,
      class_driver_client_deregister_ok h _ hu, ?_⟩
    by_cases hh : w.driver_obj.dev_hdl = NULL
    · simp [hh, Nat.or_assoc]
    · simp [hh]

/-- Witness of C16: `ACTION_EXIT` set while `{ACTION_OPEN_DEV, ACTION_EXIT}` is
pending. -/
theorem flag_setting_idempotent_witness :
    (ACTION_OPEN_DEV.val ||| ACTION_EXIT.val) ||| ACTION_EXIT.val =
      ACTION_OPEN_DEV.val ||| ACTION_EXIT.val :=
  (flag_setting_idempotent (ACTION_OPEN_DEV.val ||| ACTION_EXIT.val) ACTION_EXIT
    ACTION_OPEN_DEV).1 (by decide)

/-- C17, as stated, fails: every transport call of the library `short_host` succeeds
(each status is `ESP_OK`, the open call gives the handle 7), and yet the pass that
enumerates the device announced at address 5 halts on an assertion of an action,
`assert(this_ep)` of `action_get_config_desc`, because the only interface declares two
endpoints and the lookup of endpoint 1 finds no record. -/
theorem endpoint_assertion_fails :
    short_host.calls_succeed ∧
      (5 : Nat) ≠ 0 ∧
      ∃ out, task_run [.new_dev 5, .pass 1 short_host] (initial_session 1 []) =
        .error ⟨.assert_failed "this_ep" ⟨1, 5, 7, ACTION_GET_CONFIG_DESC.val⟩, out⟩ :=
  ⟨short_host_calls_succeed, by decide, _, rfl⟩

/-- C17, amended.  Assertion validity: for every sequence of steps made of `NEW_DEV`
messages with an address other than 0, `DEV_GONE` messages, stop requests and dispatcher
passes whose transport calls succeed (the open call giving a handle other than `NULL`),
run from the initial session, no entry assertion of an action fails.  If the run halts,
it halts on `assert(this_ep)` of `action_get_config_desc` (or the descriptor search of
`action_get_dev_desc` is still running at the step bound), never on
`assert(driver_obj->dev_addr != 0)` or `assert(driver_obj->dev_hdl != NULL)`.  In every
session `w` the run reaches, `dev_addr != 0` if `ACTION_OPEN_DEV` is pending and
`dev_hdl != NULL` if a query flag is pending; a further pass halts, if at all, in the
same way, and wherever that pass finds the flag of an action pending (the statements
before it having returned), `dev_addr != 0` holds for `action_open_dev` and
`dev_hdl != NULL` for `action_get_info`, `action_get_dev_desc`, `action_get_config_desc`
and `action_get_str_desc`.  When moreover every endpoint lookup finds a record and the
descriptor search ends, the run returns and so does a further pass: no assertion fails
at all. -/
theorem no_entry_assertion_fails (client_hdl : Nat) (out : List event)
    (inputs : List task_input) (hi : ∀ i ∈ inputs, i.transport_ok) :
    (∀ e, task_run inputs (initial_session client_hdl out) = .error e →
      (∃ d, e.why = .assert_failed "this_ep" d) ∨ e.why = .out_of_fuel) ∧
    (∀ w, task_run inputs (initial_session client_hdl out) = .ok w →
      (pending w.driver_obj.actions ACTION_OPEN_DEV → w.driver_obj.dev_addr ≠ 0) ∧
      ((pending w.driver_obj.actions ACTION_GET_DEV_INFO ∨
          pending w.driver_obj.actions ACTION_GET_DEV_DESC ∨
          pending w.driver_obj.actions ACTION_GET_CONFIG_DESC ∨
          pending w.driver_obj.actions ACTION_GET_STR_DESC) →
        w.driver_obj.dev_hdl ≠ NULL) ∧
      ∀ (fuel : Nat) (h : usb_host), h.calls_succeed →
        (∀ e, class_driver_task_pass fuel h w = .error e →
          (∃ d, e.why = .assert_failed "this_ep" d) ∨ e.why = .out_of_fuel) ∧
        (∀ (k : Nat) (w1 : world) (flag : action_t) (action : world → Except halt world),
          (action_statements fuel h)[k]? = some (flag, action) →
          run_statements ((action_statements fuel h).take k) w = .ok w1 →
          pending w1.driver_obj.actions flag →
          (flag = ACTION_OPEN_DEV → w1.driver_obj.dev_addr ≠ 0) ∧
            (flag = ACTION_GET_DEV_INFO ∨ flag = ACTION_GET_DEV_DESC ∨
                flag = ACTION_GET_CONFIG_DESC ∨ flag = ACTION_GET_STR_DESC →
              w1.driver_obj.dev_hdl ≠ NULL))) ∧
    ((∀ i ∈ inputs, i.admissible) →
      ∃ w, task_run inputs (initial_session client_hdl out) = .ok w ∧
        ∀ (fuel : Nat) (h : usb_host), h.succeeds fuel →
          ∃ w' brk, class_driver_task_pass fuel h w = .ok (w', brk)) := by
  have h0 : session_ok (initial_session client_hdl out).driver_obj :=
    session_ok_drained _ (pending_zero _) (pending_zero _) (pending_zero _) (pending_zero _)
      (pending_zero _)
  obtain ⟨a1, a2⟩ := task_run_transport inputs (initial_session client_hdl out) hi h0
  refine ⟨a2, ?_, ?_⟩
  · intro w hw
    have hs := a1 w hw
    refine ⟨hs.1, hs.2, ?_⟩
    intro fuel h hc
    exact ⟨class_driver_task_pass_halt_cause fuel h w hc (session_ok_assertions _ hs),
      class_driver_task_pass_entry fuel h w hc (session_ok_assertions _ hs)⟩
  · intro hadm
    obtain ⟨w, e, hw⟩ := task_run_ok inputs (initial_session client_hdl out) hadm h0
    refine ⟨w, e, ?_⟩
    intro fuel h hs
    obtain ⟨w', e', _⟩ := class_driver_task_pass_ok fuel h w hs (session_ok_assertions _ hw)
    exact ⟨w', _, e'⟩

/-- Witness of C17 (amended): a device is plugged in, enumerated and unplugged, a stop is
requested, and the last pass runs. -/
theorem no_entry_assertion_fails_witness :
    ∃ w, task_run [.new_dev 5, .pass 1 demo_host, .dev_gone 7, .stop demo_host,
        .pass 1 demo_host] (initial_session 1 []) = .ok w ∧
      (pending w.driver_obj.actions ACTION_OPEN_DEV → w.driver_obj.dev_addr ≠ 0) := by
  have hadm : ∀ i ∈ [task_input.new_dev 5, .pass 1 demo_host, .dev_gone 7, .stop demo_host,
      .pass 1 demo_host], i.admissible := by
    intro i hi
    simp only [List.mem_cons, List.mem_singleton, List.not_mem_nil, or_false] at hi
    rcases hi with rfl | rfl | rfl | rfl | rfl
    · exact Nat.succ_ne_zero 4
    · exact demo_host_succeeds
    · exact True.intro
    · exact rfl
    · exact demo_host_succeeds
  have hx := no_entry_assertion_fails 1 []
    [.new_dev 5, .pass 1 demo_host, .dev_gone 7, .stop demo_host, .pass 1 demo_host]
    (fun i hi => (hadm i hi).transport_ok)
  obtain ⟨w, e, _⟩ := hx.2.2 hadm
  exact ⟨w, e, (hx.2.1 w e).1⟩

/-- C18. One pass drains the pending set.  In a session whose pending set is made only of
the eight defined flags (`actions < 2^8`), where the action assertions hold and the
library calls succeed, a dispatcher pass returns; it leaves the loop exactly when
`ACTION_EXIT` was pending at its start, and otherwise ends with nothing pending.  No
action sets `ACTION_EXIT`: an action that returns leaves `ACTION_EXIT` as it was.  For
every session and every library, the pass equals `run_pending_actions`, which executes
the first pending flag of the priority order again and again until nothing is pending or
`ACTION_EXIT` is reached (eight steps always suffice). -/
theorem one_pass_drains (fuel : Nat) (h : usb_host) (w : world) (hs : h.succeeds fuel)
    (ha : assertions_hold w.driver_obj) (hb : w.driver_obj.actions < 2 ^ 8) :
    (∃ w' brk, class_driver_task_pass fuel h w = .ok (w', brk) ∧
      (brk = true ↔ pending w.driver_obj.actions ACTION_EXIT) ∧
      (brk = false → w'.driver_obj.actions = 0) ∧
      (pending w'.driver_obj.actions ACTION_EXIT ↔
        pending w.driver_obj.actions ACTION_EXIT)) ∧
    (∀ w1 w2 : world,
      (action_open_dev h w1 = .ok w2 ∨ action_get_info h w1 = .ok w2 ∨
        action_get_dev_desc fuel h w1 = .ok w2 ∨ action_get_config_desc h w1 = .ok w2 ∨
        action_get_str_desc h w1 = .ok w2 ∨ action_close_dev h w1 = .ok w2) →
      (pending w2.driver_obj.actions ACTION_EXIT ↔
        pending w1.driver_obj.actions ACTION_EXIT)) ∧
    (∀ (fuel' : Nat) (h' : usb_host) (w1 : world) (steps : Nat), 8 ≤ steps →
      run_pending_actions fuel' h' steps w1 = class_driver_task_pass fuel' h' w1) := by
  refine ⟨?_, ?_, fun fuel' h' w1 steps hn => class_driver_task_pass_refines fuel' h' w1 steps hn⟩
  · obtain ⟨w', e, hd, _⟩ := class_driver_task_pass_ok fuel h w hs ha
    by_cases he : pending w.driver_obj.actions ACTION_EXIT
    · rw [pass_effect_exit h _ he] at e hd
      refine ⟨w', true, e, by simp [he], by simp, ?_⟩
      rw [hd]
      simp only [actions_effect_exit]
    · obtain ⟨z, b⟩ := pass_effect_no_exit h w.driver_obj hb he
      rw [b] at e
      refine ⟨w', false, e, by simp [he], fun _ => by rw [hd]; exact z, ?_⟩
      rw [hd, z]
      exact ⟨fun hp => absurd hp (pending_zero _), fun hp => absurd hp he⟩
  · intro w1 w2 hr
    rcases hr with hr | hr | hr | hr | hr | hr
    · rw [(action_open_dev_result h w1 w2 hr).2]
      exact effect_keeps_exit _ _ _ (by decide) (by decide)
    · rw [(action_get_info_result h w1 w2 hr).2]
      exact effect_keeps_exit _ _ _ (by decide) (by decide)
    · rw [(action_get_dev_desc_result fuel h w1 w2 hr).2]
      exact effect_keeps_exit _ _ _ (by decide) (by decide)
    · rw [(action_get_config_desc_result h w1 w2 hr).2]
      exact effect_keeps_exit _ _ _ (by decide) (by decide)
    · rw [(action_get_str_desc_result h w1 w2 hr).2]
      simp only [str_effect, pending_clear]
      exact ⟨fun hp => hp.2, fun hp => ⟨by decide, hp⟩⟩
    · rw [action_close_dev_result h w1 w2 hr]
      exact effect_keeps_exit _ _ _ (by decide) (by decide)

/-- Witness of C18: the pass for `{ACTION_OPEN_DEV}` with a device at address 5 and the
library `demo_host`. -/
theorem one_pass_drains_witness :
    demo_host.succeeds 1 ∧
      ∃ w', class_driver_task_pass 1 demo_host ⟨⟨1, 5, NULL, ACTION_OPEN_DEV.val⟩, []⟩ =
          .ok (w', false) ∧ w'.driver_obj.actions = 0 ∧
        run_pending_actions 1 demo_host 8 ⟨⟨1, 5, NULL, ACTION_OPEN_DEV.val⟩, []⟩ =
          .ok (w', false) := by
  have hx := one_pass_drains 1 demo_host ⟨⟨1, 5, NULL, ACTION_OPEN_DEV.val⟩, []⟩
    demo_host_succeeds ⟨fun _ => by decide, fun hn => absurd (by decide) hn⟩ (by decide)
  obtain ⟨⟨w', brk, e, hb, hz, _⟩, _, hr⟩ := hx
  have hbf : brk = false := by
    cases brk
    · rfl
    · exact absurd (hb.1 rfl) (by decide)
  subst hbf
  exact ⟨demo_host_succeeds, w', e, hz rfl, by rw [hr 1 demo_host _ 8 (le_refl 8), e]⟩

/-- C19 at its failing input.  From the initial session a device is announced at address
5 and a stop is requested before the next pass: `dev_hdl` is still `NULL`, so the stop
request does not set `ACTION_CLOSE_DEV` and the pending set is
`{ACTION_OPEN_DEV, ACTION_EXIT}`.  The pass, its library calls succeeding, opens and
queries the device and leaves the loop on `ACTION_EXIT`; the task deregisters the client
with `dev_hdl = 7` and `dev_addr = 5`, the device open. -/
theorem device_left_open_at_exit :
    (∀ i ∈ [task_input.new_dev 5, task_input.stop demo_host], i.admissible) ∧
      demo_host.succeeds 1 ∧
      ∃ w w' w'',
        task_run [.new_dev 5, .stop demo_host] (initial_session 1 []) = .ok w ∧
        w.driver_obj = ⟨1, 5, NULL, ACTION_OPEN_DEV.val ||| ACTION_EXIT.val⟩ ∧
        class_driver_task_pass 1 demo_host w = .ok (w', true) ∧
        executed w'.out =
          [ACTION_OPEN_DEV, ACTION_GET_DEV_INFO, ACTION_GET_DEV_DESC,
            ACTION_GET_CONFIG_DESC, ACTION_GET_STR_DESC, ACTION_EXIT] ∧
        class_driver_task_exit demo_host w' = .ok w'' ∧
        event.usb_host_client_deregister 1 ∈ w''.out ∧
        w''.driver_obj.dev_hdl = 7 ∧ w''.driver_obj.dev_addr = 5 ∧
        w''.driver_obj.dev_hdl ≠ NULL := by
  refine ⟨?_, demo_host_succeeds, _, _, _, rfl, rfl, rfl, by decide, rfl, by decide, rfl, rfl,
    by decide⟩
  intro i hi
  simp only [List.mem_cons, List.mem_singleton, List.not_mem_nil, or_false] at hi
  rcases hi with rfl | rfl
  · exact Nat.succ_ne_zero 4
  · exact rfl

/-- C20. A `NEW_DEV` message handled while the previous device is still tracked is
dropped for good.  For every session with an open device (`dev_hdl != NULL`,
`dev_addr != 0`): `DEV_GONE` makes the pending set `{ACTION_CLOSE_DEV}`; `NEW_DEV` with
an address `a != 0` handled next leaves the session unchanged; the following dispatcher
pass, its library calls succeeding, ends idle with `dev_addr = 0`, `dev_hdl = NULL` and
nothing pending, so `ACTION_OPEN_DEV` is not pending and `a` is not recorded. -/
theorem new_device_while_tracked_is_dropped (fuel : Nat) (h : usb_host) (w : world)
    (gone a : Nat) (hs : h.succeeds fuel) (hh : w.driver_obj.dev_hdl ≠ NULL)
    (hd : w.driver_obj.dev_addr ≠ 0) (ha : a ≠ 0) :
    ∃ w1 w2,
      client_event_cb (.USB_HOST_CLIENT_EVENT_DEV_GONE gone) w = .ok w1 ∧
      w1.driver_obj = ⟨w.driver_obj.client_hdl, w.driver_obj.dev_addr, w.driver_obj.dev_hdl,
        ACTION_CLOSE_DEV.val⟩ ∧
      client_event_cb (.USB_HOST_CLIENT_EVENT_NEW_DEV a) w1 = .ok w1 ∧
      class_driver_task_pass fuel h w1 = .ok (w2, false) ∧
      w2.driver_obj = ⟨w.driver_obj.client_hdl, 0, NULL, 0⟩ ∧
      ¬ pending w2.driver_obj.actions ACTION_OPEN_DEV ∧
      w2.driver_obj.dev_addr ≠ a := by
  have hc : pending ACTION_CLOSE_DEV.val ACTION_CLOSE_DEV := by decide
  have he : ¬ pending ACTION_CLOSE_DEV.val ACTION_EXIT := by decide
  have ho : ¬ pending ACTION_CLOSE_DEV.val ACTION_OPEN_DEV := by decide
  obtain ⟨w2, e, hd2, _⟩ := class_driver_task_pass_ok fuel h
    ⟨⟨w.driver_obj.client_hdl, w.driver_obj.dev_addr, w.driver_obj.dev_hdl,
      ACTION_CLOSE_DEV.val⟩, w.out⟩ hs ⟨fun hp => absurd hp ho, fun _ _ => hh⟩
  rw [pass_effect_close h _ hc he] at e hd2
  refine ⟨_, w2, ?_, rfl, ?_, e, hd2, ?_, ?_⟩
  · simp [client_event_cb, hh]
  · simp [client_event_cb, hd]
  · rw [hd2]; exact pending_zero _
  · rw [hd2]; exact fun h0 => ha h0.symm

/-- Witness of C20: an enumerated device at address 5 is unplugged and a device at
address 6 is announced before the next pass. -/
theorem new_device_while_tracked_is_dropped_witness :
    demo_host.succeeds 1 ∧
      ∃ w2, class_driver_task_pass 1 demo_host ⟨⟨1, 5, 7, ACTION_CLOSE_DEV.val⟩, []⟩ =
        .ok (w2, false) ∧ w2.driver_obj = ⟨1, 0, NULL, 0⟩ := by
  obtain ⟨w1, w2, e1, hw1, _, e2, hd2, _⟩ :=
    new_device_while_tracked_is_dropped 1 demo_host ⟨⟨1, 5, 7, 0⟩, []⟩ 7 6
      demo_host_succeeds (by decide) (by decide) (by decide)
  have h1 : w1 = ⟨⟨1, 5, 7, ACTION_CLOSE_DEV.val⟩, []⟩ := by
    cases e1; rfl
  rw [h1] at e2
  exact ⟨demo_host_succeeds, w2, e2, hd2⟩

end ClassDriver
